import Mathlib

/-!
# NVS BINR receiver driver (`src/rcv/nvs.c`): shallow embedding and properties

The C translation unit is embedded function by function, keeping the names of
the source.  Conventions of the embedding:

* a byte is a natural number; every read of a byte (`U1`) reduces it modulo 256;
* a C `double` is held as its 64-bit IEEE-754 pattern (`Dbl`), a C `float` as its
  32-bit pattern (`Flt`); the field readers `R8`/`R4` are therefore exact, and the
  arithmetic on doubles (`+`, `*`, `floor`, comparisons, conversions) is taken
  from the environment `Env`, together with the constants of `rtklib.h` and the
  library routines of RTKLIB that `nvs.c` calls but does not define;
* `int` quantities that may be negative are integers, C `/` and `%` are
  `Int.tdiv` and `Int.tmod`;
* arrays of `raw_t` are total functions of the index; the frame buffer, whose
  bound `MAXRAWLEN` the source itself tests, is written through `storeByte`,
  which fails outside `0 .. MAXRAWLEN-1`.
-/

namespace NVS

/-- A C double, as its 64-bit IEEE-754 pattern. -/
abbrev Dbl := Nat

/-- A C float, as its 32-bit IEEE-754 pattern. -/
abbrev Flt := Nat

/-- The type gtime_t of rtklib.h: whole seconds and the fraction of a second. -/
structure GTime where
  time : Int
  sec : Dbl
deriving DecidableEq, Repr

/-- The type sbsmsg_t of rtklib.h, filled by the SBAS collaborator only. -/
structure SbsMsg where
  week : Int
  tow : Int
  prn : Int
  msg : Nat → Nat

/-- Everything `nvs.c` takes from outside the file: constants of `rtklib.h`,
properties of the host, IEEE double arithmetic, and RTKLIB library routines. -/
structure Env where
  /-- Size of the frame buffer `raw->buff`. -/
  MAXRAWLEN : Nat
  /-- Capacity of the observation set. -/
  MAXOBS : Nat
  NFREQ : Nat
  NEXOBS : Nat
  SYS_NONE : Nat
  SYS_GPS : Nat
  SYS_SBS : Nat
  SYS_GLO : Nat
  CODE_NONE : Nat
  CODE_L1C : Nat
  CODE_L1P : Nat
  CODE_L2C : Nat
  CODE_L2P : Nat
  CODE_L3I : Nat
  FREQ1 : Dbl
  FREQ1_GLO : Dbl
  DFRQ1_GLO : Dbl
  CLIGHT : Dbl
  /-- Whether the file is compiled with the symbol ENAGLO defined. -/
  ENAGLO : Bool
  /-- Byte order of the host (what `is_big_endian` observes). -/
  bigEndian : Bool
  /-- Whether plain `char` is signed on the host. -/
  charSigned : Bool
  /-- The double nearest to the decimal literal `m * 10^e`. -/
  lit : Int → Int → Dbl
  fadd : Dbl → Dbl → Dbl
  fsub : Dbl → Dbl → Dbl
  fmul : Dbl → Dbl → Dbl
  fdiv : Dbl → Dbl → Dbl
  fneg : Dbl → Dbl
  /-- Less-than on doubles. -/
  flt : Dbl → Dbl → Bool
  /-- Less-or-equal on doubles. -/
  fle : Dbl → Dbl → Bool
  ffloor : Dbl → Dbl
  fabs : Dbl → Dbl
  pow : Dbl → Dbl → Dbl
  /-- Conversion `int` to `double`. -/
  i2d : Int → Dbl
  /-- Conversion `double` to `int`. -/
  d2i : Dbl → Int
  /-- Conversion `double` to `unsigned char`. -/
  d2uc : Dbl → Nat
  /-- Conversion `float` to `double`. -/
  f2d : Flt → Dbl
  /-- Conversion `double` to `float`. -/
  d2f : Dbl → Flt
  /-- The number parser behind the `%lf` directive of `sscanf`. -/
  strtod : List Char → Option Dbl
  /-- The number parser behind the `%2x` directive of `sscanf`: the value of the
  hexadecimal item of at most two characters at the head of the string. -/
  hex2 : List Char → Option Nat
  /-- Satellite system and PRN to satellite number, 0 on failure. -/
  satno : Nat → Int → Nat
  adjgpsweek : Int → Int
  gpst2time : Int → Dbl → GTime
  /-- Time to (time of week, week). -/
  time2gpst : GTime → Dbl × Int
  timeadd : GTime → Dbl → GTime
  timediff : GTime → GTime → Dbl
  utc2gpst : GTime → GTime
  time2epoch : GTime → Nat → Dbl
  epoch2time : (Nat → Dbl) → GTime
  /-- The SBAS message decoder: status and the message slot it leaves. -/
  sbsdecodemsg : GTime → Int → (Nat → Nat) → SbsMsg → Int × SbsMsg

/-! ## Constants of the file -/

def NVSSYNC : Nat := 0x10
def NVSENDMSG : Nat := 0x03
def ID_XF5RAW : Nat := 0xf5
def ID_X4AIONO : Nat := 0x4a
def ID_X4BTIME : Nat := 0x4b
def ID_XF7EPH : Nat := 0xf7
def ID_XE5BIT : Nat := 0xe5
def ID_X88PVT : Nat := 0x88
def ID_X40ALM : Nat := 0x40
def ID_XD7ADVANCED : Nat := 0xd7
def ID_X02RATEPVT : Nat := 0x02
def ID_XF4RATERAW : Nat := 0xf4
def ID_XD7SMOOTH : Nat := 0xd7

/-! ## Field readers (`U1` .. `R8`) -/

/-- Read an unsigned byte. -/
def U1 (buff : Nat → Nat) (p : Nat) : Nat := buff p % 256

/-- Read a plain char; its sign is the host's. -/
def I1 (env : Env) (buff : Nat → Nat) (p : Nat) : Int :=
  if env.charSigned && decide (128 ≤ U1 buff p) then (U1 buff p : Int) - 256 else (U1 buff p : Int)

/-- The value of `n` bytes copied from the buffer into an `n`-byte unsigned
integer, in the byte order of the host (`memcpy`). -/
def memcpyU (env : Env) (buff : Nat → Nat) (p : Nat) : Nat → Nat
  | 0 => 0
  | n + 1 =>
    if env.bigEndian then memcpyU env buff p n * 256 + U1 buff (p + n)
    else memcpyU env buff p n + U1 buff (p + n) * 256 ^ n

def U2 (env : Env) (buff : Nat → Nat) (p : Nat) : Nat := memcpyU env buff p 2
def U4 (env : Env) (buff : Nat → Nat) (p : Nat) : Nat := memcpyU env buff p 4

/-- Read a `short`: two's complement of the 16-bit word. -/
def I2 (env : Env) (buff : Nat → Nat) (p : Nat) : Int :=
  if 32768 ≤ U2 env buff p then (U2 env buff p : Int) - 65536 else (U2 env buff p : Int)

/-- Read an `int`: two's complement of the 32-bit word. -/
def I4 (env : Env) (buff : Nat → Nat) (p : Nat) : Int :=
  if 2147483648 ≤ U4 env buff p then (U4 env buff p : Int) - 4294967296 else (U4 env buff p : Int)

def R4 (env : Env) (buff : Nat → Nat) (p : Nat) : Flt := memcpyU env buff p 4
def R8 (env : Env) (buff : Nat → Nat) (p : Nat) : Dbl := memcpyU env buff p 8

/-! ## Receiver state (`raw_t` and the parts of it the file touches) -/

/-- The type obsd_t: one satellite of the current epoch, with one value per
frequency slot. -/
structure ObsD where
  time : GTime
  sat : Nat
  SNR : Nat → Nat
  LLI : Nat → Nat
  code : Nat → Nat
  L : Nat → Dbl
  P : Nat → Dbl
  D : Nat → Flt

/-- The type obs_t: number of observations and the records. -/
structure Obs where
  n : Nat
  data : Nat → ObsD

/-- The fields of eph_t that the file assigns. -/
structure Eph where
  sat : Int
  iode : Int
  iodc : Int
  sva : Int
  week : Int
  code : Int
  flag : Int
  toe : GTime
  toc : GTime
  ttr : GTime
  A : Dbl
  e : Dbl
  i0 : Dbl
  OMG0 : Dbl
  omg : Dbl
  M0 : Dbl
  deln : Dbl
  OMGd : Dbl
  idot : Dbl
  crc : Dbl
  crs : Dbl
  cuc : Dbl
  cus : Dbl
  cic : Dbl
  cis : Dbl
  toes : Dbl
  fit : Dbl
  f0 : Dbl
  f1 : Dbl
  f2 : Dbl
  tgd0 : Dbl
deriving DecidableEq

/-- The zero-initialised ephemeris of the source. -/
def Eph.zero : Eph :=
  { sat := 0, iode := 0, iodc := 0, sva := 0, week := 0, code := 0, flag := 0,
    toe := ⟨0, 0⟩, toc := ⟨0, 0⟩, ttr := ⟨0, 0⟩, A := 0, e := 0, i0 := 0, OMG0 := 0,
    omg := 0, M0 := 0, deln := 0, OMGd := 0, idot := 0, crc := 0, crs := 0, cuc := 0,
    cus := 0, cic := 0, cis := 0, toes := 0, fit := 0, f0 := 0, f1 := 0, f2 := 0,
    tgd0 := 0 }

/-- The fields of geph_t that the file assigns. -/
structure GEph where
  sat : Nat
  iode : Int
  frq : Int
  age : Int
  toe : GTime
  tof : GTime
  pos : Nat → Dbl
  vel : Nat → Dbl
  acc : Nat → Dbl
  taun : Dbl
  gamn : Dbl

/-- The zero-initialised GLONASS ephemeris of the source. -/
def GEph.zero : GEph :=
  { sat := 0, iode := 0, frq := 0, age := 0, toe := ⟨0, 0⟩, tof := ⟨0, 0⟩,
    pos := fun _ => 0, vel := fun _ => 0, acc := fun _ => 0, taun := 0, gamn := 0 }

/-- The fields of alm_t that the file assigns. -/
structure Alm where
  sat : Int
  svh : Int
  week : Int
  toa : GTime
  A : Dbl
  e : Dbl
  i0 : Dbl
  OMG0 : Dbl
  omg : Dbl
  M0 : Dbl
  OMGd : Dbl
  toas : Dbl
  f0 : Dbl
  f1 : Dbl

/-- The GLONASS almanac record of the file (fields as the source assigns them). -/
structure GAlm where
  sat : Int
  svh : Int
  Hn : Int
  tau : Flt
  lambda : Flt
  I : Flt
  eps : Flt
  omg : Flt
  tn : Flt
  Tn : Dbl
  Tndot : Flt
  na : Nat

/-- The navigation tables of nav_t that the file touches. -/
structure Nav where
  eph : Int → Eph
  geph : Int → GEph
  alm : Int → Alm
  galm : Int → GAlm
  ion_gps : Nat → Dbl
  utc_gps : Nat → Dbl
  leaps : Int

/-- The PVT record of raw_t. -/
structure Pvt where
  pos : Nat → Dbl
  vel : Nat → Dbl
  std : Flt
  dev : Flt
  prev : Nat
  sol2d : Nat
  diff_used : Nat
  raim : Nat
  diff_flag : Nat
  time : GTime

/-- The receiver state raw_t, restricted to the fields `nvs.c` reads or writes. -/
structure Raw where
  time : GTime
  obs : Obs
  nav : Nav
  sbsmsg : SbsMsg
  msgtype : String
  ephsat : Int
  pvt : Pvt
  /-- The last raw flag byte per (satellite - 1, frequency slot). -/
  halfc : Int → Nat → Nat
  nbyte : Int
  len : Int
  /-- The escape toggle of the stream synchronizer. -/
  flag : Int
  buff : Nat → Nat
  opt : List Char

/-! ## String helpers of the C library used on the option string -/

/-- The C function strstr: the suffix of the haystack starting at the first
occurrence of the needle. -/
def strstr : List Char → List Char → Option (List Char)
  | [], needle => if needle.isEmpty then some [] else none
  | c :: cs, needle =>
    if needle.isPrefixOf (c :: cs) then some (c :: cs) else strstr cs needle

/-- The call `sscanf(q,"-TADJ=%lf",&tadj)`: the literal part of the format has to
match the input character by character before the number is converted; when it
does not, `tadj` keeps its value. -/
def sscanf_TADJ (env : Env) (q : List Char) (tadj : Dbl) : Dbl :=
  if "-TADJ=".toList.isPrefixOf q then
    match env.strtod (q.drop 6) with
    | some v => v
    | none => tadj
  else tadj

/-! ## `uraindex` -/

/-- The table ura_eph of the source. -/
def ura_eph (env : Env) : List Dbl :=
  [env.lit 24 (-1), env.lit 34 (-1), env.lit 485 (-2), env.lit 685 (-2), env.lit 965 (-2),
   env.lit 1365 (-2), env.lit 24 0, env.lit 48 0, env.lit 96 0, env.lit 192 0,
   env.lit 384 0, env.lit 768 0, env.lit 1536 0, env.lit 3072 0, env.lit 6144 0, 0]

/-- The loop of uraindex from index `i`, with `k` iterations left at most. -/
def uraindex_loop (env : Env) (value : Dbl) : Nat → Nat → Nat
  | 0, i => i
  | k + 1, i =>
    if i < 15 then
      if env.fle value ((ura_eph env).getD i 0) then i else uraindex_loop env value k (i + 1)
    else i

/-- The function uraindex: ura value (m) to ura index. -/
def uraindex (env : Env) (value : Dbl) : Nat := uraindex_loop env value 15 0

/-! ## `decode_xf5raw`: raw measurement data -/

/-- The satellite system of a record, from its signal type (source lines 133-140). -/
def xf5raw_sys (env : Env) (type : Nat) : Nat :=
  if type = 2 ∨ type = 34 ∨ type = 50 ∨ type = 66 ∨ type = 82 ∨ type = 130 ∨ type = 162 ∨
      type = 194 then env.SYS_GPS
  else if type = 1 ∨ type = 3 ∨ type = 5 ∨ type = 6 ∨ type = 17 ∨ type = 33 ∨ type = 49 ∨
      type = 65 ∨ type = 81 ∨ type = 129 ∨ type = 161 ∨ type = 193 then env.SYS_GLO
  else if type = 4 ∨ type = 68 ∨ type = 84 then env.SYS_SBS
  else env.SYS_NONE

/-- The frequency slot of a record, from its signal type (first switch). -/
def xf5raw_index (type : Nat) : Nat :=
  if type = 1 ∨ type = 2 ∨ type = 4 ∨ type = 5 ∨ type = 17 ∨ type = 129 ∨ type = 130 then 0
  else if type = 3 ∨ type = 6 ∨ type = 33 ∨ type = 34 ∨ type = 49 ∨ type = 50 ∨ type = 161 ∨
      type = 162 then 1
  else if type = 66 ∨ type = 68 ∨ type = 82 ∨ type = 84 ∨ type = 193 ∨ type = 194 then 2
  else 0

/-- The code label of a record, from its signal type (second switch). -/
def xf5raw_code (env : Env) (type : Nat) : Nat :=
  if type = 1 ∨ type = 2 then env.CODE_L1C
  else if type = 5 ∨ type = 17 then env.CODE_L1P
  else if type = 3 ∨ type = 33 ∨ type = 34 ∨ type = 50 then env.CODE_L2C
  else if type = 6 ∨ type = 49 then env.CODE_L2P
  else if type = 66 ∨ type = 68 ∨ type = 82 ∨ type = 84 ∨ type = 193 ∨ type = 194 then
    env.CODE_L3I
  else env.CODE_L1C

/-- The search loop `for(j=0;j<n;j++) if(data[j].sat==sat) ... break`, from index
`j` with `k` indices left: the first index holding the satellite. -/
def findSatFrom (data : Nat → ObsD) (sat : Nat) : Nat → Nat → Option Nat
  | 0, _ => none
  | k + 1, j => if (data j).sat = sat then some j else findSatFrom data sat k (j + 1)

/-- The search over the first `n` observations. -/
def findSat (data : Nat → ObsD) (sat : Nat) (n : Nat) : Option Nat := findSatFrom data sat n 0

/-- The initialisation of a fresh observation record: every slot zeroed. -/
def obsd_clear (env : Env) (d : ObsD) : ObsD :=
  { d with
    L := fun j => if j < env.NFREQ + env.NEXOBS then 0 else d.L j
    P := fun j => if j < env.NFREQ + env.NEXOBS then 0 else d.P j
    D := fun j => if j < env.NFREQ + env.NEXOBS then 0 else d.D j
    SNR := fun j => if j < env.NFREQ + env.NEXOBS then 0 else d.SNR j
    LLI := fun j => if j < env.NFREQ + env.NEXOBS then 0 else d.LLI j
    code := fun j => if j < env.NFREQ + env.NEXOBS then env.CODE_NONE else d.code j }

/-- The range check of a record: true when the record is to be skipped. -/
def xf5raw_rangeErr (env : Env) (L1 P1 D1 : Dbl) : Bool :=
  env.flt L1 (env.fneg (env.lit 1 10)) || env.flt (env.lit 1 10) L1 ||
  env.flt P1 (env.fneg (env.lit 1 10)) || env.flt (env.lit 1 10) P1 ||
  env.flt D1 (env.fneg (env.lit 1 5)) || env.flt (env.lit 1 5) D1

/-- The buffer index of record `i`: `p` in the record loop (`raw->buff+2`, plus
27 for the header, plus 30 per record). -/
def xf5raw_p (i : Nat) : Nat := 2 + 27 + 30 * i

/-- The signal type byte of record `i`. -/
def xf5raw_type (buff : Nat → Nat) (i : Nat) : Nat := U1 buff (xf5raw_p i)

/-- The satellite number of record `i` (0 when `satno` fails): the system from
the signal type, the PRN from the next byte, offset by 120 for SBAS. -/
def xf5raw_sat (env : Env) (buff : Nat → Nat) (i : Nat) : Nat :=
  env.satno (xf5raw_sys env (xf5raw_type buff i))
    (if xf5raw_sys env (xf5raw_type buff i) = env.SYS_SBS then
      (U1 buff (xf5raw_p i + 1) : Int) + 120
    else (U1 buff (xf5raw_p i + 1) : Int))

/-- The range check applied to record `i`. -/
def xf5raw_range (env : Env) (buff : Nat → Nat) (i : Nat) : Bool :=
  xf5raw_rangeErr env (R8 env buff (xf5raw_p i + 4)) (R8 env buff (xf5raw_p i + 12))
    (R8 env buff (xf5raw_p i + 20))

/-- The frequency slot of record `i`. -/
def xf5raw_slot (buff : Nat → Nat) (i : Nat) : Nat := xf5raw_index (xf5raw_type buff i)

/-- The code label of record `i`. -/
def xf5raw_label (env : Env) (buff : Nat → Nat) (i : Nat) : Nat :=
  xf5raw_code env (xf5raw_type buff i)

/-- The carrier phase stored for record `i` (source lines 248-252); `carrNo` is
the `char` at `p+2` held in an `unsigned char`. -/
def xf5raw_Lval (env : Env) (buff : Nat → Nat) (toff : Dbl) (i : Nat) : Dbl :=
  if xf5raw_sys env (xf5raw_type buff i) = env.SYS_GLO then
    env.fsub (R8 env buff (xf5raw_p i + 4)) (env.fmul toff (env.fadd env.FREQ1_GLO
      (env.fmul env.DFRQ1_GLO (env.i2d (Int.emod (I1 env buff (xf5raw_p i + 2)) 256)))))
  else env.fsub (R8 env buff (xf5raw_p i + 4)) (env.fmul toff env.FREQ1)

/-- The pseudorange stored for record `i` (source line 253). -/
def xf5raw_Pval (env : Env) (buff : Nat → Nat) (toff dTowFrac : Dbl) (i : Nat) : Dbl :=
  env.fsub (env.fmul (env.fmul (env.fsub (R8 env buff (xf5raw_p i + 12)) dTowFrac) env.CLIGHT)
    (env.lit 1 (-3))) (env.fmul toff env.CLIGHT)

/-- The Doppler stored for record `i` (source line 254). -/
def xf5raw_Dval (env : Env) (buff : Nat → Nat) (i : Nat) : Flt :=
  env.d2f (R8 env buff (xf5raw_p i + 20))

/-- The signal-to-noise ratio stored for record `i` (source line 246). -/
def xf5raw_SNRval (env : Env) (buff : Nat → Nat) (i : Nat) : Nat :=
  env.d2uc (env.fadd (env.fmul (env.i2d (I1 env buff (xf5raw_p i + 3))) (env.lit 4 0))
    (env.lit 5 (-1)))

/-- The flag byte of record `i`, `U1(p+28)`. -/
def xf5raw_flag (buff : Nat → Nat) (i : Nat) : Nat := U1 buff (xf5raw_p i + 28)

/-- The index `number` of the observation a record of satellite `sat` goes to:
the index found by the search, else the next free index `n`. -/
def xf5raw_number (raw : Raw) (sat n : Nat) : Nat := (findSat raw.obs.data sat n).getD n

/-- The observation record at `number` after the conditional initialisation
(`flag2==0`: a satellite not seen yet in this epoch). -/
def xf5raw_d0 (env : Env) (raw : Raw) (sat n : Nat) : ObsD :=
  if (findSat raw.obs.data sat n).isSome then raw.obs.data (xf5raw_number raw sat n)
  else obsd_clear env (raw.obs.data (xf5raw_number raw sat n))

/-- The test of source line 242: the record carries a civil code and the slot
already holds a precise code. -/
def xf5raw_keep (env : Env) (code : Nat) (d0 : ObsD) (index : Nat) : Prop :=
  (code = env.CODE_L1C ∨ code = env.CODE_L2C) ∧
    (d0.code index = env.CODE_L1P ∨ d0.code index = env.CODE_L2P)

instance (env : Env) (code : Nat) (d0 : ObsD) (index : Nat) :
    Decidable (xf5raw_keep env code d0 index) := by
  unfold xf5raw_keep
  infer_instance

/-- Record `i` is applied in the state `raw` with `n` observations collected: it
resolves to a satellite, passes the range check and is not held back by the
test of line 242. -/
def xf5raw_applied (env : Env) (i n : Nat) (raw : Raw) : Prop :=
  xf5raw_sat env raw.buff i ≠ 0 ∧ xf5raw_range env raw.buff i = false ∧
    ¬ xf5raw_keep env (xf5raw_label env raw.buff i)
      (xf5raw_d0 env raw (xf5raw_sat env raw.buff i) n) (xf5raw_slot raw.buff i)

instance (env : Env) (i n : Nat) (raw : Raw) : Decidable (xf5raw_applied env i n raw) := by
  unfold xf5raw_applied
  infer_instance

/-- The loss-of-lock indicator stored for record `i` (source line 260): set when
bit 0x08 of the flag byte is on and bit 0x08 of the stored flag byte is off. -/
def xf5raw_LLIval (env : Env) (raw : Raw) (i : Nat) : Nat :=
  if xf5raw_flag raw.buff i &&& 0x08 ≠ 0 ∧
      ¬ (raw.halfc ((xf5raw_sat env raw.buff i : Int) - 1) (xf5raw_slot raw.buff i) &&& 0x08 ≠ 0)
  then 1 else 0

/-- The observation record after record `i` has been applied to it (source
lines 245-271). -/
def xf5raw_d1 (env : Env) (time : GTime) (toff dTowFrac : Dbl) (i n : Nat) (raw : Raw) : ObsD :=
  let d0 := xf5raw_d0 env raw (xf5raw_sat env raw.buff i) n
  let index := xf5raw_slot raw.buff i
  { time := time
    SNR := Function.update d0.SNR index (xf5raw_SNRval env raw.buff i)
    L := Function.update d0.L index (xf5raw_Lval env raw.buff toff i)
    P := Function.update d0.P index (xf5raw_Pval env raw.buff toff dTowFrac i)
    D := Function.update d0.D index (xf5raw_Dval env raw.buff i)
    code := Function.update d0.code index (xf5raw_label env raw.buff i)
    LLI := Function.update d0.LLI index (xf5raw_LLIval env raw i)
    sat := xf5raw_sat env raw.buff i }

/-- One pass of the record loop of decode_xf5raw: record `i` of the frame, with `n`
observations collected so far.  Returns the new count and state. -/
def xf5raw_record (env : Env) (time : GTime) (toff dTowFrac : Dbl) (i n : Nat) (raw : Raw) :
    Nat × Raw :=
  let sat := xf5raw_sat env raw.buff i
  if sat = 0 then (n, raw)
  else if xf5raw_range env raw.buff i then (n, raw)
  else
    let index := xf5raw_slot raw.buff i
    let number := xf5raw_number raw sat n
    let flag2 := (findSat raw.obs.data sat n).isSome
    let d0 := xf5raw_d0 env raw sat n
    if xf5raw_keep env (xf5raw_label env raw.buff i) d0 index then
      (n, { raw with obs := { raw.obs with data := Function.update raw.obs.data number d0 } })
    else
      (if flag2 then n else n + 1,
       { raw with
         obs := { raw.obs with
                  data := Function.update raw.obs.data number
                    (xf5raw_d1 env time toff dTowFrac i n raw) }
         halfc := Function.update raw.halfc ((sat : Int) - 1)
           (Function.update (raw.halfc ((sat : Int) - 1)) index (xf5raw_flag raw.buff i)) })

/-- The record loop `for (i=0,p+=27;(i<nsat) && (n<MAXOBS); i++,p+=30)`, over the
record indices still to visit. -/
def xf5raw_loop (env : Env) (time : GTime) (toff dTowFrac : Dbl) :
    List Nat → Nat → Raw → Nat × Raw
  | [], n, raw => (n, raw)
  | i :: rest, n, raw =>
    if n < env.MAXOBS then
      xf5raw_loop env time toff dTowFrac rest (xf5raw_record env time toff dTowFrac i n raw).1
        (xf5raw_record env time toff dTowFrac i n raw).2
    else (n, raw)

/-- The value of `tadj` after the option scan at the head of decode_xf5raw. -/
def xf5raw_tadj (env : Env) (opt : List Char) : Dbl :=
  match strstr opt "-tadj".toList with
  | some q => sscanf_TADJ env q 0
  | none => 0

/-- The epoch of a raw-measurement frame and the offset `toff`, as decode_xf5raw
derives them (source lines 104-116); `week` is the adjusted week. -/
def xf5raw_epoch (env : Env) (week : Int) (dTowInt : Int) (tadj : Dbl) : GTime × Dbl :=
  let time := env.gpst2time week (env.fmul (env.i2d dTowInt) (env.lit 1 (-3)))
  if env.flt 0 tadj then
    let tn := env.fdiv (env.time2gpst time).1 tadj
    let toff := env.fmul (env.fsub tn (env.ffloor (env.fadd tn (env.lit 5 (-1))))) tadj
    (env.timeadd time (env.fneg toff), toff)
  else (time, 0)

/-- The week field of a raw-measurement frame, `U2(p+8)`. -/
def xf5raw_week (env : Env) (raw : Raw) : Int := (U2 env raw.buff (2 + 8) : Int)

/-- The value of `dTowGPS` in decode_xf5raw: time of week (UTC) plus the GPS-UTC
time-scale offset. -/
def xf5raw_dTowGPS (env : Env) (raw : Raw) : Dbl :=
  env.fadd (R8 env raw.buff 2) (R8 env raw.buff (2 + 10))

/-- The value of `dTowInt` in decode_xf5raw: `10.0*floor((dTowGPS/10.0)+0.5)` as an int. -/
def xf5raw_dTowInt (env : Env) (raw : Raw) : Int :=
  env.d2i (env.fmul (env.lit 10 0)
    (env.ffloor (env.fadd (env.fdiv (xf5raw_dTowGPS env raw) (env.lit 10 0)) (env.lit 5 (-1)))))

/-- The value of `dTowFrac` in decode_xf5raw. -/
def xf5raw_dTowFrac (env : Env) (raw : Raw) : Dbl :=
  env.fsub (xf5raw_dTowGPS env raw) (env.i2d (xf5raw_dTowInt env raw))

/-- The epoch `time` decode_xf5raw derives from the frame (after the time-tag
adjustment). -/
def xf5raw_time (env : Env) (raw : Raw) : GTime :=
  (xf5raw_epoch env (env.adjgpsweek (xf5raw_week env raw)) (xf5raw_dTowInt env raw)
    (xf5raw_tadj env raw.opt)).1

/-- The offset `toff` decode_xf5raw derives from the frame. -/
def xf5raw_toff (env : Env) (raw : Raw) : Dbl :=
  (xf5raw_epoch env (env.adjgpsweek (xf5raw_week env raw)) (xf5raw_dTowInt env raw)
    (xf5raw_tadj env raw.opt)).2

/-- The function decode_xf5raw: status and the receiver state it leaves. -/
def decode_xf5raw (env : Env) (raw : Raw) : Int × Raw :=
  if xf5raw_week env raw ≥ 4096 then (-1, raw)
  else if Int.tmod (raw.len - 31) 30 ≠ 0 then (-1, raw)
  else
    let nsat := Int.tdiv (raw.len - 31) 30
    let time := xf5raw_time env raw
    if raw.time.time ≠ 0 ∧
        env.flt (env.lit 86400 0) (env.fabs (env.timediff time raw.time)) = true then (0, raw)
    else if env.fle (env.fabs (env.timediff time raw.time)) (env.lit 1 (-3)) = true then (0, raw)
    else
      let r := xf5raw_loop env time (xf5raw_toff env raw) (xf5raw_dTowFrac env raw)
        (List.range nsat.toNat) 0 { raw with obs := { raw.obs with n := 0 } }
      (1, { r.2 with time := time, obs := { r.2.obs with n := r.1 } })

/-! ## Ephemeris decoders -/

/-- The test `strstr(raw->opt,"-EPHALL")` as a truth value. -/
def optEPHALL (opt : List Char) : Bool := (strstr opt "-EPHALL".toList).isSome

/-- The week field of a GPS ephemeris frame as decode_gpsephem holds it: the
`short` read by `I2`, stored in an `unsigned short`. -/
def gpsephem_week (env : Env) (raw : Raw) : Int := Int.emod (I2 env raw.buff (2 + 136)) 65536

/-- The ephemeris record decode_gpsephem builds from the frame before the week
and epoch checks (source lines 290-317). -/
def gpsephem_fields (env : Env) (raw : Raw) : Eph :=
  let b := raw.buff
  { Eph.zero with
    crs := env.f2d (R4 env b (2 + 2))
    deln := env.fmul (env.f2d (R4 env b (2 + 6))) (env.lit 1 3)
    M0 := R8 env b (2 + 10)
    cuc := env.f2d (R4 env b (2 + 18))
    e := R8 env b (2 + 22)
    cus := env.f2d (R4 env b (2 + 30))
    A := env.pow (R8 env b (2 + 34)) (env.i2d 2)
    toes := env.fmul (R8 env b (2 + 42)) (env.lit 1 (-3))
    cic := env.f2d (R4 env b (2 + 50))
    OMG0 := R8 env b (2 + 54)
    cis := env.f2d (R4 env b (2 + 62))
    i0 := R8 env b (2 + 66)
    crc := env.f2d (R4 env b (2 + 74))
    omg := R8 env b (2 + 78)
    OMGd := env.fmul (R8 env b (2 + 86)) (env.lit 1 3)
    idot := env.fmul (R8 env b (2 + 94)) (env.lit 1 3)
    tgd0 := env.fmul (env.f2d (R4 env b (2 + 102))) (env.lit 1 (-3))
    f2 := env.fmul (env.f2d (R4 env b (2 + 114))) (env.lit 1 3)
    f1 := env.f2d (R4 env b (2 + 118))
    f0 := env.fmul (env.f2d (R4 env b (2 + 122))) (env.lit 1 (-3))
    sva := uraindex env (env.i2d (I2 env b (2 + 126)))
    iode := I2 env b (2 + 128)
    iodc := I2 env b (2 + 130)
    code := I2 env b (2 + 132)
    flag := I2 env b (2 + 134)
    fit := env.i2d 0 }

/-- The ephemeris decode_gpsephem stores when it accepts the frame. -/
def gpsephem_eph (env : Env) (sat : Int) (raw : Raw) : Eph :=
  let eph := gpsephem_fields env raw
  let toc := env.fmul (R8 env raw.buff (2 + 106)) (env.lit 1 (-3))
  let week := env.adjgpsweek (gpsephem_week env raw)
  { eph with
    week := week
    toe := env.gpst2time week eph.toes
    toc := env.gpst2time week toc
    ttr := raw.time
    sat := sat }

/-- The function decode_gpsephem. -/
def decode_gpsephem (env : Env) (sat : Int) (raw : Raw) : Int × Raw :=
  if gpsephem_week env raw ≥ 4096 then (-1, raw)
  else if raw.time.time = 0 then (0, raw)
  else if ¬ optEPHALL raw.opt ∧ (gpsephem_fields env raw).iode = (raw.nav.eph (sat - 1)).iode then
    (0, raw)
  else
    (2, { raw with
          nav := { raw.nav with eph := Function.update raw.nav.eph (sat - 1)
                                  (gpsephem_eph env sat raw) }
          ephsat := sat })

/-- The function adjday: adjust daily rollover of time. -/
def adjday (env : Env) (time : GTime) (tod : Dbl) : GTime :=
  let ep := env.time2epoch time
  let tod_p := env.fadd (env.fadd (env.fmul (ep 3) (env.lit 3600 0))
    (env.fmul (ep 4) (env.lit 60 0))) (ep 5)
  let tod :=
    if env.flt tod (env.fsub tod_p (env.lit 43200 0)) then env.fadd tod (env.lit 86400 0)
    else if env.flt (env.fadd tod_p (env.lit 43200 0)) tod then env.fsub tod (env.lit 86400 0)
    else tod
  let ep0 : Nat → Dbl := fun k => if k = 3 ∨ k = 4 ∨ k = 5 then 0 else ep k
  env.timeadd (env.epoch2time ep0) tod

/-- The function decode_gloephem. -/
def decode_gloephem (env : Env) (_sat : Int) (raw : Raw) : Int × Raw :=
  let p := 2
  let b := raw.buff
  if raw.len ≥ 93 then
    let prn : Int := I1 env b (p + 1)
    let tb : Int := env.d2i (env.fmul (R8 env b (p + 75)) (env.lit 1 (-3)))
    let tk : Int := tb
    let gsat := env.satno env.SYS_GLO prn
    if gsat = 0 then (-1, raw)
    else if raw.time.time = 0 then (0, raw)
    else
      let geph : GEph :=
        { GEph.zero with
          frq := I1 env b (p + 2)
          pos := fun k => if k = 0 then R8 env b (p + 3) else if k = 1 then R8 env b (p + 11)
                          else if k = 2 then R8 env b (p + 19) else 0
          vel := fun k => if k = 0 then env.fmul (R8 env b (p + 27)) (env.lit 1 3)
                          else if k = 1 then env.fmul (R8 env b (p + 35)) (env.lit 1 3)
                          else if k = 2 then env.fmul (R8 env b (p + 43)) (env.lit 1 3) else 0
          acc := fun k => if k = 0 then env.fmul (R8 env b (p + 51)) (env.lit 1 6)
                          else if k = 1 then env.fmul (R8 env b (p + 59)) (env.lit 1 6)
                          else if k = 2 then env.fmul (R8 env b (p + 67)) (env.lit 1 6) else 0
          gamn := env.f2d (R4 env b (p + 83))
          taun := env.fmul (env.f2d (R4 env b (p + 87))) (env.lit 1 (-3))
          age := I2 env b (p + 91)
          sat := gsat
          iode := Int.emod (Int.tdiv tb 900) 128
          toe := env.utc2gpst (adjday env raw.time (env.fsub (env.i2d tb) (env.lit 10800 0)))
          tof := env.utc2gpst (adjday env raw.time (env.fsub (env.i2d tk) (env.lit 10800 0))) }
      (2, { raw with
            nav := { raw.nav with geph := Function.update raw.nav.geph (prn - 1) geph }
            ephsat := gsat })
  else (-1, raw)

/-- The function decode_xf7eph: ephemerides in clear. -/
def decode_xf7eph (env : Env) (raw : Raw) : Int × Raw :=
  if raw.len < 93 then (-1, raw)
  else
    let sys := if U1 raw.buff 2 = 1 then env.SYS_GPS
               else if U1 raw.buff 2 = 2 then env.SYS_GLO else env.SYS_NONE
    let prn : Int := U1 raw.buff 3
    let sat := env.satno (if sys = 1 then env.SYS_GPS else env.SYS_GLO) prn
    if sat = 0 then (-1, raw)
    else if sys = env.SYS_GPS then decode_gpsephem env sat raw
    else if sys = env.SYS_GLO then decode_gloephem env sat raw
    else (0, raw)

/-! ## Subframe bundle, ionosphere and time-scale decoders -/

/-- The block loop of decode_xe5bit with `k` blocks left and the block start
index `s` (relative to the byte after the message identifier). -/
def xe5bit_loop (env : Env) (raw : Raw) : Nat → Nat → Int × Raw
  | 0, _ => (0, raw)
  | k + 1, s =>
    if raw.len < ((s + 10 : Nat) : Int) then (-1, raw)
    else
      let uiDataType := U1 raw.buff (2 + s + 1)
      if uiDataType = 1 then xe5bit_loop env raw k (s + 19)
      else if uiDataType = 2 then xe5bit_loop env raw k (s + 47)
      else if uiDataType = 4 then
        let prn : Int := (U1 raw.buff (2 + (s + 2)) : Int) + 120
        let words : Nat → Nat := fun i =>
          if i = 7 then U4 env raw.buff (2 + (s + 7 + 4 * i)) >>> 6
          else if i < 10 then U4 env raw.buff (2 + (s + 7 + 4 * i)) else 0
        let r := env.sbsdecodemsg raw.time prn words raw.sbsmsg
        (if r.1 ≠ 0 then 3 else 0, { raw with sbsmsg := r.2 })
      else (-1, raw)

/-- The function decode_xe5bit. -/
def decode_xe5bit (env : Env) (raw : Raw) : Int × Raw :=
  let uiDataBlocks := U1 raw.buff 2
  if uiDataBlocks ≥ 16 then (-1, raw)
  else xe5bit_loop env raw uiDataBlocks 1

/-- The function decode_x4aiono. -/
def decode_x4aiono (env : Env) (raw : Raw) : Int × Raw :=
  (9, { raw with
        nav := { raw.nav with
                 ion_gps := fun k => if k < 8 then env.f2d (R4 env raw.buff (2 + 4 * k))
                                     else raw.nav.ion_gps k } })

/-- The function decode_x4btime. -/
def decode_x4btime (env : Env) (raw : Raw) : Int × Raw :=
  (9, { raw with
        nav := { raw.nav with
                 utc_gps := fun k =>
                   if k = 1 then R8 env raw.buff 2
                   else if k = 0 then R8 env raw.buff (2 + 8)
                   else if k = 2 then env.i2d (I4 env raw.buff (2 + 16))
                   else if k = 3 then env.i2d (I2 env raw.buff (2 + 20))
                   else raw.nav.utc_gps k
                 leaps := I1 env raw.buff (2 + 22) } })

/-! ## Extended-float converter and the PVT and almanac decoders -/

/-- The function is_big_endian: the byte order probe. -/
def is_big_endian (env : Env) : Bool := env.bigEndian

/-- One of the bit-copy loops of convert_R10: for `i = 0 .. n-1`, when bit
`src + i` of `w` is set, set bit `dst + i` of the accumulator. -/
def copyBits (w : Nat) (n src dst : Nat) (acc : Nat) : Nat :=
  (List.range n).foldl
    (fun r i => if (1 <<< (src + i)) &&& w ≠ 0 then r ||| (1 <<< (dst + i)) else r) acc

/-- The function convert_R10: the 64-bit pattern of the double built from the
three words of a 10-byte extended float.  The `short` exponent `ex` is held as
its 16-bit pattern. -/
def convert_R10 (env : Env) (part1 part2 part3 : Nat) : Dbl :=
  let bit := if is_big_endian env then (1 <<< 15) &&& part1 else (1 <<< 31) &&& part3
  let resPart1 : Nat := if bit ≠ 0 then 0 ||| (1 <<< 31) else 0
  let ex0 : Nat := if is_big_endian env then part1 % 65536 else part3 / 65536 % 65536
  let ex : Nat := (ex0 + (65536 - 15360)) % 65536
  let resPart1 := copyBits ex 11 0 20 resPart1
  if is_big_endian env then
    let resPart1 := copyBits part2 20 11 0 resPart1
    let resPart2 := copyBits part2 11 0 21 0
    let resPart2 := copyBits part3 21 11 0 resPart2
    resPart1 * 4294967296 + resPart2
  else
    let resPart1 := copyBits part3 15 0 5 resPart1
    let resPart1 := copyBits part2 5 27 0 resPart1
    let resPart2 := copyBits part2 27 0 5 0
    let resPart2 := copyBits part1 5 11 0 resPart2
    resPart1 * 4294967296 + resPart2

/-- Conversion of an `int` to `short` (two's complement wrap). -/
def toShort (x : Int) : Int := Int.emod (x + 32768) 65536 - 32768

/-- The function decode_x88pvt: PVT vector data.  The five status assignments
are parsed as C parses them: `!=` binds tighter than `&`, so the right operand
of `&` is the truth value of `(1<<k)!=0`. -/
def decode_x88pvt (env : Env) (raw : Raw) : Int × Raw :=
  let p := 2
  let b := raw.buff
  let timePart1 := U2 env b (p + 28)
  let timePart2 := U4 env b (p + 30)
  let timePart3 := U4 env b (p + 34)
  let week : Int := I2 env b (p + 38)
  let status := U1 b (p + 68)
  if week ≥ 4096 then (-1, raw)
  else
    let week := toShort (env.adjgpsweek week)
    let time := convert_R10 env timePart1 timePart2 timePart3
    (4, { raw with
          pvt :=
            { pos := fun k => if k = 0 then R8 env b p else if k = 1 then R8 env b (p + 8)
                              else if k = 2 then R8 env b (p + 16) else raw.pvt.pos k
              vel := fun k => if k = 0 then R8 env b (p + 40) else if k = 1 then R8 env b (p + 48)
                              else if k = 2 then R8 env b (p + 56) else raw.pvt.vel k
              std := R4 env b (p + 24)
              dev := R4 env b (p + 64)
              prev := status &&& (if (1 <<< 7) ≠ 0 then 1 else 0)
              sol2d := status &&& (if (1 <<< 6) ≠ 0 then 1 else 0)
              diff_used := status &&& (if (1 <<< 4) ≠ 0 then 1 else 0)
              raim := status &&& (if (1 <<< 3) ≠ 0 then 1 else 0)
              diff_flag := status &&& (if (1 <<< 2) ≠ 0 then 1 else 0)
              time := env.gpst2time week (env.fmul time (env.lit 1 (-3))) } })

/-- The function decode_x40alm: almanac data. -/
def decode_x40alm (env : Env) (raw : Raw) : Int × Raw :=
  let p := 2
  let b := raw.buff
  if raw.len < 42 then (0, raw)
  else
    let system := U1 b p
    if system = 1 then
      let prn : Int := U1 b (p + 1)
      let health : Int := U1 b (p + 2)
      let timePart1 : Nat := (Int.emod (I2 env b (p + 48)) 65536).toNat
      let timePart2 := U4 env b (p + 50)
      let timePart3 := U4 env b (p + 54)
      let time := convert_R10 env timePart1 timePart2 timePart3
      let wn : Int := if is_big_endian env then U2 env b (p + 72) else U2 env b (p + 58)
      let wn : Int := Int.emod (env.adjgpsweek wn) 65536
      let alm : Alm :=
        { toa := env.gpst2time wn (env.fmul time (env.lit 1 (-3)))
          toas := env.fmul time (env.lit 1 (-3))
          A := R8 env b (p + 16)
          M0 := env.f2d (R4 env b (p + 32))
          OMG0 := env.f2d (R4 env b (p + 24))
          OMGd := env.f2d (R4 env b (p + 12))
          e := env.f2d (R4 env b (p + 4))
          f0 := env.f2d (R4 env b (p + 36))
          f1 := env.f2d (R4 env b (p + 40))
          i0 := env.f2d (R4 env b (p + 8))
          omg := env.f2d (R4 env b (p + 28))
          sat := prn
          svh := health
          week := wn }
      (6, { raw with nav := { raw.nav with alm := Function.update raw.nav.alm (prn - 1) alm } })
    else if system = 2 then
      if env.ENAGLO then
        let prn : Int := U1 b (p + 1)
        let galm : GAlm :=
          { sat := prn
            svh := U1 b (p + 2)
            Hn := U1 b (p + 3)
            tau := R4 env b (p + 4)
            lambda := R4 env b (p + 8)
            I := R4 env b (p + 12)
            eps := R4 env b (p + 16)
            omg := R4 env b (p + 20)
            tn := R4 env b (p + 24)
            Tn := R8 env b (p + 28)
            Tndot := R4 env b (p + 36)
            na := if is_big_endian env then U2 env b (p + 54) else U2 env b (p + 40) }
        (6, { raw with
              nav := { raw.nav with galm := Function.update raw.nav.galm (prn - 1) galm } })
      else (6, raw)
    else (6, raw)

/-! ## Dispatcher and stream synchronizer -/

/-- The conversion `%<width>d` of printf: decimal, right-justified. -/
def fmt_d (width : Nat) (x : Int) : String :=
  String.mk (List.replicate (width - (toString x).length) ' ') ++ toString x

/-- The function decode_nvs: decode NVS raw message. -/
def decode_nvs (env : Env) (raw : Raw) : Int × Raw :=
  let type := U1 raw.buff 1
  let raw1 : Raw :=
    { raw with msgtype := "NVS: type=" ++ fmt_d 2 type ++ " len=" ++ fmt_d 3 raw.len }
  if type = ID_XF5RAW then decode_xf5raw env raw1
  else if type = ID_XF7EPH then decode_xf7eph env raw1
  else if type = ID_XE5BIT then decode_xe5bit env raw1
  else if type = ID_X4AIONO then decode_x4aiono env raw1
  else if type = ID_X4BTIME then decode_x4btime env raw1
  else if type = ID_X88PVT then decode_x88pvt env raw1
  else if type = ID_X40ALM then decode_x40alm env raw1
  else (0, raw1)

/-- A store `raw->buff[i] = v`: defined only inside the buffer. -/
def storeByte (env : Env) (raw : Raw) (i : Int) (v : Nat) : Option Raw :=
  if 0 ≤ i ∧ i < (env.MAXRAWLEN : Int) then
    some { raw with buff := Function.update raw.buff i.toNat v }
  else none

/-- The function input_nvs: one byte of the stream.  The result is `none` when
the call would store outside the frame buffer. -/
def input_nvs (env : Env) (raw : Raw) (data : Nat) : Option (Int × Raw) :=
  if raw.nbyte = 0 ∧ data = NVSSYNC then
    (storeByte env raw 0 data).map (fun r => (0, { r with nbyte := 1 }))
  else if raw.nbyte = 1 ∧ data ≠ NVSSYNC ∧ data ≠ NVSENDMSG then
    (storeByte env raw 1 data).map (fun r => (0, { r with nbyte := 2, flag := 0 }))
  else
    let raw1 : Raw :=
      if data = NVSSYNC then { raw with flag := Int.tmod (raw.flag + 1) 2 } else raw
    let stored : Option Raw :=
      if data ≠ NVSSYNC ∨ raw1.flag ≠ 0 then
        (storeByte env raw1 raw1.nbyte data).map (fun r => { r with nbyte := r.nbyte + 1 })
      else some raw1
    match stored with
    | none => none
    | some raw2 =>
      if data = NVSENDMSG ∧ raw2.flag ≠ 0 then
        some (decode_nvs env { raw2 with len := raw2.nbyte, nbyte := 0 })
      else if raw2.nbyte = (env.MAXRAWLEN : Int) then some (-1, { raw2 with nbyte := 0 })
      else some (0, raw2)

/-- Feed a byte sequence to input_nvs one byte at a time: the statuses returned,
in order, and the final state. -/
def input_nvs_list (env : Env) : Raw → List Nat → Option (List Int × Raw)
  | raw, [] => some ([], raw)
  | raw, d :: ds =>
    match input_nvs env raw d with
    | none => none
    | some r =>
      match input_nvs_list env r.2 ds with
      | none => none
      | some rs => some (r.1 :: rs.1, rs.2)

/-- The wire form of a payload: every sync byte doubled. -/
def stuff : List Nat → List Nat
  | [] => []
  | b :: bs => if b = NVSSYNC then NVSSYNC :: NVSSYNC :: stuff bs else b :: stuff bs

/-- The first `n` bytes of a buffer. -/
def bufPrefix (buff : Nat → Nat) (n : Nat) : List Nat := (List.range n).map buff

/-! ## File reader -/

/-- The second loop of input_nvsf and the code after it: `odd` is the escape
toggle, `i` the loop counter, the list is what `fgetc` still has to deliver (its
end is the end of the file).  The result holds the status, the state and the
rest of the file, and is `none` when a store falls outside the frame buffer. -/
def input_nvsf_body (env : Env) : Raw → Int → Nat → List Nat → Option (Int × Raw × List Nat)
  | raw, _, _, [] => some (-2, raw, [])
  | raw, odd, i, data :: fp =>
    let odd1 : Int := if data = NVSSYNC then Int.tmod (odd + 1) 2 else odd
    let stored : Option Raw :=
      if data ≠ NVSSYNC ∨ odd1 ≠ 0 then
        (storeByte env raw raw.nbyte data).map (fun r => { r with nbyte := r.nbyte + 1 })
      else some raw
    match stored with
    | none => none
    | some raw2 =>
      if data = NVSENDMSG ∧ odd1 ≠ 0 then
        let raw3 : Raw := { raw2 with len := raw2.nbyte }
        if raw3.len > (env.MAXRAWLEN : Int) then some (-1, raw3, fp)
        else some ((decode_nvs env raw3).1, (decode_nvs env raw3).2, fp)
      else if i ≥ 4096 then some (0, raw2, fp)
      else input_nvsf_body env raw2 odd1 (i + 1) fp

/-- The first loop of input_nvsf (frame synchronisation) with loop counter `i`,
followed by the rest of the function. -/
def input_nvsf_sync (env : Env) : Raw → Nat → List Nat → Option (Int × Raw × List Nat)
  | raw, _, [] => some (-2, raw, [])
  | raw, i, [data] =>
    if data = NVSSYNC then
      match storeByte env raw 0 data with
      | none => none
      | some raw1 => some (-2, raw1, [])
    else if i ≥ 4096 then some (0, raw, [])
    else some (-2, raw, [])
  | raw, i, data :: data2 :: fp =>
    if data = NVSSYNC then
      match storeByte env raw 0 data with
      | none => none
      | some raw1 =>
        if data2 ≠ NVSSYNC ∧ data2 ≠ NVSENDMSG then
          match storeByte env raw1 1 data2 with
          | none => none
          | some raw2 => input_nvsf_body env { raw2 with nbyte := 2 } 0 0 fp
        else if i ≥ 4096 then some (0, raw1, fp)
        else input_nvsf_sync env raw1 (i + 1) fp
    else if i ≥ 4096 then some (0, raw, data2 :: fp)
    else input_nvsf_sync env raw (i + 1) (data2 :: fp)

/-- The function input_nvsf: input a message from a file whose unread bytes are
`fp`. -/
def input_nvsf (env : Env) (raw : Raw) (fp : List Nat) : Option (Int × Raw × List Nat) :=
  input_nvsf_sync env raw 0 fp

/-! ## Command encoder -/

/-- The C function isspace in the "C" locale. -/
def isspace (c : Char) : Bool :=
  c = ' ' || (9 ≤ c.toNat && c.toNat ≤ 13)

/-- The decimal digits at the head of a string, accumulated onto `acc`. -/
def atoi_digits : List Char → Nat → Nat
  | [], acc => acc
  | c :: cs, acc => if c.isDigit then atoi_digits cs (acc * 10 + (c.toNat - 48)) else acc

/-- The value the C function atoi reads: white space, an optional sign, decimal
digits. -/
def atoi_value (s : List Char) : Int :=
  match s.dropWhile isspace with
  | '-' :: cs => -(atoi_digits cs 0 : Int)
  | '+' :: cs => (atoi_digits cs 0 : Int)
  | cs => (atoi_digits cs 0 : Int)

/-- The C function atoi; the result is `none` when the value does not fit `int`
(C leaves the behaviour undefined). -/
def atoi (s : List Char) : Option Int :=
  if -2147483648 ≤ atoi_value s ∧ atoi_value s ≤ 2147483647 then some (atoi_value s) else none

/-- The tokens that `strtok(mbuff," ")` and the following `strtok(NULL," ")`
calls return; `cur` holds the characters of the token being read, last first. -/
def strtok_sp : List Char → List Char → List (List Char)
  | [], cur => if cur = [] then [] else [cur.reverse]
  | c :: cs, cur =>
    if c = ' ' then (if cur = [] then strtok_sp cs [] else cur.reverse :: strtok_sp cs [])
    else strtok_sp cs (c :: cur)

/-- The call `sscanf(args[n],"%2x",&byte)`: the return value and the value of
`byte` afterwards (`none` while it is uninitialised).  An input that ends before
a character of the item is read gives EOF. -/
def sscanf_2x (env : Env) (s : List Char) (byte : Option Nat) : Int × Option Nat :=
  if s.all isspace then (-1, byte)
  else
    match env.hex2 s with
    | some v => (1, some v)
    | none => (0, byte)

/-- The loop of the `CFG-BINR` branch over the arguments left: the bytes written,
`none` when an uninitialised `byte` is written. -/
def gen_nvs_binr (env : Env) : List (List Char) → Option Nat → Option (List Nat)
  | [], _ => some []
  | a :: as, byte =>
    let r := sscanf_2x env a byte
    if r.1 ≠ 0 then
      match r.2 with
      | none => none
      | some b =>
        (gen_nvs_binr env as r.2).map (fun out =>
          if b % 256 = NVSSYNC then b % 256 :: b % 256 :: out else b % 256 :: out)
    else gen_nvs_binr env as r.2

/-- The switch of the `CFG-RAWRATE` branch. -/
def gen_nvs_ui100Ms (iRate : Int) : Nat :=
  if iRate = 2 then 5 else if iRate = 5 then 2 else if iRate = 10 then 1 else 10

/-- The end of gen_nvs, where `out` is what has been written after the leading
sync byte: `n` is the count so far, the terminator is appended and `n+2`
returned. -/
def gen_nvs_finish (out : List Nat) : Int × List Nat :=
  (((1 + out.length : Nat) : Int) + 2, [NVSSYNC] ++ out ++ [0x10, 0x03])

/-- The function gen_nvs: the return value and the bytes written to `buff` from
index 0.  The result is `none` where C leaves the behaviour undefined: a message
that does not fit `mbuff`, a message without a token (`args[0]` is read
uninitialised), an atoi argument that does not fit `int`, an uninitialised
`byte`. -/
def gen_nvs (env : Env) (msg : List Char) : Option (Int × List Nat) :=
  if msg.length ≥ 1024 then none
  else
    let args := (strtok_sp msg []).take 32
    let narg := args.length
    match args with
    | [] => none
    | a0 :: rest =>
      if a0 = "CFG-PVTRATE".toList then
        if narg > 1 then
          (atoi (args.getD 1 [])).map (fun iRate =>
            gen_nvs_finish [ID_XD7ADVANCED, ID_X02RATEPVT, (Int.emod iRate 256).toNat])
        else some (gen_nvs_finish [ID_XD7ADVANCED, ID_X02RATEPVT])
      else if a0 = "CFG-RAWRATE".toList then
        if narg > 1 then
          (atoi (args.getD 1 [])).map (fun iRate =>
            gen_nvs_finish [ID_XF4RATERAW, gen_nvs_ui100Ms iRate])
        else some (gen_nvs_finish [ID_XF4RATERAW])
      else if a0 = "CFG-SMOOTH".toList then some (gen_nvs_finish [ID_XD7SMOOTH, 0x03, 0x01, 0x00])
      else if a0 = "CFG-BINR".toList then (gen_nvs_binr env rest none).map gen_nvs_finish
      else some (0, [NVSSYNC])

/-! ## A sample environment

The theorems below hold for every environment.  To evaluate the embedding on
concrete frames, `Sample.env` instantiates it: IEEE-754 binary64 arithmetic,
round to nearest even, computed on bit patterns; the constants of a stock
`rtklib.h`; and stand-ins of the RTKLIB library routines written after
`rtkcmn.c` (no CRC in the SBAS stand-in, a fixed reference week in
`adjgpsweek`). -/

namespace Sample
/-- An IEEE-754 binary interchange format: fraction bits and exponent bits. -/
structure Fmt where
  mb : Nat
  eb : Nat

def binary64 : Fmt := ⟨52, 11⟩
def binary32 : Fmt := ⟨23, 8⟩

/-- The exponent field of infinities and NaNs. -/
def Fmt.emax (f : Fmt) : Nat := 2 ^ f.eb - 1

/-- Every finite value of the format is an integer multiple of `2 ^ (-f.ulp)`. -/
def Fmt.ulp (f : Fmt) : Nat := 2 ^ (f.eb - 1) - 2 + f.mb

def fsign (f : Fmt) (x : Nat) : Bool := decide (x / 2 ^ (f.mb + f.eb) % 2 = 1)
def fexp (f : Fmt) (x : Nat) : Nat := x / 2 ^ f.mb % 2 ^ f.eb
def ffrac (f : Fmt) (x : Nat) : Nat := x % 2 ^ f.mb
def isNaN (f : Fmt) (x : Nat) : Bool := decide (fexp f x = f.emax) && decide (ffrac f x ≠ 0)
def isInf (f : Fmt) (x : Nat) : Bool := decide (fexp f x = f.emax) && decide (ffrac f x = 0)

/-- The magnitude of a pattern in units of `2 ^ (-f.ulp)`. -/
def mag (f : Fmt) (x : Nat) : Nat :=
  if fexp f x = 0 then ffrac f x else (2 ^ f.mb + ffrac f x) * 2 ^ (fexp f x - 1)

def pack (f : Fmt) (neg : Bool) (e m : Nat) : Nat :=
  (if neg then 2 ^ (f.mb + f.eb) else 0) + e * 2 ^ f.mb + m

def nan (f : Fmt) : Nat := pack f false f.emax (2 ^ (f.mb - 1))
def inf (f : Fmt) (neg : Bool) : Nat := pack f neg f.emax 0

/-- Binary search for the exponent of the leading bit: the greatest `acc + s`
reached through the steps with `2 ^ _ ≤ n`. -/
def ilog2Aux (n : Nat) : List Nat → Nat → Nat
  | [], acc => acc
  | s :: ss, acc => if 2 ^ (acc + s) ≤ n then ilog2Aux n ss (acc + s) else ilog2Aux n ss acc

/-- The floor of the binary logarithm, for `0 < n < 2 ^ 8192`. -/
def ilog2 (n : Nat) : Nat := ilog2Aux n [4096, 2048, 1024, 512, 256, 128, 64, 32, 16, 8, 4, 2, 1] 0

/-- Round `num / den` units to the nearest value of the format, ties to even. -/
def round (f : Fmt) (neg : Bool) (num den : Nat) : Nat :=
  let q0 := num / den
  let k := if q0 < 2 ^ (f.mb + 1) then 0 else ilog2 q0 - f.mb
  let d := den * 2 ^ k
  let q := num / d
  let r := num % d
  let q1 := if d < 2 * r ∨ (2 * r = d ∧ q % 2 = 1) then q + 1 else q
  if q1 < 2 ^ f.mb then pack f neg 0 q1
  else
    let k1 := if q1 = 2 ^ (f.mb + 1) then k + 1 else k
    let q2 := if q1 = 2 ^ (f.mb + 1) then 2 ^ f.mb else q1
    if f.emax ≤ k1 + 1 then inf f neg else pack f neg (k1 + 1) (q2 - 2 ^ f.mb)

/-- The value of a pattern in signed units. -/
def toUnits (f : Fmt) (x : Nat) : Int := if fsign f x then -(mag f x : Int) else (mag f x : Int)

def fneg (x : Nat) : Nat := if fsign binary64 x then x - 2 ^ 63 else x + 2 ^ 63
def fabs (x : Nat) : Nat := if fsign binary64 x then x - 2 ^ 63 else x

def fadd (a b : Nat) : Nat :=
  if isNaN binary64 a || isNaN binary64 b then nan binary64
  else if isInf binary64 a then
    (if isInf binary64 b && (fsign binary64 a != fsign binary64 b) then nan binary64 else a)
  else if isInf binary64 b then b
  else
    let s := toUnits binary64 a + toUnits binary64 b
    if s = 0 then (if fsign binary64 a && fsign binary64 b then pack binary64 true 0 0 else 0)
    else round binary64 (decide (s < 0)) s.natAbs 1

def fsub (a b : Nat) : Nat := fadd a (fneg b)

def fmul (a b : Nat) : Nat :=
  let neg := fsign binary64 a != fsign binary64 b
  if isNaN binary64 a || isNaN binary64 b then nan binary64
  else if isInf binary64 a || isInf binary64 b then
    (if mag binary64 a = 0 ∨ mag binary64 b = 0 then nan binary64 else inf binary64 neg)
  else round binary64 neg (mag binary64 a * mag binary64 b) (2 ^ binary64.ulp)

def fdiv (a b : Nat) : Nat :=
  let neg := fsign binary64 a != fsign binary64 b
  if isNaN binary64 a || isNaN binary64 b then nan binary64
  else if isInf binary64 a then (if isInf binary64 b then nan binary64 else inf binary64 neg)
  else if isInf binary64 b then pack binary64 neg 0 0
  else if mag binary64 b = 0 then
    (if mag binary64 a = 0 then nan binary64 else inf binary64 neg)
  else round binary64 neg (mag binary64 a * 2 ^ binary64.ulp) (mag binary64 b)

def flt (a b : Nat) : Bool :=
  !(isNaN binary64 a) && !(isNaN binary64 b) && decide (toUnits binary64 a < toUnits binary64 b)

def fle (a b : Nat) : Bool :=
  !(isNaN binary64 a) && !(isNaN binary64 b) && decide (toUnits binary64 a ≤ toUnits binary64 b)

def i2d (n : Int) : Nat :=
  if n = 0 then 0 else round binary64 (decide (n < 0)) (n.natAbs * 2 ^ binary64.ulp) 1

def ffloor (x : Nat) : Nat :=
  if isNaN binary64 x || isInf binary64 x then x
  else if Int.emod (toUnits binary64 x) (2 ^ binary64.ulp) = 0 then x
  else i2d (Int.ediv (toUnits binary64 x) (2 ^ binary64.ulp))

/-- Truncation to a 32-bit int; out of range gives the x86 indefinite value. -/
def d2i (x : Nat) : Int :=
  let n := Int.tdiv (toUnits binary64 x) (2 ^ binary64.ulp)
  if isNaN binary64 x || decide (n < -2147483648) || decide (2147483647 < n) then -2147483648
  else n

def d2uc (x : Nat) : Nat := (Int.emod (d2i x) 256).toNat

def lit (m e : Int) : Nat :=
  if 0 ≤ e then i2d (m * 10 ^ e.toNat)
  else round binary64 (decide (m < 0)) (m.natAbs * 2 ^ binary64.ulp) (10 ^ (-e).toNat)

def f2d (x : Nat) : Nat :=
  if isNaN binary32 x then nan binary64
  else if isInf binary32 x then inf binary64 (fsign binary32 x)
  else round binary64 (fsign binary32 x) (mag binary32 x * 2 ^ (binary64.ulp - binary32.ulp)) 1

def d2f (x : Nat) : Nat :=
  if isNaN binary64 x then nan binary32
  else if isInf binary64 x then inf binary32 (fsign binary64 x)
  else round binary32 (fsign binary64 x) (mag binary64 x) (2 ^ (binary64.ulp - binary32.ulp))

def pow (x y : Nat) : Nat := if y = 0x4000000000000000 then fmul x x else nan binary64

/-- Decimal digits at the head of a string, as a number. -/
def digits : List Char → Nat → Option Nat → Option Nat
  | [], _, r => r
  | c :: cs, acc, r =>
    if c.isDigit then digits cs (acc * 10 + (c.toNat - 48)) (some (acc * 10 + (c.toNat - 48)))
    else r

def strtod (s : List Char) : Option Nat := (digits s 0 none).map (fun n => i2d n)

def satno (sys : Nat) (prn : Int) : Nat :=
  if sys = 1 then (if prn < 1 ∨ 32 < prn then 0 else prn.toNat)
  else if sys = 4 then (if prn < 1 ∨ 24 < prn then 0 else 32 + prn.toNat)
  else if sys = 2 then (if prn < 120 ∨ 142 < prn then 0 else 56 + (prn.toNat - 120) + 1)
  else 0

def adjgpsweek (week : Int) : Int := week + Int.tdiv (1560 - week + 512) 1024 * 1024

/-- The time of the GPS epoch 1980-01-06 in seconds since 1970. -/
def gpst0 : Int := 315964800

def gpst2time (week : Int) (sec : Nat) : GTime :=
  let sec1 := if flt sec (lit (-1) 9) || flt (lit 1 9) sec then 0 else sec
  { time := gpst0 + 86400 * 7 * week + d2i sec1, sec := fsub sec1 (i2d (d2i sec1)) }

def time2gpst (t : GTime) : Nat × Int :=
  let sec := t.time - gpst0
  let w := Int.tdiv sec (86400 * 7)
  (fadd (i2d (sec - w * 86400 * 7)) t.sec, w)

def timeadd (t : GTime) (sec : Nat) : GTime :=
  let s := fadd t.sec sec
  { time := t.time + d2i (ffloor s), sec := fsub s (ffloor s) }

def timediff (t1 t2 : GTime) : Nat := fsub (fadd (i2d (t1.time - t2.time)) t1.sec) t2.sec

def leaps : List (Int × Int) :=
  [(1483228800, 18), (1435708800, 17), (1341100800, 16), (1230768000, 15)]

def utc2gpst (t : GTime) : GTime :=
  match leaps.find? (fun l => fle 0 (timediff t ⟨l.1, 0⟩)) with
  | some l => timeadd t (i2d l.2)
  | none => t

def mday : List Int :=
  [31, 28, 31, 30, 31, 30, 31, 31, 30, 31, 30, 31, 31, 28, 31, 30, 31, 30, 31, 31, 30, 31, 30, 31,
   31, 29, 31, 30, 31, 30, 31, 31, 30, 31, 30, 31, 31, 28, 31, 30, 31, 30, 31, 31, 30, 31, 30, 31]

/-- The month loop of time2epoch: months passed and the day left. -/
def monthOf : List Int → Int → Int → Int × Int
  | [], day, mon => (mon, day)
  | m :: ms, day, mon => if m ≤ day then monthOf ms (day - m) (mon + 1) else (mon, day)

def time2epoch (t : GTime) (k : Nat) : Nat :=
  let days := Int.tdiv t.time 86400
  let sec := t.time - days * 86400
  let md := monthOf mday (Int.tmod days 1461) 0
  if k = 0 then i2d (1970 + Int.tdiv days 1461 * 4 + Int.tdiv md.1 12)
  else if k = 1 then i2d (Int.tmod md.1 12 + 1)
  else if k = 2 then i2d (md.2 + 1)
  else if k = 3 then i2d (Int.tdiv sec 3600)
  else if k = 4 then i2d (Int.tdiv (Int.tmod sec 3600) 60)
  else if k = 5 then fadd (i2d (Int.tmod sec 60)) t.sec
  else 0

def doy : List Int := [1, 32, 60, 91, 121, 152, 182, 213, 244, 274, 305, 335]

def epoch2time (ep : Nat → Nat) : GTime :=
  let year := d2i (ep 0)
  let mon := d2i (ep 1)
  let day := d2i (ep 2)
  if year < 1970 ∨ 2099 < year ∨ mon < 1 ∨ 12 < mon then ⟨0, 0⟩
  else
    let days := (year - 1970) * 365 + Int.tdiv (year - 1969) 4 + doy.getD (mon - 1).toNat 0 + day - 2 +
      (if Int.tmod year 4 = 0 ∧ 3 ≤ mon then 1 else 0)
    let sec := d2i (ffloor (ep 5))
    { time := days * 86400 + d2i (ep 3) * 3600 + d2i (ep 4) * 60 + sec,
      sec := fsub (ep 5) (i2d sec) }

/-- Stand-in of the SBAS message decoder: refuses without an epoch, else keeps
week, time of week, PRN and the first seven words as bytes (the CRC is not
modelled). -/
def sbsdecodemsg (time : GTime) (prn : Int) (words : Nat → Nat) (m : SbsMsg) : Int × SbsMsg :=
  if time.time = 0 then (0, m)
  else
    (1, { week := (time2gpst time).2, tow := d2i (time2gpst time).1, prn := prn,
          msg := fun i => if i < 28 then words (i / 4) >>> ((3 - i % 4) * 8) % 256
                          else if i = 28 then (words 7 >>> 18) &&& 0xC0 else m.msg i })

/-- Value of a hexadecimal digit. -/
def hexval (c : Char) : Option Nat :=
  if c.isDigit then some (c.toNat - 48)
  else if 97 ≤ c.toNat ∧ c.toNat ≤ 102 then some (c.toNat - 87)
  else if 65 ≤ c.toNat ∧ c.toNat ≤ 70 then some (c.toNat - 55)
  else none

/-- The hexadecimal item of at most two characters at the head of a string, after
white space: an optional sign and hexadecimal digits; a bare sign and a bare
"0x" are no number. -/
def hex2 (s : List Char) : Option Nat :=
  match s.dropWhile isspace with
  | [] => none
  | [c] => hexval c
  | c :: d :: _ =>
    if c = '-' then (hexval d).map (fun v => (4294967296 - v) % 4294967296)
    else if c = '+' then hexval d
    else if c = '0' ∧ (d = 'x' ∨ d = 'X') then none
    else
      match hexval c, hexval d with
      | some a, some b => some (16 * a + b)
      | some a, none => some a
      | none, _ => none

/-- The sample environment: a little-endian host with signed `char`. -/
def env : Env :=
  { MAXRAWLEN := 4096, MAXOBS := 64, NFREQ := 3, NEXOBS := 0,
    SYS_NONE := 0, SYS_GPS := 1, SYS_SBS := 2, SYS_GLO := 4,
    CODE_NONE := 0, CODE_L1C := 1, CODE_L1P := 2, CODE_L2C := 14, CODE_L2P := 19,
    CODE_L3I := 44,
    FREQ1 := lit 157542 4, FREQ1_GLO := lit 160200 4, DFRQ1_GLO := lit 56250 1,
    CLIGHT := lit 299792458 0,
    ENAGLO := true, bigEndian := false, charSigned := true,
    lit := lit, fadd := fadd, fsub := fsub, fmul := fmul, fdiv := fdiv, fneg := fneg,
    flt := flt, fle := fle, ffloor := ffloor, fabs := fabs, pow := pow,
    i2d := i2d, d2i := d2i, d2uc := d2uc, f2d := f2d, d2f := d2f, strtod := strtod, hex2 := hex2,
    satno := satno, adjgpsweek := adjgpsweek, gpst2time := gpst2time, time2gpst := time2gpst,
    timeadd := timeadd, timediff := timediff, utc2gpst := utc2gpst, time2epoch := time2epoch,
    epoch2time := epoch2time, sbsdecodemsg := sbsdecodemsg }

/-- A buffer holding the given bytes from index 0, zero elsewhere. -/
def bufOf (bytes : List Nat) : Nat → Nat := fun i => bytes.getD i 0

/-- The receiver state after initialisation: everything zero. -/
def raw0 : Raw :=
  { time := ⟨0, 0⟩
    obs := { n := 0, data := fun _ =>
      { time := ⟨0, 0⟩, sat := 0, SNR := fun _ => 0, LLI := fun _ => 0, code := fun _ => 0,
        L := fun _ => 0, P := fun _ => 0, D := fun _ => 0 } }
    nav := { eph := fun _ => Eph.zero, geph := fun _ => GEph.zero,
             alm := fun _ => ⟨0, 0, 0, ⟨0, 0⟩, 0, 0, 0, 0, 0, 0, 0, 0, 0, 0⟩,
             galm := fun _ => ⟨0, 0, 0, 0, 0, 0, 0, 0, 0, 0, 0, 0⟩,
             ion_gps := fun _ => 0, utc_gps := fun _ => 0, leaps := 0 }
    sbsmsg := { week := 0, tow := 0, prn := 0, msg := fun _ => 0 }
    msgtype := ""
    ephsat := 0
    pvt := { pos := fun _ => 0, vel := fun _ => 0, std := 0, dev := 0, prev := 0, sol2d := 0,
             diff_used := 0, raim := 0, diff_flag := 0, time := ⟨0, 0⟩ }
    halfc := fun _ _ => 0
    nbyte := 0
    len := 0
    flag := 0
    buff := fun _ => 0
    opt := [] }

/-- A raw-measurement frame (type 0xF5), de-stuffed: week 1800, time of week 345600 s (UTC), GPS-UTC offset 16 s, one GPS L1 record of PRN 5 with flag byte 0x00. -/
def frameA : List Nat :=
  [16, 245, 0, 0, 0, 0, 112, 153, 180, 65, 8, 7, 0, 0, 0, 0, 0, 64, 207, 64,
   0, 0, 0, 0, 0, 0, 0, 0, 0, 2, 5, 0, 40, 0, 0, 0, 0, 0, 74, 147,
   64, 0, 0, 0, 0, 0, 144, 81, 64, 0, 0, 0, 0, 0, 112, 151, 192, 0, 0, 16,
   3]

/-- The frame 30 s after `frameA`: same satellite, flag byte 0x08. -/
def frameB : List Nat :=
  [16, 245, 0, 0, 0, 48, 229, 153, 180, 65, 8, 7, 0, 0, 0, 0, 0, 64, 207, 64,
   0, 0, 0, 0, 0, 0, 0, 0, 0, 2, 5, 0, 40, 0, 0, 0, 0, 0, 117, 161,
   64, 0, 0, 0, 0, 0, 160, 81, 64, 0, 0, 0, 0, 0, 112, 151, 192, 8, 0, 16,
   3]

/-- The frame 2 days after `frameA`. -/
def frameC : List Nat :=
  [16, 245, 0, 0, 0, 0, 40, 230, 190, 65, 8, 7, 0, 0, 0, 0, 0, 64, 207, 64,
   0, 0, 0, 0, 0, 0, 0, 0, 0, 2, 5, 0, 40, 0, 0, 0, 0, 0, 117, 161,
   64, 0, 0, 0, 0, 0, 160, 81, 64, 0, 0, 0, 0, 0, 112, 151, 192, 8, 0, 16,
   3]

/-- The receiver state with a completed frame in the buffer. -/
def withFrame (raw : Raw) (frame : List Nat) : Raw :=
  { raw with buff := bufOf frame, len := (frame.length : Int) }

/-- A state holding three observations and, in the buffer, a type 0xF5 header
of zeros, with frame length 1. -/
def rawLen1 : Raw :=
  { raw0 with buff := bufOf [0x10, 0xF5], len := 1, obs := { raw0.obs with n := 3 } }

/-- The frame 60 s after `frameA`: same satellite, flag byte 0x08. -/
def frameD : List Nat :=
  [16, 245, 0, 0, 0, 96, 90, 154, 180, 65, 8, 7, 0, 0, 0, 0, 0, 64, 207, 64,
   0, 0, 0, 0, 0, 0, 0, 0, 0, 2, 5, 0, 40, 0, 0, 0, 0, 0, 69, 169,
   64, 0, 0, 0, 0, 0, 176, 81, 64, 0, 0, 0, 0, 0, 112, 151, 192, 8, 0, 16,
   3]

/-- A raw-measurement frame with two records for GLONASS PRN 1 in slot 0: signal type 1 (civil code L1C), then signal type 5 (precise code L1P). -/
def frameCP : List Nat :=
  [16, 245, 0, 0, 0, 0, 112, 153, 180, 65, 8, 7, 0, 0, 0, 0, 0, 64, 207, 64,
   0, 0, 0, 0, 0, 0, 0, 0, 0, 1, 1, 1, 40, 0, 0, 0, 0, 0, 68, 143,
   64, 0, 0, 0, 0, 0, 96, 80, 64, 0, 0, 0, 0, 0, 64, 111, 64, 8, 0, 5,
   1, 1, 42, 0, 0, 0, 0, 0, 65, 159, 64, 0, 0, 0, 0, 0, 160, 80, 64, 0,
   0, 0, 0, 0, 96, 111, 64, 8, 0, 16, 3]

/-- The two records of `frameCP` in the other order: precise, then civil. -/
def framePC : List Nat :=
  [16, 245, 0, 0, 0, 0, 112, 153, 180, 65, 8, 7, 0, 0, 0, 0, 0, 64, 207, 64,
   0, 0, 0, 0, 0, 0, 0, 0, 0, 5, 1, 1, 42, 0, 0, 0, 0, 0, 65, 159,
   64, 0, 0, 0, 0, 0, 160, 80, 64, 0, 0, 0, 0, 0, 96, 111, 64, 8, 0, 1,
   1, 1, 40, 0, 0, 0, 0, 0, 68, 143, 64, 0, 0, 0, 0, 0, 96, 80, 64, 0,
   0, 0, 0, 0, 64, 111, 64, 8, 0, 16, 3]

/-- The initial state with `frameCP` in the buffer. -/
def rawCP : Raw := withFrame raw0 frameCP

/-- The initial state with `framePC` in the buffer. -/
def rawPC : Raw := withFrame raw0 framePC

/-- One 30-byte record of a raw-measurement frame: signal type, PRN, carrier
number, signal-to-noise ratio, phase, pseudorange, Doppler (as IEEE patterns)
and flag byte. -/
structure Rec where
  type : Nat
  prn : Nat
  carrNo : Nat
  snr : Nat
  L : Dbl
  P : Dbl
  D : Dbl
  flag : Nat

/-- Byte `j` of a record on the wire (little-endian fields, one reserved byte). -/
def Rec.byte (r : Rec) (j : Nat) : Nat :=
  if j = 0 then r.type else if j = 1 then r.prn else if j = 2 then r.carrNo
  else if j = 3 then r.snr
  else if j < 12 then r.L / 256 ^ (j - 4) % 256
  else if j < 20 then r.P / 256 ^ (j - 12) % 256
  else if j < 28 then r.D / 256 ^ (j - 20) % 256
  else if j = 28 then r.flag else 0

/-- The buffer holding a de-stuffed raw-measurement frame: sync and type bytes,
the header (time of week in ms, week, GPS-UTC offset in ms, then zeros), the
records, and the terminator. -/
def xf5Buf (tow : Dbl) (week : Nat) (gpsutc : Dbl) (recs : List Rec) : Nat → Nat := fun i =>
  if i = 0 then 0x10 else if i = 1 then 0xF5
  else if i < 10 then tow / 256 ^ (i - 2) % 256
  else if i < 12 then week / 256 ^ (i - 10) % 256
  else if i < 20 then gpsutc / 256 ^ (i - 12) % 256
  else if i < 29 then 0
  else if (i - 29) / 30 < recs.length then
    (recs.getD ((i - 29) / 30) ⟨0, 0, 0, 0, 0, 0, 0, 0⟩).byte ((i - 29) % 30)
  else if i = 29 + 30 * recs.length then 0x10
  else if i = 30 + 30 * recs.length then 0x03 else 0

/-- The 65 records of the full frame: the civil record of `frameCP` (GLONASS
PRN 1, signal type 1), one GPS L1 record each for PRN 1-32, one GLONASS L1
record each for PRN 2-24, one SBAS record each for PRN 120-127 (phase 100,
pseudorange 70 ms, Doppler 10), and as record 64 the precise record of
`frameCP` (GLONASS PRN 1, signal type 5). -/
def fullRecs : List Rec :=
  [⟨1, 1, 1, 40, 0x408F440000000000, 0x4050600000000000, 0x406F400000000000, 0x08⟩] ++
  (List.range' 1 32).map (fun k => ⟨2, k, 0, 40, 0x4059000000000000, 0x4051800000000000, 0x4024000000000000, 0x08⟩) ++
  (List.range' 2 23).map (fun k => ⟨1, k, 0, 40, 0x4059000000000000, 0x4051800000000000, 0x4024000000000000, 0x08⟩) ++
  (List.range' 0 8).map (fun k => ⟨4, k, 0, 40, 0x4059000000000000, 0x4051800000000000, 0x4024000000000000, 0x08⟩) ++
  [⟨5, 1, 1, 42, 0x409F410000000000, 0x4050A00000000000, 0x406F600000000000, 0x08⟩]

/-- The initial state with the full frame in the buffer: week 1800, time of week
345600 s, GPS-UTC offset 16 s, 65 records. -/
def rawFull : Raw :=
  { raw0 with buff := xf5Buf 0x41B4997000000000 1800 0x40CF400000000000 fullRecs, len := 31 + 30 * 65 }

/-- A state with a known epoch and a GPS ephemeris frame (type 0xF7, system 1,
PRN 5) in the buffer: issue of data 77, week 1800, every other field zero. -/
def rawEph : Raw :=
  { raw0 with
    time := ⟨1404950416, 0⟩
    len := 140
    buff := fun i =>
      if i = 0 then 0x10 else if i = 1 then 0xF7 else if i = 2 then 1 else if i = 3 then 5
      else if i = 130 then 77 else if i = 138 then 0x08 else if i = 139 then 0x07 else 0 }

/-- A state with a PVT frame (type 0x88) in the buffer: week 1800, status byte
`s`, every other field zero. -/
def rawPvt (s : Nat) : Raw :=
  { raw0 with
    len := 73
    buff := fun i =>
      if i = 0 then 0x10 else if i = 1 then 0x88 else if i = 40 then 0x08
      else if i = 41 then 0x07 else if i = 70 then s else 0 }

/-- A state with a frame of the given type and length whose buffer holds the two
bytes `lo`, `hi` at the indices `pos`, `pos + 1` and zero elsewhere. -/
def rawField (type : Nat) (len : Int) (pos lo hi : Nat) : Raw :=
  { raw0 with
    len := len
    buff := fun i =>
      if i = 0 then 0x10 else if i = 1 then type else if i = pos then lo
      else if i = pos + 1 then hi else 0 }

/-- A state holding an epoch and, in the buffer, a subframe-bundle frame (type
0xE5) of length 11 with one block tagged SBAS (PRN byte 9); the buffer indices
from 11 on hold what an earlier, longer frame left there (0xAA). -/
def rawSbsShort : Raw :=
  { raw0 with
    time := ⟨1400000000, 0⟩
    len := 11
    buff := fun i =>
      if i = 0 then 0x10 else if i = 1 then 0xE5 else if i = 2 then 1 else if i = 4 then 4
      else if i = 5 then 9 else if i = 9 then 0x10 else if i = 10 then 0x03
      else if i < 11 then 0 else 0xAA }

/-- The state `rawEph` with the frame length 93: the frame ends before the
issue of data (index 130) and the week (indices 138, 139), which the buffer
still holds. -/
def rawEphShort : Raw := { rawEph with len := 93 }

/-- The sample environment on a big-endian host. -/
def envBE : Env := { env with bigEndian := true }

/-- The ten bytes the receiver sends for the number 1.0 in its extended format:
the 64-bit mantissa 0x8000000000000000 and the sign/exponent word 0x3FFF, least
significant byte first. -/
def wireOne : Nat → Nat := bufOf [0, 0, 0, 0, 0, 0, 0, 0x80, 0xFF, 0x3F]

/-- A state with an almanac frame (type 0x40) of length 62 in the buffer: the
system byte `sys`, the PRN byte 0, the health byte 7, every other field zero. -/
def rawAlm (sys : Nat) : Raw :=
  { raw0 with
    len := 62
    buff := fun i =>
      if i = 0 then 0x10 else if i = 1 then 0x40 else if i = 2 then sys else if i = 4 then 7
      else 0 }

/-- The initial state with a frame of two records in the buffer (week 1800, time
of week 345600 s, GPS-UTC offset 16 s): a GPS L1 record of PRN 7 whose phase is
1e11, and a GPS L1 record of PRN 5 with phase 100. -/
def rawBad : Raw :=
  { raw0 with
    buff := xf5Buf 0x41B4997000000000 1800 0x40CF400000000000
      [⟨2, 7, 0, 40, 0x42374876E8000000, 0x4051800000000000, 0x4024000000000000, 0x08⟩,
       ⟨2, 5, 0, 40, 0x4059000000000000, 0x4051800000000000, 0x4024000000000000, 0x08⟩]
    len := 31 + 30 * 2 }

/-- The 66 records of the repeating frame: 64 records of one GPS satellite (PRN
5, L1), the first with phase 100 and the other 63 with the phase 1e11, which
fails the range check; then, as records 64 and 65, the civil and the precise
record of `frameCP` (GLONASS PRN 1). -/
def repeatRecs : List Rec :=
  [⟨2, 5, 0, 40, 0x4059000000000000, 0x4051800000000000, 0x4024000000000000, 0x08⟩] ++
  List.replicate 63 ⟨2, 5, 0, 40, 0x42374876E8000000, 0x4051800000000000, 0x4024000000000000, 0x08⟩ ++
  [⟨1, 1, 1, 40, 0x408F440000000000, 0x4050600000000000, 0x406F400000000000, 0x08⟩,
   ⟨5, 1, 1, 42, 0x409F410000000000, 0x4050A00000000000, 0x406F600000000000, 0x08⟩]

/-- The initial state with the repeating frame in the buffer: week 1800, time of
week 345600 s, GPS-UTC offset 16 s, 66 records. -/
def rawRepeat : Raw :=
  { raw0 with buff := xf5Buf 0x41B4997000000000 1800 0x40CF400000000000 repeatRecs, len := 31 + 30 * 66 }

/-- The civil record of `frameCP` (GLONASS PRN 1, signal type 1, slot 0) with the
flag byte `f`. -/
def civilRec (f : Nat) : Rec :=
  ⟨1, 1, 1, 40, 0x408F440000000000, 0x4050600000000000, 0x406F400000000000, f⟩

/-- The precise record of `frameCP` (GLONASS PRN 1, signal type 5, slot 0) with
the flag byte `f`. -/
def preciseRec (f : Nat) : Rec :=
  ⟨5, 1, 1, 42, 0x409F410000000000, 0x4050A00000000000, 0x406F600000000000, f⟩

/-- The buffer of a raw-measurement frame of the two records `r1`, `r2`: week
1800, time of week `tow` (ms, as an IEEE pattern), GPS-UTC offset 16 s. -/
def pairBuf (tow : Dbl) (r1 r2 : Rec) : Nat → Nat :=
  xf5Buf tow 1800 0x40CF400000000000 [r1, r2]

/-- The time of week 345600 s in ms, as an IEEE pattern. -/
def tow0 : Dbl := 0x41B4997000000000

/-- The time of week 345630 s in ms, as an IEEE pattern. -/
def tow30 : Dbl := 0x41B499E530000000

/-- The initial state with a two-record frame at time of week 345600 s in the
buffer. -/
def rawPair (r1 r2 : Rec) : Raw :=
  { raw0 with buff := pairBuf tow0 r1 r2, len := 91 }

/-- The state after decode_xf5raw has decoded the frame of `rawPair r1 r2`, with
the two-record frame of `r3`, `r4`, 30 s later, in the buffer. -/
def rawPairNext (env : Env) (r1 r2 r3 r4 : Rec) : Raw :=
  { (decode_xf5raw env (rawPair r1 r2)).2 with buff := pairBuf tow30 r3 r4, len := 91 }

end Sample

/-! ## Relations between receiver states used in the statements -/

/-- The framing fields of the receiver state agree. -/
def sameFrame (a b : Raw) : Prop :=
  a.nbyte = b.nbyte ∧ a.len = b.len ∧ a.flag = b.flag ∧ a.buff = b.buff ∧ a.opt = b.opt

/-- Everything but the framing fields (buffer, counters, toggle) agrees. -/
def sameData (a b : Raw) : Prop :=
  a.time = b.time ∧ a.obs = b.obs ∧ a.nav = b.nav ∧ a.sbsmsg = b.sbsmsg ∧
  a.msgtype = b.msgtype ∧ a.ephsat = b.ephsat ∧ a.pvt = b.pvt ∧ a.halfc = b.halfc ∧
  a.opt = b.opt

/-- Among the first `n` observations the first one for satellite `s` is at some
index `j`, and its slot `k` holds code `c`, phase `l`, pseudorange `p` and
Doppler `d`. -/
def slotHolds (data : Nat → ObsD) (n s k c : Nat) (l p : Dbl) (d : Flt) : Prop :=
  ∃ j, j < n ∧ (data j).sat = s ∧ (∀ i, i < j → (data i).sat ≠ s) ∧
    (data j).code k = c ∧ (data j).L k = l ∧ (data j).P k = p ∧ (data j).D k = d

/-- The decimal numeral of a natural number, most significant digit first. -/
def decimalNat (n : Nat) : List Char :=
  if n = 0 then ['0'] else ((Nat.digits 10 n).map Nat.digitChar).reverse

/-- The decimal numeral of an integer: a minus sign for a negative one, then the
digits. -/
def decimal (r : Int) : List Char :=
  if r < 0 then '-' :: decimalNat r.natAbs else decimalNat r.natAbs

/-- The state with the byte counter and the escape toggle replaced. -/
def reframe (r : Raw) (n f : Int) : Raw := { r with nbyte := n, flag := f }

/-- The buffer after the bytes `bs` have been stored from index `m` on. -/
def storeList (buff : Nat → Nat) : Nat → List Nat → Nat → Nat
  | _, [] => buff
  | m, b :: bs => storeList (Function.update buff m b) (m + 1) bs

/-- The state `raw` with the de-stuffed frame of type byte `t` and payload `p`
stored from index 0 on and its length in `len`. -/
def framed (raw : Raw) (t : Nat) (p : List Nat) : Raw :=
  { raw with
    buff := Function.update (Function.update
      (storeList (Function.update (Function.update raw.buff 0 NVSSYNC) 1 t) 2 p)
      (p.length + 2) NVSSYNC) (p.length + 3) NVSENDMSG
    len := ((p.length + 3 : Nat) : Int) + 1 }

/-- The (satellite, slot) pairs written by the records the loop of
decode_xf5raw applies, in the order of the loop. -/
def xf5raw_written (env : Env) (time : GTime) (toff dTowFrac : Dbl) :
    List Nat → Nat → Raw → List (Nat × Nat)
  | [], _, _ => []
  | i :: rest, n, raw =>
    if n < env.MAXOBS then
      (if xf5raw_applied env i n raw then
          [(xf5raw_sat env raw.buff i, xf5raw_slot raw.buff i)] else []) ++
        xf5raw_written env time toff dTowFrac rest
          (xf5raw_record env time toff dTowFrac i n raw).1
          (xf5raw_record env time toff dTowFrac i n raw).2
    else []

/-- The (satellite, slot) pairs written by the applied records of the frame in
the buffer. -/
def xf5raw_writes (env : Env) (raw : Raw) : List (Nat × Nat) :=
  xf5raw_written env (xf5raw_time env raw) (xf5raw_toff env raw) (xf5raw_dTowFrac env raw)
    (List.range (Int.tdiv (raw.len - 31) 30).toNat) 0 { raw with obs := { raw.obs with n := 0 } }

/-- Slot `k` of an observation record is clear: phase, pseudorange, Doppler,
SNR and LLI are zero and the code is CODE_NONE. -/
def slotClear (env : Env) (d : ObsD) (k : Nat) : Prop :=
  d.L k = 0 ∧ d.P k = 0 ∧ d.D k = 0 ∧ d.SNR k = 0 ∧ d.LLI k = 0 ∧ d.code k = env.CODE_NONE

/-- The first `n` observations are for pairwise distinct satellites, and each of
their slots is clear unless its (satellite, slot) pair is in `w`. -/
def obsInv (env : Env) (data : Nat → ObsD) (n : Nat) (w : List (Nat × Nat)) : Prop :=
  (∀ j j2, j < n → j2 < n → (data j).sat = (data j2).sat → j = j2) ∧
  (∀ j k, j < n → k < env.NFREQ + env.NEXOBS →
    ((data j).sat, k) ∈ w ∨ slotClear env (data j) k)

/-- The buffer of a raw-measurement frame with the 30-byte record `i` removed:
the bytes behind the record moved down by 30. -/
def dropRecord (buff : Nat → Nat) (i : Nat) : Nat → Nat :=
  fun x => if x < xf5raw_p i then buff x else buff (x + 30)

/-- The state whose buffer holds the frame of `raw` with record `i` removed. -/
def withoutRecord (raw : Raw) (i : Nat) : Raw :=
  { raw with buff := dropRecord raw.buff i, len := raw.len - 30 }

/-- Record `i1` of the buffer `b1` and record `i2` of the buffer `b2` hold the
same 30 bytes. -/
def sameRecord (b1 : Nat → Nat) (i1 : Nat) (b2 : Nat → Nat) (i2 : Nat) : Prop :=
  ∀ k, k < 30 → b1 (xf5raw_p i1 + k) = b2 (xf5raw_p i2 + k)

/-- The number of observations the record loop of decode_xf5raw has collected
when it comes to record `a`: the count `n` after the records before `a`.  The
loop goes on to record `a` when this is below MAXOBS. -/
def xf5raw_collected (env : Env) (raw : Raw) (a : Nat) : Nat :=
  (xf5raw_loop env (xf5raw_time env raw) (xf5raw_toff env raw) (xf5raw_dTowFrac env raw)
    (List.range a) 0 { raw with obs := { raw.obs with n := 0 } }).1

/-- Among the first `n` observations the first one for satellite `s` is at some
index `j`, and the loss-of-lock indicator of its slot `k` is `v`. -/
def slotLLI (data : Nat → ObsD) (n s k v : Nat) : Prop :=
  ∃ j, j < n ∧ (data j).sat = s ∧ (∀ i, i < j → (data i).sat ≠ s) ∧ (data j).LLI k = v

/-- The indices of the records the loop of decode_xf5raw applies to slot `k` of
satellite `s`, in the order of the loop. -/
def xf5raw_appliedTo (env : Env) (time : GTime) (toff dTowFrac : Dbl) (s k : Nat) :
    List Nat → Nat → Raw → List Nat
  | [], _, _ => []
  | i :: rest, n, raw =>
    if n < env.MAXOBS then
      (if xf5raw_applied env i n raw ∧ xf5raw_sat env raw.buff i = s ∧
          xf5raw_slot raw.buff i = k then [i] else []) ++
        xf5raw_appliedTo env time toff dTowFrac s k rest
          (xf5raw_record env time toff dTowFrac i n raw).1
          (xf5raw_record env time toff dTowFrac i n raw).2
    else []

/-- The indices of the records of the frame in the buffer that decode_xf5raw
applies to slot `k` of satellite `s`, in the order of the loop. -/
def xf5raw_appliedIn (env : Env) (raw : Raw) (s k : Nat) : List Nat :=
  xf5raw_appliedTo env (xf5raw_time env raw) (xf5raw_toff env raw) (xf5raw_dTowFrac env raw) s k
    (List.range (Int.tdiv (raw.len - 31) 30).toNat) 0 { raw with obs := { raw.obs with n := 0 } }

/-- The stored flag byte and the loss-of-lock indicator of one (satellite, slot)
after the records `is` of the buffer `b` have been applied to it one after the
other, from the stored flag byte `h` and the indicator `v` (`none` while no
record has been applied). -/
def xf5raw_track (b : Nat → Nat) : List Nat → Nat → Option Nat → Nat × Option Nat
  | [], h, v => (h, v)
  | i :: is, h, _ =>
    xf5raw_track b is (xf5raw_flag b i)
      (some (if (xf5raw_flag b i).testBit 3 = true ∧ h.testBit 3 = false then 1 else 0))

/-! ## Theorems: stream synchronizer -/

set_option maxRecDepth 10000

theorem input_nvs_idle_sync (env : Env) (raw : Raw) (h0 : raw.nbyte = 0) (hM : 0 < env.MAXRAWLEN) :
    input_nvs env raw NVSSYNC =
      some (0, { raw with buff := Function.update raw.buff 0 NVSSYNC, nbyte := 1 }) := by
  simp [input_nvs, storeByte, h0, hM]

theorem input_nvs_header (env : Env) (raw : Raw) (t : Nat) (h1 : raw.nbyte = 1)
    (ht1 : t ≠ NVSSYNC) (ht2 : t ≠ NVSENDMSG) (hM : 1 < env.MAXRAWLEN) :
    input_nvs env raw t =
      some (0, { raw with buff := Function.update raw.buff 1 t, nbyte := 2, flag := 0 }) := by
  simp [input_nvs, storeByte, h1, ht1, ht2, hM]

theorem input_nvs_acc_plain (env : Env) (raw : Raw) (b m : Nat) (hn : raw.nbyte = (m : Int))
    (hm : 2 ≤ m) (hf : raw.flag = 0) (hb : b ≠ NVSSYNC) (hM : m + 1 < env.MAXRAWLEN) :
    input_nvs env raw b =
      some (0, { raw with buff := Function.update raw.buff m b, nbyte := (m : Int) + 1 }) := by
  have h0 : ¬ ((m : Int) = 0) := by omega
  have h1 : ¬ ((m : Int) = 1) := by omega
  have h2 : ((m : Int) < (env.MAXRAWLEN : Int)) := by omega
  have h3 : ¬ ((m : Int) + 1 = (env.MAXRAWLEN : Int)) := by omega
  simp [input_nvs, storeByte, hn, hf, hb, h0, h1, h2, h3]

theorem input_nvs_acc_sync1 (env : Env) (raw : Raw) (m : Nat) (hn : raw.nbyte = (m : Int))
    (hm : 2 ≤ m) (hf : raw.flag = 0) (hM : m + 1 < env.MAXRAWLEN) :
    input_nvs env raw NVSSYNC =
      some (0, { raw with buff := Function.update raw.buff m NVSSYNC, nbyte := (m : Int) + 1,
                          flag := 1 }) := by
  have h0 : ¬ ((m : Int) = 0) := by omega
  have h1 : ¬ ((m : Int) = 1) := by omega
  have h2 : ((m : Int) < (env.MAXRAWLEN : Int)) := by omega
  have h3 : ¬ ((m : Int) + 1 = (env.MAXRAWLEN : Int)) := by omega
  have h4 : Int.tmod 1 2 = 1 := by decide
  have h5 : NVSSYNC ≠ NVSENDMSG := by decide
  simp [input_nvs, storeByte, hn, hf, h0, h1, h2, h3, h4, h5]

theorem input_nvs_acc_sync2 (env : Env) (raw : Raw) (m : Nat) (hn : raw.nbyte = (m : Int))
    (hm : 2 ≤ m) (hf : raw.flag = 1) (hM : m < env.MAXRAWLEN) :
    input_nvs env raw NVSSYNC = some (0, { raw with flag := 0 }) := by
  have h0 : ¬ ((m : Int) = 0) := by omega
  have h1 : ¬ ((m : Int) = 1) := by omega
  have h3 : ¬ ((m : Int) = (env.MAXRAWLEN : Int)) := by omega
  have h4 : Int.tmod 2 2 = 0 := by decide
  have h5 : NVSSYNC ≠ NVSENDMSG := by decide
  simp [input_nvs, storeByte, hn, hf, h0, h1, h3, h4, h5]

theorem input_nvs_acc_end (env : Env) (raw : Raw) (m : Nat) (hn : raw.nbyte = (m : Int))
    (hm : 2 ≤ m) (hf : raw.flag = 1) (hM : m < env.MAXRAWLEN) :
    input_nvs env raw NVSENDMSG =
      some (decode_nvs env { raw with buff := Function.update raw.buff m NVSENDMSG,
                                      len := (m : Int) + 1, nbyte := 0 }) := by
  have h0 : ¬ ((m : Int) = 0) := by omega
  have h1 : ¬ ((m : Int) = 1) := by omega
  have h2 : ((m : Int) < (env.MAXRAWLEN : Int)) := by omega
  have h5 : NVSENDMSG ≠ NVSSYNC := by decide
  simp [input_nvs, storeByte, hn, hf, h0, h1, h2, h5]

theorem bufPrefix_succ (buff : Nat → Nat) (n : Nat) :
    bufPrefix buff (n + 1) = bufPrefix buff n ++ [buff n] := by
  simp [bufPrefix, List.range_succ]

theorem bufPrefix_update (buff : Nat → Nat) (n m v : Nat) (h : n ≤ m) :
    bufPrefix (Function.update buff m v) n = bufPrefix buff n := by
  unfold bufPrefix
  apply List.map_congr_left
  intro i hi
  have : i < n := List.mem_range.mp hi
  exact Function.update_noteq (by omega) _ _

theorem bufPrefix_store (buff : Nat → Nat) (m v : Nat) :
    bufPrefix (Function.update buff m v) (m + 1) = bufPrefix buff m ++ [v] := by
  rw [bufPrefix_succ, bufPrefix_update buff m m v (le_refl m)]
  simp

theorem sameData_refl (a : Raw) : sameData a a := ⟨rfl, rfl, rfl, rfl, rfl, rfl, rfl, rfl, rfl⟩

/-- Feeding the stuffed payload in the accumulating state appends the payload. -/
theorem input_nvs_list_stuff (env : Env) (p : List Nat) :
    ∀ (raw : Raw) (pre : List Nat), raw.nbyte = (pre.length : Int) → 2 ≤ pre.length →
      raw.flag = 0 → pre.length + p.length < env.MAXRAWLEN →
      bufPrefix raw.buff pre.length = pre →
      ∃ raw1 : Raw, input_nvs_list env raw (stuff p) = some (List.replicate (stuff p).length 0, raw1) ∧
        raw1.nbyte = ((pre ++ p).length : Int) ∧ raw1.flag = 0 ∧
        bufPrefix raw1.buff (pre ++ p).length = pre ++ p ∧ sameData raw1 raw := by
  induction p with
  | nil =>
    intro raw pre hn _ hf _ hb
    exact ⟨raw, by simp [stuff, input_nvs_list], by simpa using hn, hf, by simpa using hb,
      sameData_refl raw⟩
  | cons b bs ih =>
    intro raw pre hn hm hf hM hb
    simp only [List.length_cons] at hM
    by_cases hbs : b = NVSSYNC
    · subst hbs
      have e1 := input_nvs_acc_sync1 env raw pre.length hn hm hf (by omega)
      have e2 := input_nvs_acc_sync2 env
        { raw with buff := Function.update raw.buff pre.length NVSSYNC,
                   nbyte := (pre.length : Int) + 1, flag := 1 } (pre.length + 1)
        (by simp) (by omega) rfl (by omega)
      obtain ⟨raw1, h1, h2, h3, h4, h5⟩ := ih
        { raw with buff := Function.update raw.buff pre.length NVSSYNC,
                   nbyte := (pre.length : Int) + 1, flag := 0 } (pre ++ [NVSSYNC])
        (by simp) (by simp; omega) rfl (by simp; omega)
        (by simp only [List.length_append, List.length_singleton]
            rw [bufPrefix_store, hb])
      refine ⟨raw1, ?_, by simpa using h2, h3, by simpa using h4, h5⟩
      simp only [stuff, if_true, input_nvs_list, e1, e2]
      rw [h1]
      simp [List.replicate_succ]
    · have e1 := input_nvs_acc_plain env raw b pre.length hn hm hf hbs (by omega)
      obtain ⟨raw1, h1, h2, h3, h4, h5⟩ := ih
        { raw with buff := Function.update raw.buff pre.length b,
                   nbyte := (pre.length : Int) + 1 } (pre ++ [b])
        (by simp) (by simp; omega) hf (by simp; omega)
        (by simp only [List.length_append, List.length_singleton]
            rw [bufPrefix_store, hb])
      refine ⟨raw1, ?_, by simpa using h2, h3, by simpa using h4, h5⟩
      simp only [stuff, if_neg hbs, input_nvs_list, e1]
      rw [h1]
      simp [List.replicate_succ]

theorem sameFrame_refl (a : Raw) : sameFrame a a := ⟨rfl, rfl, rfl, rfl, rfl⟩

theorem sameFrame_trans {a b c : Raw} (h1 : sameFrame a b) (h2 : sameFrame b c) :
    sameFrame a c :=
  ⟨h1.1.trans h2.1, h1.2.1.trans h2.2.1, h1.2.2.1.trans h2.2.2.1,
   h1.2.2.2.1.trans h2.2.2.2.1, h1.2.2.2.2.trans h2.2.2.2.2⟩

theorem xf5raw_record_frame (env : Env) (time : GTime) (toff dTowFrac : Dbl) (i n : Nat)
    (raw : Raw) : sameFrame (xf5raw_record env time toff dTowFrac i n raw).2 raw := by
  unfold xf5raw_record
  simp only []
  split_ifs <;> exact ⟨rfl, rfl, rfl, rfl, rfl⟩

theorem xf5raw_loop_frame (env : Env) (time : GTime) (toff dTowFrac : Dbl) (is : List Nat) :
    ∀ (n : Nat) (raw : Raw), sameFrame (xf5raw_loop env time toff dTowFrac is n raw).2 raw := by
  induction is with
  | nil => intro n raw; exact sameFrame_refl raw
  | cons i rest ih =>
    intro n raw
    unfold xf5raw_loop
    split_ifs
    · exact sameFrame_trans (ih _ _) (xf5raw_record_frame env time toff dTowFrac i n raw)
    · exact sameFrame_refl raw

theorem decode_xf5raw_frame (env : Env) (raw : Raw) : sameFrame (decode_xf5raw env raw).2 raw := by
  unfold decode_xf5raw
  simp only []
  split_ifs
  · exact sameFrame_refl raw
  · exact sameFrame_refl raw
  · exact sameFrame_refl raw
  · exact sameFrame_refl raw
  · have h := xf5raw_loop_frame env (xf5raw_time env raw) (xf5raw_toff env raw)
      (xf5raw_dTowFrac env raw) (List.range (Int.tdiv (raw.len - 31) 30).toNat) 0
      { raw with obs := { raw.obs with n := 0 } }
    exact ⟨h.1, h.2.1, h.2.2.1, h.2.2.2.1, h.2.2.2.2⟩

theorem decode_gpsephem_frame (env : Env) (sat : Int) (raw : Raw) :
    sameFrame (decode_gpsephem env sat raw).2 raw := by
  unfold decode_gpsephem
  split_ifs <;> exact ⟨rfl, rfl, rfl, rfl, rfl⟩

theorem decode_gloephem_frame (env : Env) (sat : Int) (raw : Raw) :
    sameFrame (decode_gloephem env sat raw).2 raw := by
  unfold decode_gloephem
  simp only []
  split_ifs <;> exact ⟨rfl, rfl, rfl, rfl, rfl⟩

theorem decode_xf7eph_frame (env : Env) (raw : Raw) : sameFrame (decode_xf7eph env raw).2 raw := by
  unfold decode_xf7eph
  simp only []
  split_ifs
  all_goals first
    | exact sameFrame_refl raw
    | exact decode_gpsephem_frame env _ raw
    | exact decode_gloephem_frame env _ raw

theorem xe5bit_loop_frame (env : Env) (raw : Raw) (k : Nat) :
    ∀ s : Nat, sameFrame (xe5bit_loop env raw k s).2 raw := by
  induction k with
  | zero => intro s; exact sameFrame_refl raw
  | succ k ih =>
    intro s
    unfold xe5bit_loop
    simp only []
    split_ifs
    all_goals first
      | exact sameFrame_refl raw
      | exact ih _
      | exact ⟨rfl, rfl, rfl, rfl, rfl⟩

theorem decode_xe5bit_frame (env : Env) (raw : Raw) : sameFrame (decode_xe5bit env raw).2 raw := by
  unfold decode_xe5bit
  simp only []
  split_ifs
  · exact sameFrame_refl raw
  · exact xe5bit_loop_frame env raw _ _

theorem decode_x88pvt_frame (env : Env) (raw : Raw) : sameFrame (decode_x88pvt env raw).2 raw := by
  unfold decode_x88pvt
  simp only []
  split_ifs <;> exact ⟨rfl, rfl, rfl, rfl, rfl⟩

theorem decode_x40alm_frame (env : Env) (raw : Raw) : sameFrame (decode_x40alm env raw).2 raw := by
  unfold decode_x40alm
  simp only []
  split_ifs <;> exact ⟨rfl, rfl, rfl, rfl, rfl⟩

theorem decode_nvs_frame (env : Env) (raw : Raw) : sameFrame (decode_nvs env raw).2 raw := by
  unfold decode_nvs
  simp only []
  split_ifs
  · exact sameFrame_trans (decode_xf5raw_frame env _) ⟨rfl, rfl, rfl, rfl, rfl⟩
  · exact sameFrame_trans (decode_xf7eph_frame env _) ⟨rfl, rfl, rfl, rfl, rfl⟩
  · exact sameFrame_trans (decode_xe5bit_frame env _) ⟨rfl, rfl, rfl, rfl, rfl⟩
  · exact ⟨rfl, rfl, rfl, rfl, rfl⟩
  · exact ⟨rfl, rfl, rfl, rfl, rfl⟩
  · exact sameFrame_trans (decode_x88pvt_frame env _) ⟨rfl, rfl, rfl, rfl, rfl⟩
  · exact sameFrame_trans (decode_x40alm_frame env _) ⟨rfl, rfl, rfl, rfl, rfl⟩
  · exact ⟨rfl, rfl, rfl, rfl, rfl⟩

theorem input_nvs_list_append (env : Env) (xs ys : List Nat) :
    ∀ (raw mid : Raw) (rs : List Int), input_nvs_list env raw xs = some (rs, mid) →
      input_nvs_list env raw (xs ++ ys) =
        (input_nvs_list env mid ys).map (fun r => (rs ++ r.1, r.2)) := by
  induction xs with
  | nil =>
    intro raw mid rs h
    simp only [input_nvs_list, Option.some.injEq, Prod.mk.injEq] at h
    obtain ⟨h1, h2⟩ := h
    subst h1 h2
    simp only [List.nil_append]
    cases h : input_nvs_list env raw ys <;> simp
  | cons x xs ih =>
    intro raw mid rs h
    rw [List.cons_append]
    simp only [input_nvs_list] at h ⊢
    cases h1 : input_nvs env raw x with
    | none => simp [h1] at h
    | some r =>
      simp only [h1] at h ⊢
      cases h2 : input_nvs_list env r.2 xs with
      | none => simp [h2] at h
      | some q =>
        simp only [h2, Option.some.injEq, Prod.mk.injEq] at h
        obtain ⟨h3, h4⟩ := h
        subst h3 h4
        rw [ih r.2 q.2 q.1 h2]
        cases h5 : input_nvs_list env q.2 ys <;> simp

theorem input_nvs_list_cons (env : Env) (raw : Raw) (d : Nat) (ds : List Nat) (q : Int × Raw)
    (qs : List Int × Raw) (h1 : input_nvs env raw d = some q)
    (h2 : input_nvs_list env q.2 ds = some qs) :
    input_nvs_list env raw (d :: ds) = some (q.1 :: qs.1, qs.2) := by
  simp only [input_nvs_list, h1, h2]

theorem replicate_zero_snoc (k : Nat) (x : Int) :
    (0 : Int) :: 0 :: List.replicate k 0 ++ [0, x] = List.replicate (k + 3) 0 ++ [x] := by
  have h : ∀ n : Nat, List.replicate n (0 : Int) ++ [0] = List.replicate (n + 1) 0 := by
    intro n
    induction n with
    | zero => rfl
    | succ n ih => simp only [List.replicate_succ, List.cons_append, ih]
  have e : (0 : Int) :: 0 :: List.replicate k 0 = List.replicate (k + 2) 0 := by
    simp only [List.replicate_succ]
  rw [e, show ([0, x] : List Int) = [0] ++ [x] from rfl, ← List.append_assoc, h]

/-- C1: a stuffed frame fed byte by byte from the idle state is handed to the
dispatcher de-stuffed, on its last byte and not before. -/
theorem input_nvs_roundtrip (env : Env) (raw : Raw) (t : Nat) (p : List Nat)
    (h0 : raw.nbyte = 0) (ht1 : t ≠ 0x10) (ht2 : t ≠ 0x03)
    (hlen : ([0x10, t] ++ p ++ [0x10, 0x03]).length < env.MAXRAWLEN) :
    ∃ fin : Raw,
      input_nvs_list env raw ([0x10, t] ++ stuff p ++ [0x10, 0x03]) =
        some (List.replicate ((stuff p).length + 3) 0 ++ [(decode_nvs env fin).1],
              (decode_nvs env fin).2) ∧
      fin.len = ((p.length + 4 : Nat) : Int) ∧ fin.nbyte = 0 ∧
      bufPrefix fin.buff (p.length + 4) = [0x10, t] ++ p ++ [0x10, 0x03] ∧
      sameData fin raw ∧ (decode_nvs env fin).2.nbyte = 0 := by
  simp only [List.length_append, List.length_cons, List.length_nil] at hlen
  have e1 := input_nvs_idle_sync env raw h0 (by omega)
  have e2 := input_nvs_header env
    { raw with buff := Function.update raw.buff 0 NVSSYNC, nbyte := 1 } t rfl ht1 ht2 (by omega)
  obtain ⟨raw1, h1, h2, h3, h4, h5⟩ := input_nvs_list_stuff env p
    { raw with buff := Function.update (Function.update raw.buff 0 NVSSYNC) 1 t,
               nbyte := 2, flag := 0 } [0x10, t] rfl (le_refl 2) rfl
    (by simp only [List.length_cons, List.length_nil]; omega)
    (by simp [bufPrefix, List.range_succ, NVSSYNC, Function.update])
  have hl : ([0x10, t] ++ p).length = p.length + 2 := by
    simp only [List.length_append, List.length_cons, List.length_nil]; omega
  rw [hl] at h2 h4
  have e3 := input_nvs_acc_sync1 env raw1 (p.length + 2) h2 (by omega) h3 (by omega)
  have e4 := input_nvs_acc_end env
    { raw1 with buff := Function.update raw1.buff (p.length + 2) NVSSYNC,
                nbyte := ((p.length + 2 : Nat) : Int) + 1, flag := 1 } (p.length + 3)
    (by show ((p.length + 2 : Nat) : Int) + 1 = ((p.length + 3 : Nat) : Int); push_cast; ring)
    (by omega) rfl (by omega)
  have hpre : input_nvs_list env raw ([0x10, t] ++ stuff p) =
      some (0 :: 0 :: List.replicate (stuff p).length 0, raw1) :=
    input_nvs_list_cons env raw 0x10 _ _ _ e1 (input_nvs_list_cons env _ t _ _ _ e2 h1)
  have hnil : ∀ r : Raw, input_nvs_list env r [] = some ([], r) := fun _ => rfl
  refine ⟨{ raw1 with
            buff := Function.update (Function.update raw1.buff (p.length + 2) NVSSYNC)
              (p.length + 3) NVSENDMSG,
            len := ((p.length + 3 : Nat) : Int) + 1, nbyte := 0, flag := 1 }, ?_, ?_, rfl, ?_, ?_, ?_⟩
  · rw [input_nvs_list_append env ([0x10, t] ++ stuff p) [0x10, 0x03] raw raw1 _ hpre,
      input_nvs_list_cons env raw1 0x10 [0x03] _ _ e3
        (input_nvs_list_cons env _ 0x03 [] _ _ e4 (hnil _)),
      Option.map_some', replicate_zero_snoc]
  · show ((p.length + 3 : Nat) : Int) + 1 = ((p.length + 4 : Nat) : Int)
    push_cast; ring
  · rw [bufPrefix_store, bufPrefix_store, h4]
    simp [NVSSYNC, NVSENDMSG]
  · exact h5
  · exact (decode_nvs_frame env _).1

/-- Witness of C1 at the sample environment: a PVT-typed frame whose payload
holds a sync byte, an end byte and a pair of sync bytes. -/
theorem input_nvs_roundtrip_witness :
    ∃ fin : Raw,
      input_nvs_list Sample.env Sample.raw0
          ([0x10, 0x88] ++ stuff [0x10, 0x03, 0x10, 0x10, 7] ++ [0x10, 0x03]) =
        some (List.replicate ((stuff [0x10, 0x03, 0x10, 0x10, 7]).length + 3) 0 ++
                [(decode_nvs Sample.env fin).1],
              (decode_nvs Sample.env fin).2) ∧
      fin.len = ((([0x10, 0x03, 0x10, 0x10, 7] : List Nat).length + 4 : Nat) : Int) ∧
      fin.nbyte = 0 ∧
      bufPrefix fin.buff (([0x10, 0x03, 0x10, 0x10, 7] : List Nat).length + 4) =
        [0x10, 0x88] ++ [0x10, 0x03, 0x10, 0x10, 7] ++ [0x10, 0x03] ∧
      sameData fin Sample.raw0 ∧ (decode_nvs Sample.env fin).2.nbyte = 0 :=
  input_nvs_roundtrip Sample.env Sample.raw0 0x88 [0x10, 0x03, 0x10, 0x10, 7] rfl
    (by decide) (by decide) (by decide)

/-- In the idle state a byte that is neither the sync byte nor a terminator
seen with the toggle set falls through to the store of the accumulating
state: it is kept in `buff[0]` and the byte count becomes 1. -/
theorem input_nvs_idle_other (env : Env) (raw : Raw) (data : Nat) (hM : 1 < env.MAXRAWLEN)
    (h0 : raw.nbyte = 0) (hs : data ≠ NVSSYNC) (he : ¬ (data = NVSENDMSG ∧ raw.flag ≠ 0)) :
    input_nvs env raw data =
      some (0, { raw with buff := Function.update raw.buff 0 data, nbyte := 1 }) := by
  have h1 : (0 : Int) < (env.MAXRAWLEN : Int) := by omega
  have h2 : ¬ ((1 : Int) = (env.MAXRAWLEN : Int)) := by omega
  by_cases hd : data = NVSENDMSG
  · have hf : raw.flag = 0 := by
      by_contra hf
      exact he ⟨hd, hf⟩
    subst hd
    simp [input_nvs, storeByte, h0, hs, hf, h1, h2]
  · simp [input_nvs, storeByte, h0, hs, hd, h1, h2]

/-- C2, the code at the failing input: from the initial (idle) state the byte
0x41 is not discarded.  It is stored at index 0 of the buffer and the byte
count becomes 1, so the synchronizer leaves the idle state without a sync
byte. -/
theorem input_nvs_idle_not_discarded :
    (input_nvs Sample.env Sample.raw0 0x41).map (fun r => (r.1, r.2.nbyte, r.2.buff 0)) =
        some (0, 1, 0x41) ∧
      Sample.raw0.nbyte = 0 ∧ Sample.raw0.buff 0 = 0 := by
  decide

/-- C3: with the byte count inside the buffer, one call of input_nvs stores inside
the buffer (the call is defined and no cell at or beyond MAXRAWLEN changes),
leaves the byte count inside the buffer, and, when the stored count reaches
MAXRAWLEN on a byte that does not terminate the frame, returns -1 with the
count reset to 0.  MAXRAWLEN is a constant of rtklib.h, assumed greater than 2. -/
theorem input_nvs_bound (env : Env) (raw : Raw) (data : Nat) (hM : 2 < env.MAXRAWLEN)
    (h0 : 0 ≤ raw.nbyte) (h1 : raw.nbyte < (env.MAXRAWLEN : Int)) :
    ∃ r : Int × Raw, input_nvs env raw data = some r ∧
      0 ≤ r.2.nbyte ∧ r.2.nbyte < (env.MAXRAWLEN : Int) ∧
      (∀ i : Nat, env.MAXRAWLEN ≤ i → r.2.buff i = raw.buff i) ∧
      (raw.nbyte + 1 = (env.MAXRAWLEN : Int) →
        (data ≠ NVSSYNC ∨ Int.tmod (raw.flag + 1) 2 ≠ 0) →
        ¬ (data = NVSENDMSG ∧ raw.flag ≠ 0) → r.1 = -1 ∧ r.2.nbyte = 0) := by
  have hM' : (2 : Int) < (env.MAXRAWLEN : Int) := by exact_mod_cast hM
  have hne : NVSENDMSG ≠ NVSSYNC := by decide
  have hupd : ∀ (v : Nat) (i : Nat), env.MAXRAWLEN ≤ i →
      Function.update raw.buff raw.nbyte.toNat v i = raw.buff i := by
    intro v i hi
    apply Function.update_noteq
    omega
  unfold input_nvs
  by_cases c1 : raw.nbyte = 0 ∧ data = NVSSYNC
  · rw [if_pos c1]
    have : (0 : Int) < (env.MAXRAWLEN : Int) := by omega
    refine ⟨_, by simp [storeByte, this]; rfl, by simp, by simpa using (by omega), ?_, ?_⟩
    · intro i hi
      exact Function.update_noteq (by omega) _ _
    · intro h; omega
  · rw [if_neg c1]
    by_cases c2 : raw.nbyte = 1 ∧ data ≠ NVSSYNC ∧ data ≠ NVSENDMSG
    · rw [if_pos c2]
      have : (1 : Int) < (env.MAXRAWLEN : Int) := by omega
      refine ⟨_, by simp [storeByte, this]; rfl, by simp, by simpa using (by omega), ?_, ?_⟩
      · intro i hi
        exact Function.update_noteq (by omega) _ _
      · intro h; omega
    · rw [if_neg c2]
      have hb : 0 ≤ raw.nbyte ∧ raw.nbyte < (env.MAXRAWLEN : Int) := ⟨h0, h1⟩
      by_cases hs : data = NVSSYNC
      · subst hs
        have hse : NVSSYNC ≠ NVSENDMSG := by decide
        by_cases hf : Int.tmod (raw.flag + 1) 2 = 0
        · refine ⟨(0, { raw with flag := Int.tmod (raw.flag + 1) 2 }), ?_, h0, h1,
            fun _ _ => rfl, ?_⟩
          · simp [storeByte, hf, hse, ne_of_lt h1]
          · intro _ h; simp [hf] at h
        · by_cases hfull : raw.nbyte + 1 = (env.MAXRAWLEN : Int)
          · refine ⟨(-1, { raw with flag := Int.tmod (raw.flag + 1) 2,
                                    buff := Function.update raw.buff raw.nbyte.toNat NVSSYNC,
                                    nbyte := 0 }), ?_, le_refl _, by simpa using (by omega),
              hupd _, fun _ _ _ => ⟨rfl, rfl⟩⟩
            simp [storeByte, hf, hse, hb, hfull]
          · refine ⟨(0, { raw with flag := Int.tmod (raw.flag + 1) 2,
                                   buff := Function.update raw.buff raw.nbyte.toNat NVSSYNC,
                                   nbyte := raw.nbyte + 1 }), ?_, by simpa using (by omega),
              by simpa using (by omega), hupd _, fun h => absurd h hfull⟩
            simp [storeByte, hf, hse, hb, hfull]
      · by_cases he : data = NVSENDMSG ∧ raw.flag ≠ 0
        · refine ⟨decode_nvs env { raw with buff := Function.update raw.buff raw.nbyte.toNat data,
                                            len := raw.nbyte + 1, nbyte := 0 }, ?_, ?_, ?_, ?_, ?_⟩
          · obtain ⟨hd, hfl⟩ := he
            subst hd
            simp [storeByte, hne, hfl, hb]
          · rw [(decode_nvs_frame env _).1]
          · rw [(decode_nvs_frame env _).1]; simpa using (by omega)
          · intro i hi
            rw [(decode_nvs_frame env _).2.2.2.1]
            exact hupd _ i hi
          · intro _ _ h; exact absurd he h
        · by_cases hfull : raw.nbyte + 1 = (env.MAXRAWLEN : Int)
          · refine ⟨(-1, { raw with buff := Function.update raw.buff raw.nbyte.toNat data,
                                    nbyte := 0 }), ?_, le_refl _, by simpa using (by omega),
              hupd _, fun _ _ _ => ⟨rfl, rfl⟩⟩
            simp [storeByte, hs, he, hb, hfull]
          · refine ⟨(0, { raw with buff := Function.update raw.buff raw.nbyte.toNat data,
                                   nbyte := raw.nbyte + 1 }), ?_, by simpa using (by omega),
              by simpa using (by omega), hupd _, fun h => absurd h hfull⟩
            simp [storeByte, hs, he, hb, hfull]

/-- Witness of C3 at the sample environment: the last free cell of the buffer is
filled by a plain byte. -/
theorem input_nvs_bound_witness :
    ∃ r : Int × Raw,
      input_nvs Sample.env { Sample.raw0 with nbyte := 4095 } 0x41 = some r ∧
      0 ≤ r.2.nbyte ∧ r.2.nbyte < (Sample.env.MAXRAWLEN : Int) ∧
      (∀ i : Nat, Sample.env.MAXRAWLEN ≤ i →
        r.2.buff i = ({ Sample.raw0 with nbyte := 4095 } : Raw).buff i) ∧
      (({ Sample.raw0 with nbyte := 4095 } : Raw).nbyte + 1 = (Sample.env.MAXRAWLEN : Int) →
        ((0x41 : Nat) ≠ NVSSYNC ∨
          Int.tmod (({ Sample.raw0 with nbyte := 4095 } : Raw).flag + 1) 2 ≠ 0) →
        ¬ ((0x41 : Nat) = NVSENDMSG ∧ ({ Sample.raw0 with nbyte := 4095 } : Raw).flag ≠ 0) →
        r.1 = -1 ∧ r.2.nbyte = 0) :=
  input_nvs_bound Sample.env { Sample.raw0 with nbyte := 4095 } 0x41 (by decide) (by decide)
    (by decide)

/-! ## Theorems: dispatcher -/

theorem decode_xf5raw_status (env : Env) (raw : Raw) :
    (decode_xf5raw env raw).1 = -1 ∨ (decode_xf5raw env raw).1 = 0 ∨
      (decode_xf5raw env raw).1 = 1 := by
  unfold decode_xf5raw
  simp only []
  split_ifs <;> simp

theorem decode_gpsephem_status (env : Env) (sat : Int) (raw : Raw) :
    (decode_gpsephem env sat raw).1 = -1 ∨ (decode_gpsephem env sat raw).1 = 0 ∨
      (decode_gpsephem env sat raw).1 = 2 := by
  unfold decode_gpsephem
  split_ifs <;> simp

theorem decode_gloephem_status (env : Env) (sat : Int) (raw : Raw) :
    (decode_gloephem env sat raw).1 = -1 ∨ (decode_gloephem env sat raw).1 = 0 ∨
      (decode_gloephem env sat raw).1 = 2 := by
  unfold decode_gloephem
  simp only []
  split_ifs <;> simp

theorem decode_xf7eph_status (env : Env) (raw : Raw) :
    (decode_xf7eph env raw).1 = -1 ∨ (decode_xf7eph env raw).1 = 0 ∨
      (decode_xf7eph env raw).1 = 2 := by
  unfold decode_xf7eph
  simp only []
  split_ifs
  all_goals first
    | exact decode_gpsephem_status env _ raw
    | exact decode_gloephem_status env _ raw
    | simp

theorem xe5bit_loop_status (env : Env) (raw : Raw) (k : Nat) :
    ∀ s : Nat, (xe5bit_loop env raw k s).1 = -1 ∨ (xe5bit_loop env raw k s).1 = 0 ∨
      (xe5bit_loop env raw k s).1 = 3 := by
  induction k with
  | zero => intro s; simp [xe5bit_loop]
  | succ k ih =>
    intro s
    unfold xe5bit_loop
    simp only []
    split_ifs
    all_goals first
      | exact ih _
      | simp

theorem decode_xe5bit_status (env : Env) (raw : Raw) :
    (decode_xe5bit env raw).1 = -1 ∨ (decode_xe5bit env raw).1 = 0 ∨
      (decode_xe5bit env raw).1 = 3 := by
  unfold decode_xe5bit
  simp only []
  split_ifs
  · simp
  · exact xe5bit_loop_status env raw _ _

theorem decode_x88pvt_status (env : Env) (raw : Raw) :
    (decode_x88pvt env raw).1 = -1 ∨ (decode_x88pvt env raw).1 = 4 := by
  unfold decode_x88pvt
  simp only []
  split_ifs <;> simp

theorem decode_x40alm_status (env : Env) (raw : Raw) :
    (decode_x40alm env raw).1 = 0 ∨ (decode_x40alm env raw).1 = 6 := by
  unfold decode_x40alm
  simp only []
  split_ifs <;> simp

/-- C4: the status table of decode_nvs by the type byte `buff[1]`: 0xF5 gives -1, 0
or 1; 0xF7 gives -1, 0 or 2; 0xE5 gives -1, 0 or 3; 0x4A and 0x4B give 9; 0x88
gives -1 or 4; 0x40 gives 0 or 6; any other type gives 0 and changes nothing but
the diagnostic tag `msgtype`.  Hence every status is one of -1, 0, 1, 2, 3, 4, 6, 9. -/
theorem decode_nvs_status_table (env : Env) (raw : Raw) :
    (U1 raw.buff 1 = 0xF5 → (decode_nvs env raw).1 ∈ ({-1, 0, 1} : Set Int)) ∧
    (U1 raw.buff 1 = 0xF7 → (decode_nvs env raw).1 ∈ ({-1, 0, 2} : Set Int)) ∧
    (U1 raw.buff 1 = 0xE5 → (decode_nvs env raw).1 ∈ ({-1, 0, 3} : Set Int)) ∧
    (U1 raw.buff 1 = 0x4A ∨ U1 raw.buff 1 = 0x4B → (decode_nvs env raw).1 = 9) ∧
    (U1 raw.buff 1 = 0x88 → (decode_nvs env raw).1 ∈ ({-1, 4} : Set Int)) ∧
    (U1 raw.buff 1 = 0x40 → (decode_nvs env raw).1 ∈ ({0, 6} : Set Int)) ∧
    (U1 raw.buff 1 ∉ ({0xF5, 0xF7, 0xE5, 0x4A, 0x4B, 0x88, 0x40} : Set Nat) →
      (decode_nvs env raw).1 = 0 ∧
      ∃ tag : String, (decode_nvs env raw).2 = { raw with msgtype := tag }) ∧
    (decode_nvs env raw).1 ∈ ({-1, 0, 1, 2, 3, 4, 6, 9} : Set Int) := by
  simp only [Set.mem_insert_iff, Set.mem_singleton_iff, not_or]
  refine ⟨?_, ?_, ?_, ?_, ?_, ?_, ?_, ?_⟩
  · intro h
    simp only [decode_nvs, h, ID_XF5RAW, if_true]
    exact decode_xf5raw_status env _
  · intro h
    simp only [decode_nvs, h, ID_XF5RAW, ID_XF7EPH, if_true]
    exact decode_xf7eph_status env _
  · intro h
    simp only [decode_nvs, h, ID_XF5RAW, ID_XF7EPH, ID_XE5BIT, if_true]
    exact decode_xe5bit_status env _
  · rintro (h | h) <;>
      simp [decode_nvs, h, ID_XF5RAW, ID_XF7EPH, ID_XE5BIT, ID_X4AIONO, ID_X4BTIME,
        decode_x4aiono, decode_x4btime]
  · intro h
    simp only [decode_nvs, h, ID_XF5RAW, ID_XF7EPH, ID_XE5BIT, ID_X4AIONO, ID_X4BTIME, ID_X88PVT,
      if_true]
    exact decode_x88pvt_status env _
  · intro h
    simp only [decode_nvs, h, ID_XF5RAW, ID_XF7EPH, ID_XE5BIT, ID_X4AIONO, ID_X4BTIME, ID_X88PVT,
      ID_X40ALM, if_true]
    exact decode_x40alm_status env _
  · rintro ⟨h1, h2, h3, h4, h5, h6, h7⟩
    have e : decode_nvs env raw =
        (0, { raw with
              msgtype := "NVS: type=" ++ fmt_d 2 (U1 raw.buff 1) ++ " len=" ++ fmt_d 3 raw.len }) := by
      simp only [decode_nvs, ID_XF5RAW, ID_XF7EPH, ID_XE5BIT, ID_X4AIONO, ID_X4BTIME, ID_X88PVT,
        ID_X40ALM, if_neg h1, if_neg h2, if_neg h3, if_neg h4, if_neg h5, if_neg h6, if_neg h7]
    rw [e]
    exact ⟨rfl, _, rfl⟩
  · unfold decode_nvs
    simp only []
    split_ifs
    · rcases decode_xf5raw_status env
        { raw with msgtype := "NVS: type=" ++ fmt_d 2 (U1 raw.buff 1) ++ " len=" ++ fmt_d 3 raw.len }
        with h | h | h <;> simp [h]
    · rcases decode_xf7eph_status env
        { raw with msgtype := "NVS: type=" ++ fmt_d 2 (U1 raw.buff 1) ++ " len=" ++ fmt_d 3 raw.len }
        with h | h | h <;> simp [h]
    · rcases decode_xe5bit_status env
        { raw with msgtype := "NVS: type=" ++ fmt_d 2 (U1 raw.buff 1) ++ " len=" ++ fmt_d 3 raw.len }
        with h | h | h <;> simp [h]
    · simp [decode_x4aiono]
    · simp [decode_x4btime]
    · rcases decode_x88pvt_status env
        { raw with msgtype := "NVS: type=" ++ fmt_d 2 (U1 raw.buff 1) ++ " len=" ++ fmt_d 3 raw.len }
        with h | h <;> simp [h]
    · rcases decode_x40alm_status env
        { raw with msgtype := "NVS: type=" ++ fmt_d 2 (U1 raw.buff 1) ++ " len=" ++ fmt_d 3 raw.len }
        with h | h <;> simp [h]
    · simp

/-! ## Theorems: raw-measurement decoder, length and epoch checks -/

/-- A frame length of at least 31 that is not 31 + 30 k is rejected with -1 and
the receiver state is left as it was. -/
theorem decode_xf5raw_len_error (env : Env) (raw : Raw) (h31 : 31 ≤ raw.len)
    (hk : ¬ ∃ k : Nat, raw.len = 31 + 30 * (k : Int)) : decode_xf5raw env raw = (-1, raw) := by
  have hm : Int.tmod (raw.len - 31) 30 ≠ 0 := by
    intro h0
    apply hk
    refine ⟨((raw.len - 31) / 30).toNat, ?_⟩
    have h1 : Int.tmod (raw.len - 31) 30 = (raw.len - 31) % 30 :=
      Int.tmod_eq_emod (by omega) (by omega)
    rw [h1] at h0
    omega
  unfold decode_xf5raw
  split_ifs <;> rfl

/-- C5, the code at the failing input: a type 0xF5 buffer with frame length 1
(not of the form 31 + 30 k) and a week field below 4096 passes the length test,
because `(1 - 31) % 30` is 0 in C.  The decoder returns 1, empties the
observation set (3 observations before, 0 after) and moves the last-epoch
marker. -/
theorem decode_xf5raw_len1_accepted :
    Sample.rawLen1.len = 1 ∧ Sample.rawLen1.obs.n = 3 ∧ Sample.rawLen1.time = ⟨0, 0⟩ ∧
    (decode_xf5raw Sample.env Sample.rawLen1).1 = 1 ∧
    (decode_xf5raw Sample.env Sample.rawLen1).2.obs.n = 0 ∧
    (decode_xf5raw Sample.env Sample.rawLen1).2.time = ⟨1554595200, 0⟩ := by
  decide!

theorem xf5raw_time_congr (env : Env) (a b : Raw) (h : sameFrame a b) :
    xf5raw_time env a = xf5raw_time env b := by
  obtain ⟨_, _, _, hb, ho⟩ := h
  simp only [xf5raw_time, xf5raw_week, xf5raw_dTowInt, xf5raw_dTowGPS, hb, ho]

/-- C6: epoch admission of decode_xf5raw.  For a frame that passes the week and
length checks, with derived epoch `t = xf5raw_time env raw` and stored epoch
`raw.time`: when a previous epoch exists and `|t - raw.time| > 86400`, or when
`|t - raw.time| <= 0.001`, the result is 0 and the whole state is unchanged;
otherwise the result is 1 and the last-epoch marker is `t`.  Consequently an
accepted frame decoded a second time is dropped, provided the time difference
of `t` with itself is within a millisecond. -/
theorem decode_xf5raw_admission (env : Env) (raw : Raw)
    (hw : xf5raw_week env raw < 4096) (hl : Int.tmod (raw.len - 31) 30 = 0) :
    ((raw.time.time ≠ 0 ∧
        env.flt (env.lit 86400 0)
          (env.fabs (env.timediff (xf5raw_time env raw) raw.time)) = true) ∨
      env.fle (env.fabs (env.timediff (xf5raw_time env raw) raw.time)) (env.lit 1 (-3)) = true →
      decode_xf5raw env raw = (0, raw)) ∧
    (¬ ((raw.time.time ≠ 0 ∧
        env.flt (env.lit 86400 0)
          (env.fabs (env.timediff (xf5raw_time env raw) raw.time)) = true) ∨
      env.fle (env.fabs (env.timediff (xf5raw_time env raw) raw.time)) (env.lit 1 (-3)) = true) →
      (decode_xf5raw env raw).1 = 1 ∧ (decode_xf5raw env raw).2.time = xf5raw_time env raw) ∧
    ((decode_xf5raw env raw).1 = 1 →
      env.fle (env.fabs (env.timediff (xf5raw_time env raw) (xf5raw_time env raw)))
        (env.lit 1 (-3)) = true →
      decode_xf5raw env (decode_xf5raw env raw).2 = (0, (decode_xf5raw env raw).2)) := by
  have hw' : ¬ (xf5raw_week env raw ≥ 4096) := by omega
  have drop : ∀ r : Raw, xf5raw_week env r < 4096 → Int.tmod (r.len - 31) 30 = 0 →
      ((r.time.time ≠ 0 ∧
          env.flt (env.lit 86400 0)
            (env.fabs (env.timediff (xf5raw_time env r) r.time)) = true) ∨
        env.fle (env.fabs (env.timediff (xf5raw_time env r) r.time)) (env.lit 1 (-3)) = true) →
      decode_xf5raw env r = (0, r) := by
    intro r h1 h2 h
    have h1' : ¬ (xf5raw_week env r ≥ 4096) := by omega
    unfold decode_xf5raw
    simp only [if_neg h1', h2, ne_eq, not_true_eq_false, if_false]
    rcases h with h | h
    · rw [if_pos h]
    · rw [if_pos h]
      split_ifs <;> rfl
  have acc : ¬ ((raw.time.time ≠ 0 ∧
        env.flt (env.lit 86400 0)
          (env.fabs (env.timediff (xf5raw_time env raw) raw.time)) = true) ∨
      env.fle (env.fabs (env.timediff (xf5raw_time env raw) raw.time)) (env.lit 1 (-3)) = true) →
      (decode_xf5raw env raw).1 = 1 ∧ (decode_xf5raw env raw).2.time = xf5raw_time env raw := by
    intro h
    rw [not_or] at h
    unfold decode_xf5raw
    simp only [if_neg hw', hl, ne_eq, not_true_eq_false, if_false]
    rw [if_neg h.1, if_neg h.2]
    exact ⟨rfl, rfl⟩
  refine ⟨drop raw hw hl, acc, ?_⟩
  intro h1 hsame
  have hf := decode_xf5raw_frame env raw
  have ht : (decode_xf5raw env raw).2.time = xf5raw_time env raw := by
    by_cases hc : ((raw.time.time ≠ 0 ∧
        env.flt (env.lit 86400 0)
          (env.fabs (env.timediff (xf5raw_time env raw) raw.time)) = true) ∨
      env.fle (env.fabs (env.timediff (xf5raw_time env raw) raw.time)) (env.lit 1 (-3)) = true)
    · rw [drop raw hw hl hc] at h1
      simp at h1
    · exact (acc hc).2
  apply drop
  · simpa only [xf5raw_week, hf.2.2.2.1] using hw
  · rw [hf.2.1]; exact hl
  · right
    rw [xf5raw_time_congr env _ raw hf, ht]
    exact hsame

/-- Witness of C6 at the sample environment (IEEE arithmetic): `frameA` is
accepted from the initial state and sets the epoch; `frameB`, 30 s later, is
accepted after it; `frameA` fed again is dropped with the state unchanged; and
`frameC`, 2 days later, is dropped with the state unchanged. -/
theorem decode_xf5raw_admission_witness :
    (xf5raw_week Sample.env (Sample.withFrame Sample.raw0 Sample.frameA) < 4096 ∧
      Int.tmod ((Sample.withFrame Sample.raw0 Sample.frameA).len - 31) 30 = 0) ∧
    ((decode_xf5raw Sample.env (Sample.withFrame Sample.raw0 Sample.frameA)).1 = 1 ∧
      (decode_xf5raw Sample.env (Sample.withFrame Sample.raw0 Sample.frameA)).2.time =
        xf5raw_time Sample.env (Sample.withFrame Sample.raw0 Sample.frameA)) ∧
    (decode_xf5raw Sample.env (Sample.withFrame
      (decode_xf5raw Sample.env (Sample.withFrame Sample.raw0 Sample.frameA)).2
        Sample.frameB)).1 = 1 ∧
    decode_xf5raw Sample.env
        (decode_xf5raw Sample.env (Sample.withFrame Sample.raw0 Sample.frameA)).2 =
      (0, (decode_xf5raw Sample.env (Sample.withFrame Sample.raw0 Sample.frameA)).2) ∧
    decode_xf5raw Sample.env (Sample.withFrame
        (decode_xf5raw Sample.env (Sample.withFrame Sample.raw0 Sample.frameA)).2 Sample.frameC) =
      (0, Sample.withFrame
        (decode_xf5raw Sample.env (Sample.withFrame Sample.raw0 Sample.frameA)).2 Sample.frameC) :=
  ⟨⟨by decide!, by decide!⟩,
   (decode_xf5raw_admission Sample.env (Sample.withFrame Sample.raw0 Sample.frameA)
      (by decide!) (by decide!)).2.1 (by decide!),
   by decide!,
   (decode_xf5raw_admission Sample.env (Sample.withFrame Sample.raw0 Sample.frameA)
      (by decide!) (by decide!)).2.2 (by decide!) (by decide!),
   (decode_xf5raw_admission Sample.env (Sample.withFrame
      (decode_xf5raw Sample.env (Sample.withFrame Sample.raw0 Sample.frameA)).2 Sample.frameC)
      (by decide!) (by decide!)).1 (by decide!)⟩

/-! ## Theorems: the record loop of the raw-measurement decoder -/

theorem findSatFrom_some (data : Nat → ObsD) (s : Nat) (k : Nat) :
    ∀ j0 j : Nat, findSatFrom data s k j0 = some j →
      j0 ≤ j ∧ j < j0 + k ∧ (data j).sat = s ∧ ∀ i, j0 ≤ i → i < j → (data i).sat ≠ s := by
  induction k with
  | zero => intro j0 j h; simp [findSatFrom] at h
  | succ k ih =>
    intro j0 j h
    unfold findSatFrom at h
    by_cases hc : (data j0).sat = s
    · rw [if_pos hc] at h
      have hj : j0 = j := by simpa using h
      subst hj
      exact ⟨le_refl _, by omega, hc, fun i h1 h2 => by omega⟩
    · rw [if_neg hc] at h
      obtain ⟨h1, h2, h3, h4⟩ := ih (j0 + 1) j h
      refine ⟨by omega, by omega, h3, ?_⟩
      intro i hi1 hi2
      by_cases hi : i = j0
      · subst hi; exact hc
      · exact h4 i (by omega) hi2

theorem findSatFrom_none (data : Nat → ObsD) (s : Nat) (k : Nat) :
    ∀ j0 : Nat, findSatFrom data s k j0 = none →
      ∀ i, j0 ≤ i → i < j0 + k → (data i).sat ≠ s := by
  induction k with
  | zero => intro j0 _ i h1 h2; omega
  | succ k ih =>
    intro j0 h i h1 h2
    unfold findSatFrom at h
    by_cases hc : (data j0).sat = s
    · rw [if_pos hc] at h; simp at h
    · rw [if_neg hc] at h
      by_cases hi : i = j0
      · subst hi; exact hc
      · exact ih (j0 + 1) h i (by omega) (by omega)

theorem findSatFrom_first (data : Nat → ObsD) (s : Nat) (k : Nat) :
    ∀ j0 j : Nat, j0 ≤ j → j < j0 + k → (data j).sat = s →
      (∀ i, j0 ≤ i → i < j → (data i).sat ≠ s) → findSatFrom data s k j0 = some j := by
  induction k with
  | zero => intro j0 j h1 h2; omega
  | succ k ih =>
    intro j0 j h1 h2 h3 h4
    unfold findSatFrom
    by_cases hj : j0 = j
    · subst hj; rw [if_pos h3]
    · rw [if_neg (h4 j0 (le_refl _) (by omega))]
      exact ih (j0 + 1) j (by omega) (by omega) h3 (fun i hi1 hi2 => h4 i (by omega) hi2)

theorem findSat_first (data : Nat → ObsD) (s n j : Nat) (h1 : j < n) (h2 : (data j).sat = s)
    (h3 : ∀ i, i < j → (data i).sat ≠ s) : findSat data s n = some j :=
  findSatFrom_first data s n 0 j (Nat.zero_le _) (by omega) h2 (fun i _ hi => h3 i hi)

theorem findSat_some (data : Nat → ObsD) (s n j : Nat) (h : findSat data s n = some j) :
    j < n ∧ (data j).sat = s ∧ ∀ i, i < j → (data i).sat ≠ s := by
  obtain ⟨_, h2, h3, h4⟩ := findSatFrom_some data s n 0 j h
  exact ⟨by omega, h3, fun i hi => h4 i (Nat.zero_le _) hi⟩

theorem findSat_none (data : Nat → ObsD) (s n : Nat) (h : findSat data s n = none) :
    ∀ i, i < n → (data i).sat ≠ s :=
  fun i hi => findSatFrom_none data s n 0 h i (Nat.zero_le _) (by omega)

/-- The index a record goes to is at most the count of observations. -/
theorem xf5raw_number_le (raw : Raw) (sat n : Nat) : xf5raw_number raw sat n ≤ n := by
  unfold xf5raw_number
  cases h : findSat raw.obs.data sat n with
  | none => simp
  | some j => simpa using le_of_lt (findSat_some _ _ _ _ h).1

theorem xf5raw_record_skip (env : Env) (time : GTime) (toff dTowFrac : Dbl) (i n : Nat) (raw : Raw)
    (h : xf5raw_sat env raw.buff i = 0 ∨ xf5raw_range env raw.buff i = true) :
    xf5raw_record env time toff dTowFrac i n raw = (n, raw) := by
  unfold xf5raw_record
  simp only []
  rcases h with h | h
  · rw [if_pos h]
  · split_ifs <;> first | rfl | simp_all

theorem xf5raw_record_keep (env : Env) (time : GTime) (toff dTowFrac : Dbl) (i n : Nat) (raw : Raw)
    (h1 : xf5raw_sat env raw.buff i ≠ 0) (h2 : xf5raw_range env raw.buff i = false)
    (h3 : xf5raw_keep env (xf5raw_label env raw.buff i)
      (xf5raw_d0 env raw (xf5raw_sat env raw.buff i) n) (xf5raw_slot raw.buff i)) :
    xf5raw_record env time toff dTowFrac i n raw =
      (n, { raw with
            obs := { raw.obs with
                     data := Function.update raw.obs.data
                       (xf5raw_number raw (xf5raw_sat env raw.buff i) n)
                       (xf5raw_d0 env raw (xf5raw_sat env raw.buff i) n) } }) := by
  unfold xf5raw_record
  simp only [if_neg h1, h2, Bool.false_eq_true, if_false, if_pos h3]

theorem xf5raw_record_apply (env : Env) (time : GTime) (toff dTowFrac : Dbl) (i n : Nat)
    (raw : Raw) (h : xf5raw_applied env i n raw) :
    xf5raw_record env time toff dTowFrac i n raw =
      (if (findSat raw.obs.data (xf5raw_sat env raw.buff i) n).isSome then n else n + 1,
       { raw with
         obs := { raw.obs with
                  data := Function.update raw.obs.data
                    (xf5raw_number raw (xf5raw_sat env raw.buff i) n)
                    (xf5raw_d1 env time toff dTowFrac i n raw) }
         halfc := Function.update raw.halfc ((xf5raw_sat env raw.buff i : Int) - 1)
           (Function.update (raw.halfc ((xf5raw_sat env raw.buff i : Int) - 1))
             (xf5raw_slot raw.buff i) (xf5raw_flag raw.buff i)) }) := by
  obtain ⟨h1, h2, h3⟩ := h
  unfold xf5raw_record
  simp only [if_neg h1, h2, Bool.false_eq_true, if_false, if_neg h3]
theorem land8_ne_zero_iff (x : Nat) : x &&& 0x08 ≠ 0 ↔ x.testBit 3 = true := by
  have h : x &&& 0x08 = (x.testBit 3).toNat * 2 ^ 3 := Nat.and_two_pow x 3
  rw [h]
  cases x.testBit 3 <;> simp

theorem xf5raw_LLIval_eq (env : Env) (raw : Raw) (i : Nat) :
    xf5raw_LLIval env raw i =
      if (xf5raw_flag raw.buff i).testBit 3 = true ∧
          (raw.halfc ((xf5raw_sat env raw.buff i : Int) - 1) (xf5raw_slot raw.buff i)).testBit 3 =
            false
      then 1 else 0 := by
  unfold xf5raw_LLIval
  simp only [land8_ne_zero_iff, Bool.not_eq_true]

/-- The state after decode_xf5raw accepts a frame: the record loop run from an
emptied observation set, then the epoch and the count stored. -/
theorem decode_xf5raw_accept (env : Env) (raw : Raw) (h : (decode_xf5raw env raw).1 = 1) :
    decode_xf5raw env raw =
      (1, { (xf5raw_loop env (xf5raw_time env raw) (xf5raw_toff env raw)
              (xf5raw_dTowFrac env raw) (List.range (Int.tdiv (raw.len - 31) 30).toNat) 0
              { raw with obs := { raw.obs with n := 0 } }).2 with
            time := xf5raw_time env raw
            obs := { (xf5raw_loop env (xf5raw_time env raw) (xf5raw_toff env raw)
                (xf5raw_dTowFrac env raw) (List.range (Int.tdiv (raw.len - 31) 30).toNat) 0
                { raw with obs := { raw.obs with n := 0 } }).2.obs with
              n := (xf5raw_loop env (xf5raw_time env raw) (xf5raw_toff env raw)
                (xf5raw_dTowFrac env raw) (List.range (Int.tdiv (raw.len - 31) 30).toNat) 0
                { raw with obs := { raw.obs with n := 0 } }).1 } }) := by
  unfold decode_xf5raw at h ⊢
  simp only [] at h ⊢
  split_ifs at h ⊢
  all_goals first
    | rfl
    | (simp at h)

/-- A record that is applied leaves its indicator in the slot of its satellite. -/
theorem xf5raw_record_establish_LLI (env : Env) (time : GTime) (toff dTowFrac : Dbl) (i n : Nat)
    (raw : Raw) (h : xf5raw_applied env i n raw) :
    slotLLI (xf5raw_record env time toff dTowFrac i n raw).2.obs.data
      (xf5raw_record env time toff dTowFrac i n raw).1
      (xf5raw_sat env raw.buff i) (xf5raw_slot raw.buff i) (xf5raw_LLIval env raw i) := by
  rw [xf5raw_record_apply env time toff dTowFrac i n raw h]
  have f1 : (xf5raw_d1 env time toff dTowFrac i n raw).sat = xf5raw_sat env raw.buff i := rfl
  have f2 : (xf5raw_d1 env time toff dTowFrac i n raw).LLI (xf5raw_slot raw.buff i) =
      xf5raw_LLIval env raw i := by
    simp only [xf5raw_d1, Function.update_same]
  cases hf : findSat raw.obs.data (xf5raw_sat env raw.buff i) n with
  | none =>
    have hnum : xf5raw_number raw (xf5raw_sat env raw.buff i) n = n := by
      simp [xf5raw_number, hf]
    rw [hnum]
    refine ⟨n, by simp, ?_, ?_, ?_⟩
    · simp only [Function.update_same, f1]
    · intro j hj
      simp only []
      rw [Function.update_noteq (by omega)]
      exact findSat_none _ _ _ hf j hj
    · simp only [Function.update_same, f2]
  | some j =>
    obtain ⟨g1, g2, g3⟩ := findSat_some _ _ _ _ hf
    have hnum : xf5raw_number raw (xf5raw_sat env raw.buff i) n = j := by
      simp [xf5raw_number, hf]
    rw [hnum]
    refine ⟨j, by simpa using g1, ?_, ?_, ?_⟩
    · simp only [Function.update_same, f1]
    · intro j' hj'
      simp only []
      rw [Function.update_noteq (by omega)]
      exact g3 j' hj'
    · simp only [Function.update_same, f2]

/-- A record that is skipped, held back, or applied to another satellite or
another slot leaves an indicator as it is. -/
theorem xf5raw_record_preserve_LLI (env : Env) (time : GTime) (toff dTowFrac : Dbl) (i n : Nat)
    (raw : Raw) (s k v : Nat)
    (hQ : slotLLI raw.obs.data n s k v)
    (hharm : xf5raw_applied env i n raw →
      xf5raw_sat env raw.buff i ≠ s ∨ xf5raw_slot raw.buff i ≠ k) :
    slotLLI (xf5raw_record env time toff dTowFrac i n raw).2.obs.data
      (xf5raw_record env time toff dTowFrac i n raw).1 s k v := by
  obtain ⟨j, hj, hs, hfirst, hv⟩ := hQ
  by_cases hskip : xf5raw_sat env raw.buff i = 0 ∨ xf5raw_range env raw.buff i = true
  · rw [xf5raw_record_skip env time toff dTowFrac i n raw hskip]
    exact ⟨j, hj, hs, hfirst, hv⟩
  · rw [not_or] at hskip
    obtain ⟨h1, h2⟩ := hskip
    have h2' : xf5raw_range env raw.buff i = false := by simpa using h2
    by_cases hkeep : xf5raw_keep env (xf5raw_label env raw.buff i)
        (xf5raw_d0 env raw (xf5raw_sat env raw.buff i) n) (xf5raw_slot raw.buff i)
    · rw [xf5raw_record_keep env time toff dTowFrac i n raw h1 h2' hkeep]
      cases hf : findSat raw.obs.data (xf5raw_sat env raw.buff i) n with
      | none =>
        have hnum : xf5raw_number raw (xf5raw_sat env raw.buff i) n = n := by
          simp [xf5raw_number, hf]
        rw [hnum]
        have hu : ∀ x, x < n → Function.update raw.obs.data n
            (xf5raw_d0 env raw (xf5raw_sat env raw.buff i) n) x = raw.obs.data x :=
          fun x hx => Function.update_noteq (by omega) _ _
        refine ⟨j, hj, ?_, ?_, ?_⟩
        · simp only [hu j hj, hs]
        · intro x hx
          simp only [hu x (by omega)]
          exact hfirst x hx
        · simp only [hu j hj, hv]
      | some j' =>
        have hnum : xf5raw_number raw (xf5raw_sat env raw.buff i) n = j' := by
          simp [xf5raw_number, hf]
        have hd0 : xf5raw_d0 env raw (xf5raw_sat env raw.buff i) n = raw.obs.data j' := by
          simp [xf5raw_d0, hf, hnum]
        rw [hnum, hd0, Function.update_eq_self]
        exact ⟨j, hj, hs, hfirst, hv⟩
    · have happ : xf5raw_applied env i n raw := ⟨h1, h2', hkeep⟩
      rw [xf5raw_record_apply env time toff dTowFrac i n raw happ]
      have f1 : (xf5raw_d1 env time toff dTowFrac i n raw).sat = xf5raw_sat env raw.buff i := rfl
      have hn' : n ≤ (if (findSat raw.obs.data (xf5raw_sat env raw.buff i) n).isSome = true
          then n else n + 1) := by
        split_ifs <;> omega
      by_cases hsat : xf5raw_sat env raw.buff i = s
      · have hk : k ≠ xf5raw_slot raw.buff i := by
          rcases hharm happ with h | h
          · exact absurd hsat h
          · exact fun e => h e.symm
        have hf : findSat raw.obs.data (xf5raw_sat env raw.buff i) n = some j := by
          rw [hsat]; exact findSat_first _ _ _ _ hj hs hfirst
        have hnum : xf5raw_number raw (xf5raw_sat env raw.buff i) n = j := by
          simp [xf5raw_number, hf]
        have hd0 : xf5raw_d0 env raw (xf5raw_sat env raw.buff i) n = raw.obs.data j := by
          simp [xf5raw_d0, hf, hnum]
        have o1 : (xf5raw_d1 env time toff dTowFrac i n raw).LLI k =
            (xf5raw_d0 env raw (xf5raw_sat env raw.buff i) n).LLI k := by
          simp only [xf5raw_d1]
          exact Function.update_noteq hk _ _
        rw [hd0] at o1
        rw [hnum]
        refine ⟨j, lt_of_lt_of_le hj hn', ?_, ?_, ?_⟩
        · simp only [Function.update_same, f1, hsat]
        · intro x hx
          simp only []
          rw [Function.update_noteq (by omega)]
          exact hfirst x hx
        · simp only [Function.update_same, o1, hv]
      · have hne : xf5raw_number raw (xf5raw_sat env raw.buff i) n ≠ j := by
          intro e
          cases hf : findSat raw.obs.data (xf5raw_sat env raw.buff i) n with
          | none =>
            simp [xf5raw_number, hf] at e
            omega
          | some j' =>
            simp [xf5raw_number, hf] at e
            subst e
            exact hsat ((findSat_some _ _ _ _ hf).2.1.symm.trans hs)
        refine ⟨j, lt_of_lt_of_le hj hn', ?_, ?_, ?_⟩
        · simp only []
          rw [Function.update_noteq (Ne.symm hne)]
          exact hs
        · intro x hx
          simp only []
          by_cases hx' : x = xf5raw_number raw (xf5raw_sat env raw.buff i) n
          · rw [hx', Function.update_same, f1]
            exact hsat
          · rw [Function.update_noteq hx']
            exact hfirst x hx
        · simp only []
          rw [Function.update_noteq (Ne.symm hne)]
          exact hv

/-- A record that is applied stores its flag byte for its (satellite, slot); any
other record leaves the stored flag byte of a (satellite, slot) as it is. -/
theorem xf5raw_record_halfc (env : Env) (time : GTime) (toff dTowFrac : Dbl) (i n : Nat)
    (raw : Raw) (s k : Nat) :
    (xf5raw_applied env i n raw →
      (xf5raw_record env time toff dTowFrac i n raw).2.halfc
        ((xf5raw_sat env raw.buff i : Int) - 1) (xf5raw_slot raw.buff i) =
          xf5raw_flag raw.buff i) ∧
    (¬ (xf5raw_applied env i n raw ∧ xf5raw_sat env raw.buff i = s ∧
        xf5raw_slot raw.buff i = k) →
      (xf5raw_record env time toff dTowFrac i n raw).2.halfc ((s : Int) - 1) k =
        raw.halfc ((s : Int) - 1) k) := by
  constructor
  · intro ha
    rw [xf5raw_record_apply env time toff dTowFrac i n raw ha]
    simp only [Function.update_same]
  · intro hn
    by_cases hskip : xf5raw_sat env raw.buff i = 0 ∨ xf5raw_range env raw.buff i = true
    · rw [xf5raw_record_skip env time toff dTowFrac i n raw hskip]
    · rw [not_or] at hskip
      obtain ⟨h1, h2⟩ := hskip
      have h2' : xf5raw_range env raw.buff i = false := by simpa using h2
      by_cases hkeep : xf5raw_keep env (xf5raw_label env raw.buff i)
          (xf5raw_d0 env raw (xf5raw_sat env raw.buff i) n) (xf5raw_slot raw.buff i)
      · rw [xf5raw_record_keep env time toff dTowFrac i n raw h1 h2' hkeep]
      · have happ : xf5raw_applied env i n raw := ⟨h1, h2', hkeep⟩
        rw [xf5raw_record_apply env time toff dTowFrac i n raw happ]
        simp only []
        by_cases hsat : xf5raw_sat env raw.buff i = s
        · have hk : k ≠ xf5raw_slot raw.buff i := fun e => hn ⟨happ, hsat, e.symm⟩
          rw [hsat, Function.update_same, Function.update_noteq hk]
        · have hne : ((s : Int) - 1) ≠ ((xf5raw_sat env raw.buff i : Int) - 1) := by
            intro e
            apply hsat
            omega
          rw [Function.update_noteq hne]

/-- The record loop and the tracked (satellite, slot): the stored flag byte and
the indicator after the loop are those tracked along the records the loop
applies to the pair. -/
theorem xf5raw_loop_track (env : Env) (time : GTime) (toff dTowFrac : Dbl) (b : Nat → Nat)
    (s k : Nat) (is : List Nat) :
    ∀ (n : Nat) (raw : Raw) (v0 : Option Nat), raw.buff = b →
      (∀ v, v0 = some v → slotLLI raw.obs.data n s k v) →
      (xf5raw_loop env time toff dTowFrac is n raw).2.halfc ((s : Int) - 1) k =
          (xf5raw_track b (xf5raw_appliedTo env time toff dTowFrac s k is n raw)
            (raw.halfc ((s : Int) - 1) k) v0).1 ∧
        ∀ v, (xf5raw_track b (xf5raw_appliedTo env time toff dTowFrac s k is n raw)
            (raw.halfc ((s : Int) - 1) k) v0).2 = some v →
          slotLLI (xf5raw_loop env time toff dTowFrac is n raw).2.obs.data
            (xf5raw_loop env time toff dTowFrac is n raw).1 s k v := by
  induction is with
  | nil =>
    intro n raw v0 _ h0
    exact ⟨rfl, h0⟩
  | cons i rest ih =>
    intro n raw v0 hb h0
    unfold xf5raw_loop xf5raw_appliedTo
    by_cases hn : n < env.MAXOBS
    · rw [if_pos hn, if_pos hn]
      have hb1 : (xf5raw_record env time toff dTowFrac i n raw).2.buff = b := by
        rw [(xf5raw_record_frame env time toff dTowFrac i n raw).2.2.2.1, hb]
      obtain ⟨c1, c2⟩ := xf5raw_record_halfc env time toff dTowFrac i n raw s k
      by_cases ha : xf5raw_applied env i n raw ∧ xf5raw_sat env raw.buff i = s ∧
          xf5raw_slot raw.buff i = k
      · rw [if_pos ha, List.singleton_append]
        obtain ⟨ha1, ha2, ha3⟩ := ha
        have hh : (xf5raw_record env time toff dTowFrac i n raw).2.halfc ((s : Int) - 1) k =
            xf5raw_flag b i := by
          have := c1 ha1
          rw [ha2, ha3, hb] at this
          exact this
        have hest := xf5raw_record_establish_LLI env time toff dTowFrac i n raw ha1
        rw [ha2, ha3, xf5raw_LLIval_eq, ha2, ha3, hb] at hest
        have := ih (xf5raw_record env time toff dTowFrac i n raw).1
          (xf5raw_record env time toff dTowFrac i n raw).2
          (some (if (xf5raw_flag b i).testBit 3 = true ∧
            (raw.halfc ((s : Int) - 1) k).testBit 3 = false then 1 else 0)) hb1
          (fun v hv => by cases hv; exact hest)
        rw [hh] at this
        exact this
      · rw [if_neg ha, List.nil_append]
        have hh := c2 ha
        have := ih (xf5raw_record env time toff dTowFrac i n raw).1
          (xf5raw_record env time toff dTowFrac i n raw).2 v0 hb1
          (fun v hv => xf5raw_record_preserve_LLI env time toff dTowFrac i n raw s k v (h0 v hv)
            (fun happ => by
              by_contra hcon
              rw [not_or, not_not, not_not] at hcon
              exact ha ⟨happ, hcon.1, hcon.2⟩))
        rw [hh] at this
        exact this
    · rw [if_neg hn, if_neg hn]
      exact ⟨rfl, h0⟩

theorem xf5raw_track_append (b : Nat → Nat) (pre : List Nat) (i : Nat) :
    ∀ (h : Nat) (v : Option Nat),
      xf5raw_track b (pre ++ [i]) h v =
        (xf5raw_flag b i,
          some (if (xf5raw_flag b i).testBit 3 = true ∧
            (((pre.getLast?).map (xf5raw_flag b)).getD h).testBit 3 = false then 1 else 0)) := by
  induction pre with
  | nil => intro h v; rfl
  | cons j rest ih =>
    intro h v
    rw [List.cons_append, xf5raw_track, ih]
    cases rest with
    | nil => rfl
    | cons j2 rest2 =>
      have e1 : (j :: j2 :: rest2).getLast? = (j2 :: rest2).getLast? := List.getLast?_cons_cons
      obtain ⟨y, hy⟩ : ∃ y, (j2 :: rest2).getLast? = some y :=
        ⟨_, List.getLast?_eq_getLast _ (by simp)⟩
      rw [e1, hy]
      rfl

/-- The stored flag byte and the indicator of a (satellite, slot) after
decode_xf5raw accepts a frame that applies the records `pre`, then record `i`,
to the pair. -/
theorem decode_xf5raw_track (env : Env) (raw : Raw) (s k : Nat) (pre : List Nat) (i : Nat)
    (hacc : (decode_xf5raw env raw).1 = 1)
    (happ : xf5raw_appliedIn env raw s k = pre ++ [i]) :
    (decode_xf5raw env raw).2.halfc ((s : Int) - 1) k = xf5raw_flag raw.buff i ∧
    slotLLI (decode_xf5raw env raw).2.obs.data (decode_xf5raw env raw).2.obs.n s k
      (if (xf5raw_flag raw.buff i).testBit 3 = true ∧
          (((pre.getLast?).map (xf5raw_flag raw.buff)).getD
            (raw.halfc ((s : Int) - 1) k)).testBit 3 = false then 1 else 0) := by
  have h := xf5raw_loop_track env (xf5raw_time env raw) (xf5raw_toff env raw)
    (xf5raw_dTowFrac env raw) raw.buff s k (List.range (Int.tdiv (raw.len - 31) 30).toNat) 0
    { raw with obs := { raw.obs with n := 0 } } none rfl (fun v hv => by cases hv)
  unfold xf5raw_appliedIn at happ
  rw [happ, xf5raw_track_append] at h
  rw [decode_xf5raw_accept env raw hacc]
  exact ⟨h.1, h.2 _ rfl⟩

/-- A frame that applies no record to a (satellite, slot) leaves its stored flag
byte as it is. -/
theorem decode_xf5raw_track_none (env : Env) (raw : Raw) (s k : Nat)
    (hacc : (decode_xf5raw env raw).1 = 1)
    (happ : xf5raw_appliedIn env raw s k = []) :
    (decode_xf5raw env raw).2.halfc ((s : Int) - 1) k = raw.halfc ((s : Int) - 1) k := by
  have h := xf5raw_loop_track env (xf5raw_time env raw) (xf5raw_toff env raw)
    (xf5raw_dTowFrac env raw) raw.buff s k (List.range (Int.tdiv (raw.len - 31) 30).toNat) 0
    { raw with obs := { raw.obs with n := 0 } } none rfl (fun v hv => by cases hv)
  unfold xf5raw_appliedIn at happ
  rw [happ] at h
  rw [decode_xf5raw_accept env raw hacc]
  exact h.1

theorem slotLLI_unique (data : Nat → ObsD) (n s k v w : Nat)
    (h1 : slotLLI data n s k v) (h2 : slotLLI data n s k w) : v = w := by
  obtain ⟨j, _, hs, hf, hv⟩ := h1
  obtain ⟨j2, _, hs2, hf2, hw⟩ := h2
  have e : j = j2 := by
    rcases Nat.lt_trichotomy j j2 with h | h | h
    · exact absurd hs (hf2 j h)
    · exact h
    · exact absurd hs2 (hf j2 h)
  subst e
  rw [← hv, ← hw]

/-- C8 (amended): cycle-slip flagging.  For every record the loop of
decode_xf5raw applies, the loss-of-lock indicator stored in the record's
(satellite, slot) is 1 when bit 3 of the record's flag byte is set and bit 3 of
the stored flag byte `halfc[sat-1][slot]` is clear, and 0 otherwise, and
afterwards `halfc[sat-1][slot]` is the record's flag byte.  Hence, when an
accepted message applies the records `pre` and then, as the last one, record `i`
to a (satellite, slot), the stored flag byte afterwards is that of record `i`,
and the indicator the message leaves is 1 exactly when the validity bit of
record `i` is set and the validity bit before it is clear: that of the last
record of `pre`, or of the flag byte stored before the message when `pre` is
empty.  Consequently, over two messages accepted one after the other of which
the first applies at least one record to the (satellite, slot), with `i1` the
last, and the second applies exactly one, `i2`, the validity-bit sequence 0,1
sets the indicator on the second decode only and the sequence 1,1 does not set
it on the second. -/
theorem xf5raw_cycle_slip (env : Env) :
    (∀ (time : GTime) (toff dTowFrac : Dbl) (i n : Nat) (raw : Raw),
      xf5raw_applied env i n raw →
      ((xf5raw_record env time toff dTowFrac i n raw).2.obs.data
          (xf5raw_number raw (xf5raw_sat env raw.buff i) n)).LLI (xf5raw_slot raw.buff i) =
        (if (xf5raw_flag raw.buff i).testBit 3 = true ∧
            (raw.halfc ((xf5raw_sat env raw.buff i : Int) - 1)
              (xf5raw_slot raw.buff i)).testBit 3 = false
         then 1 else 0) ∧
      (xf5raw_record env time toff dTowFrac i n raw).2.halfc
          ((xf5raw_sat env raw.buff i : Int) - 1) (xf5raw_slot raw.buff i) =
        xf5raw_flag raw.buff i) ∧
    (∀ (raw : Raw) (s k : Nat) (pre : List Nat) (i : Nat),
      (decode_xf5raw env raw).1 = 1 → xf5raw_appliedIn env raw s k = pre ++ [i] →
      (decode_xf5raw env raw).2.halfc ((s : Int) - 1) k = xf5raw_flag raw.buff i ∧
      slotLLI (decode_xf5raw env raw).2.obs.data (decode_xf5raw env raw).2.obs.n s k
        (if (xf5raw_flag raw.buff i).testBit 3 = true ∧
            (((pre.getLast?).map (xf5raw_flag raw.buff)).getD
              (raw.halfc ((s : Int) - 1) k)).testBit 3 = false then 1 else 0)) ∧
    (∀ (raw : Raw) (b2 : Nat → Nat) (l2 : Int) (s k : Nat) (pre : List Nat) (i1 i2 : Nat),
      (decode_xf5raw env raw).1 = 1 → xf5raw_appliedIn env raw s k = pre ++ [i1] →
      (decode_xf5raw env { (decode_xf5raw env raw).2 with buff := b2, len := l2 }).1 = 1 →
      xf5raw_appliedIn env { (decode_xf5raw env raw).2 with buff := b2, len := l2 } s k = [i2] →
      slotLLI (decode_xf5raw env { (decode_xf5raw env raw).2 with buff := b2, len := l2 }).2.obs.data
          (decode_xf5raw env { (decode_xf5raw env raw).2 with buff := b2, len := l2 }).2.obs.n s k
          (if (xf5raw_flag b2 i2).testBit 3 = true ∧ (xf5raw_flag raw.buff i1).testBit 3 = false
            then 1 else 0) ∧
      ((xf5raw_flag raw.buff i1).testBit 3 = false → (xf5raw_flag b2 i2).testBit 3 = true →
        slotLLI (decode_xf5raw env raw).2.obs.data (decode_xf5raw env raw).2.obs.n s k 0 ∧
        slotLLI
          (decode_xf5raw env { (decode_xf5raw env raw).2 with buff := b2, len := l2 }).2.obs.data
          (decode_xf5raw env { (decode_xf5raw env raw).2 with buff := b2, len := l2 }).2.obs.n
          s k 1) ∧
      ((xf5raw_flag raw.buff i1).testBit 3 = true → (xf5raw_flag b2 i2).testBit 3 = true →
        slotLLI
          (decode_xf5raw env { (decode_xf5raw env raw).2 with buff := b2, len := l2 }).2.obs.data
          (decode_xf5raw env { (decode_xf5raw env raw).2 with buff := b2, len := l2 }).2.obs.n
          s k 0)) := by
  refine ⟨?_, ?_, ?_⟩
  · intro time toff dTowFrac i n raw ha
    rw [xf5raw_record_apply env time toff dTowFrac i n raw ha]
    simp only [Function.update_same, xf5raw_d1, xf5raw_LLIval_eq]
    trivial
  · intro raw s k pre i hacc happ
    exact decode_xf5raw_track env raw s k pre i hacc happ
  · intro raw b2 l2 s k pre i1 i2 h1 a1 h2 a2
    obtain ⟨e1, e2⟩ := decode_xf5raw_track env raw s k pre i1 h1 a1
    obtain ⟨_, f2⟩ := decode_xf5raw_track env
      { (decode_xf5raw env raw).2 with buff := b2, len := l2 } s k [] i2 h2 a2
    have key : slotLLI
        (decode_xf5raw env { (decode_xf5raw env raw).2 with buff := b2, len := l2 }).2.obs.data
        (decode_xf5raw env { (decode_xf5raw env raw).2 with buff := b2, len := l2 }).2.obs.n s k
        (if (xf5raw_flag b2 i2).testBit 3 = true ∧ (xf5raw_flag raw.buff i1).testBit 3 = false
          then 1 else 0) := by
      have f2' := f2
      simp only [List.getLast?_nil, Option.map_none', Option.getD_none, e1] at f2'
      exact f2'
    refine ⟨key, ?_, ?_⟩
    · intro hf1 hf2
      refine ⟨?_, ?_⟩
      · have := e2
        rw [if_neg (by simp [hf1])] at this
        exact this
      · have := key
        rw [if_pos ⟨hf2, hf1⟩] at this
        exact this
    · intro hf1 hf2
      have := key
      rw [if_neg (by simp [hf1])] at this
      exact this

/-- Witness of C8 at the sample environment, on frames of two records for slot 0
of satellite 33 (GLONASS PRN 1).  A frame with the civil and then the precise
record, both with flag byte 0x00, applies both; the frame 30 s later with the
precise and then the civil record, both 0x08, applies the precise record only:
the indicator is set on the second decode only.  After a frame whose applied
record has the flag byte 0x08, such a second frame does not set it.  The
one-record frames `frameA` (flag byte 0x00) and `frameB` (0x08) of satellite 5
set the indicator on the second decode only. -/
theorem xf5raw_cycle_slip_witness :
    (slotLLI (decode_xf5raw Sample.env
          (Sample.rawPair (Sample.civilRec 0) (Sample.preciseRec 0))).2.obs.data
        (decode_xf5raw Sample.env
          (Sample.rawPair (Sample.civilRec 0) (Sample.preciseRec 0))).2.obs.n 33 0 0 ∧
      slotLLI
        (decode_xf5raw Sample.env
          { (decode_xf5raw Sample.env
              (Sample.rawPair (Sample.civilRec 0) (Sample.preciseRec 0))).2 with
            buff := Sample.pairBuf Sample.tow30 (Sample.preciseRec 8) (Sample.civilRec 8)
            len := 91 }).2.obs.data
        (decode_xf5raw Sample.env
          { (decode_xf5raw Sample.env
              (Sample.rawPair (Sample.civilRec 0) (Sample.preciseRec 0))).2 with
            buff := Sample.pairBuf Sample.tow30 (Sample.preciseRec 8) (Sample.civilRec 8)
            len := 91 }).2.obs.n 33 0 1) ∧
    slotLLI
      (decode_xf5raw Sample.env
        { (decode_xf5raw Sample.env
            (Sample.rawPair (Sample.preciseRec 8) (Sample.civilRec 8))).2 with
          buff := Sample.pairBuf Sample.tow30 (Sample.preciseRec 8) (Sample.civilRec 8)
          len := 91 }).2.obs.data
      (decode_xf5raw Sample.env
        { (decode_xf5raw Sample.env
            (Sample.rawPair (Sample.preciseRec 8) (Sample.civilRec 8))).2 with
          buff := Sample.pairBuf Sample.tow30 (Sample.preciseRec 8) (Sample.civilRec 8)
          len := 91 }).2.obs.n 33 0 0 ∧
    (slotLLI (decode_xf5raw Sample.env (Sample.withFrame Sample.raw0 Sample.frameA)).2.obs.data
        (decode_xf5raw Sample.env (Sample.withFrame Sample.raw0 Sample.frameA)).2.obs.n 5 0 0 ∧
      slotLLI
        (decode_xf5raw Sample.env
          { (decode_xf5raw Sample.env (Sample.withFrame Sample.raw0 Sample.frameA)).2 with
            buff := Sample.bufOf Sample.frameB
            len := 61 }).2.obs.data
        (decode_xf5raw Sample.env
          { (decode_xf5raw Sample.env (Sample.withFrame Sample.raw0 Sample.frameA)).2 with
            buff := Sample.bufOf Sample.frameB
            len := 61 }).2.obs.n 5 0 1) :=
  ⟨((xf5raw_cycle_slip Sample.env).2.2
      (Sample.rawPair (Sample.civilRec 0) (Sample.preciseRec 0))
      (Sample.pairBuf Sample.tow30 (Sample.preciseRec 8) (Sample.civilRec 8)) 91 33 0 [0] 1 0
      (by decide!) (by decide!) (by decide!) (by decide!)).2.1 (by decide!) (by decide!),
   ((xf5raw_cycle_slip Sample.env).2.2
      (Sample.rawPair (Sample.preciseRec 8) (Sample.civilRec 8))
      (Sample.pairBuf Sample.tow30 (Sample.preciseRec 8) (Sample.civilRec 8)) 91 33 0 [] 0 0
      (by decide!) (by decide!) (by decide!) (by decide!)).2.2 (by decide!) (by decide!),
   ((xf5raw_cycle_slip Sample.env).2.2 (Sample.withFrame Sample.raw0 Sample.frameA)
      (Sample.bufOf Sample.frameB) 61 5 0 [] 0 0
      (by decide!) (by decide!) (by decide!) (by decide!)).2.1 (by decide!) (by decide!)⟩

/-- C8 as stated fails on the code.  Two frames are accepted one after the other,
each with a civil and then a precise record for slot 0 of satellite 33 (GLONASS
PRN 1), both of which the loop applies.  The validity bit is clear in both
records of the first frame and set in both records of the second, a sequence
0,1; yet the indicator of the slot after the second decode is 0, not 1: the
precise record of the second frame is compared with the flag byte that the
civil record of the same frame has just stored. -/
theorem xf5raw_slip_missed :
    (decode_xf5raw Sample.env (Sample.rawPair (Sample.civilRec 0) (Sample.preciseRec 0))).1 = 1 ∧
    (decode_xf5raw Sample.env (Sample.rawPairNext Sample.env (Sample.civilRec 0)
      (Sample.preciseRec 0) (Sample.civilRec 8) (Sample.preciseRec 8))).1 = 1 ∧
    xf5raw_appliedIn Sample.env
      (Sample.rawPair (Sample.civilRec 0) (Sample.preciseRec 0)) 33 0 = [0, 1] ∧
    xf5raw_appliedIn Sample.env (Sample.rawPairNext Sample.env (Sample.civilRec 0)
      (Sample.preciseRec 0) (Sample.civilRec 8) (Sample.preciseRec 8)) 33 0 = [0, 1] ∧
    ((xf5raw_flag (Sample.pairBuf Sample.tow0 (Sample.civilRec 0) (Sample.preciseRec 0)) 0).testBit 3
        = false ∧
      (xf5raw_flag (Sample.pairBuf Sample.tow0 (Sample.civilRec 0) (Sample.preciseRec 0)) 1).testBit 3
        = false) ∧
    ((xf5raw_flag (Sample.pairBuf Sample.tow30 (Sample.civilRec 8) (Sample.preciseRec 8)) 0).testBit 3
        = true ∧
      (xf5raw_flag (Sample.pairBuf Sample.tow30 (Sample.civilRec 8) (Sample.preciseRec 8)) 1).testBit 3
        = true) ∧
    slotLLI (decode_xf5raw Sample.env
          (Sample.rawPair (Sample.civilRec 0) (Sample.preciseRec 0))).2.obs.data
        (decode_xf5raw Sample.env
          (Sample.rawPair (Sample.civilRec 0) (Sample.preciseRec 0))).2.obs.n 33 0 0 ∧
    slotLLI (decode_xf5raw Sample.env (Sample.rawPairNext Sample.env (Sample.civilRec 0)
        (Sample.preciseRec 0) (Sample.civilRec 8) (Sample.preciseRec 8))).2.obs.data
      (decode_xf5raw Sample.env (Sample.rawPairNext Sample.env (Sample.civilRec 0)
        (Sample.preciseRec 0) (Sample.civilRec 8) (Sample.preciseRec 8))).2.obs.n 33 0 0 ∧
    ¬ slotLLI (decode_xf5raw Sample.env (Sample.rawPairNext Sample.env (Sample.civilRec 0)
        (Sample.preciseRec 0) (Sample.civilRec 8) (Sample.preciseRec 8))).2.obs.data
      (decode_xf5raw Sample.env (Sample.rawPairNext Sample.env (Sample.civilRec 0)
        (Sample.preciseRec 0) (Sample.civilRec 8) (Sample.preciseRec 8))).2.obs.n 33 0 1 := by
  have hn1 : (decode_xf5raw Sample.env
      (Sample.rawPair (Sample.civilRec 0) (Sample.preciseRec 0))).2.obs.n = 1 := by decide!
  have hs1 : ((decode_xf5raw Sample.env
      (Sample.rawPair (Sample.civilRec 0) (Sample.preciseRec 0))).2.obs.data 0).sat = 33 := by
    decide!
  have hv1 : ((decode_xf5raw Sample.env
      (Sample.rawPair (Sample.civilRec 0) (Sample.preciseRec 0))).2.obs.data 0).LLI 0 = 0 := by
    decide!
  have hn2 : (decode_xf5raw Sample.env (Sample.rawPairNext Sample.env (Sample.civilRec 0)
      (Sample.preciseRec 0) (Sample.civilRec 8) (Sample.preciseRec 8))).2.obs.n = 1 := by decide!
  have hs2 : ((decode_xf5raw Sample.env (Sample.rawPairNext Sample.env (Sample.civilRec 0)
      (Sample.preciseRec 0) (Sample.civilRec 8) (Sample.preciseRec 8))).2.obs.data 0).sat = 33 := by
    decide!
  have hv2 : ((decode_xf5raw Sample.env (Sample.rawPairNext Sample.env (Sample.civilRec 0)
      (Sample.preciseRec 0) (Sample.civilRec 8) (Sample.preciseRec 8))).2.obs.data 0).LLI 0 = 0 := by
    decide!
  have q1 : slotLLI (decode_xf5raw Sample.env
        (Sample.rawPair (Sample.civilRec 0) (Sample.preciseRec 0))).2.obs.data
      (decode_xf5raw Sample.env
        (Sample.rawPair (Sample.civilRec 0) (Sample.preciseRec 0))).2.obs.n 33 0 0 :=
    ⟨0, by rw [hn1]; decide, hs1, fun i hi => absurd hi (Nat.not_lt_zero i), hv1⟩
  have q2 : slotLLI (decode_xf5raw Sample.env (Sample.rawPairNext Sample.env (Sample.civilRec 0)
        (Sample.preciseRec 0) (Sample.civilRec 8) (Sample.preciseRec 8))).2.obs.data
      (decode_xf5raw Sample.env (Sample.rawPairNext Sample.env (Sample.civilRec 0)
        (Sample.preciseRec 0) (Sample.civilRec 8) (Sample.preciseRec 8))).2.obs.n 33 0 0 :=
    ⟨0, by rw [hn2]; decide, hs2, fun i hi => absurd hi (Nat.not_lt_zero i), hv2⟩
  refine ⟨by decide!, by decide!, by decide!, by decide!, ⟨by decide!, by decide!⟩,
    ⟨by decide!, by decide!⟩, q1, q2, ?_⟩
  intro h
  exact absurd (slotLLI_unique _ _ _ _ _ _ h q2) (by decide)

/-! ## Theorems: code preference in the record loop -/

theorem xf5raw_d1_fields (env : Env) (time : GTime) (toff dTowFrac : Dbl) (i n : Nat) (raw : Raw) :
    (xf5raw_d1 env time toff dTowFrac i n raw).sat = xf5raw_sat env raw.buff i ∧
    (xf5raw_d1 env time toff dTowFrac i n raw).code (xf5raw_slot raw.buff i) =
      xf5raw_label env raw.buff i ∧
    (xf5raw_d1 env time toff dTowFrac i n raw).L (xf5raw_slot raw.buff i) =
      xf5raw_Lval env raw.buff toff i ∧
    (xf5raw_d1 env time toff dTowFrac i n raw).P (xf5raw_slot raw.buff i) =
      xf5raw_Pval env raw.buff toff dTowFrac i ∧
    (xf5raw_d1 env time toff dTowFrac i n raw).D (xf5raw_slot raw.buff i) =
      xf5raw_Dval env raw.buff i := by
  simp only [xf5raw_d1, Function.update_same, and_self]

theorem xf5raw_d1_other (env : Env) (time : GTime) (toff dTowFrac : Dbl) (i n : Nat) (raw : Raw)
    (k : Nat) (hk : k ≠ xf5raw_slot raw.buff i) :
    (xf5raw_d1 env time toff dTowFrac i n raw).code k =
      (xf5raw_d0 env raw (xf5raw_sat env raw.buff i) n).code k ∧
    (xf5raw_d1 env time toff dTowFrac i n raw).L k =
      (xf5raw_d0 env raw (xf5raw_sat env raw.buff i) n).L k ∧
    (xf5raw_d1 env time toff dTowFrac i n raw).P k =
      (xf5raw_d0 env raw (xf5raw_sat env raw.buff i) n).P k ∧
    (xf5raw_d1 env time toff dTowFrac i n raw).D k =
      (xf5raw_d0 env raw (xf5raw_sat env raw.buff i) n).D k := by
  simp only [xf5raw_d1, Function.update_noteq hk, and_self]

/-- An applied record leaves its values in its slot of its satellite's
observation. -/
theorem xf5raw_record_establish (env : Env) (time : GTime) (toff dTowFrac : Dbl) (i n : Nat)
    (raw : Raw) (h : xf5raw_applied env i n raw) :
    slotHolds (xf5raw_record env time toff dTowFrac i n raw).2.obs.data
      (xf5raw_record env time toff dTowFrac i n raw).1
      (xf5raw_sat env raw.buff i) (xf5raw_slot raw.buff i) (xf5raw_label env raw.buff i)
      (xf5raw_Lval env raw.buff toff i) (xf5raw_Pval env raw.buff toff dTowFrac i)
      (xf5raw_Dval env raw.buff i) := by
  rw [xf5raw_record_apply env time toff dTowFrac i n raw h]
  obtain ⟨f1, f2, f3, f4, f5⟩ := xf5raw_d1_fields env time toff dTowFrac i n raw
  cases hf : findSat raw.obs.data (xf5raw_sat env raw.buff i) n with
  | none =>
    have hnum : xf5raw_number raw (xf5raw_sat env raw.buff i) n = n := by
      simp [xf5raw_number, hf]
    rw [hnum]
    refine ⟨n, by simp, ?_, ?_, ?_, ?_, ?_, ?_⟩
    · simp only [Function.update_same, f1]
    · intro j hj
      simp only []
      rw [Function.update_noteq (by omega)]
      exact findSat_none _ _ _ hf j hj
    all_goals simp only [Function.update_same, f2, f3, f4, f5]
  | some j =>
    obtain ⟨g1, g2, g3⟩ := findSat_some _ _ _ _ hf
    have hnum : xf5raw_number raw (xf5raw_sat env raw.buff i) n = j := by
      simp [xf5raw_number, hf]
    rw [hnum]
    refine ⟨j, by simpa using g1, ?_, ?_, ?_, ?_, ?_, ?_⟩
    · simp only [Function.update_same, f1]
    · intro j' hj'
      simp only []
      rw [Function.update_noteq (by omega)]
      exact g3 j' hj'
    all_goals simp only [Function.update_same, f2, f3, f4, f5]
/-- A record that is skipped, held back, or applied to another satellite or
another slot leaves a held slot as it is. -/
theorem xf5raw_record_preserve (env : Env) (time : GTime) (toff dTowFrac : Dbl) (i n : Nat)
    (raw : Raw) (s k c : Nat) (l p : Dbl) (d : Flt)
    (hQ : slotHolds raw.obs.data n s k c l p d)
    (hharm : xf5raw_applied env i n raw →
      xf5raw_sat env raw.buff i ≠ s ∨ xf5raw_slot raw.buff i ≠ k) :
    slotHolds (xf5raw_record env time toff dTowFrac i n raw).2.obs.data
      (xf5raw_record env time toff dTowFrac i n raw).1 s k c l p d := by
  obtain ⟨j, hj, hs, hfirst, hc, hl, hp, hd⟩ := hQ
  by_cases hskip : xf5raw_sat env raw.buff i = 0 ∨ xf5raw_range env raw.buff i = true
  · rw [xf5raw_record_skip env time toff dTowFrac i n raw hskip]
    exact ⟨j, hj, hs, hfirst, hc, hl, hp, hd⟩
  · rw [not_or] at hskip
    obtain ⟨h1, h2⟩ := hskip
    have h2' : xf5raw_range env raw.buff i = false := by simpa using h2
    by_cases hkeep : xf5raw_keep env (xf5raw_label env raw.buff i)
        (xf5raw_d0 env raw (xf5raw_sat env raw.buff i) n) (xf5raw_slot raw.buff i)
    · rw [xf5raw_record_keep env time toff dTowFrac i n raw h1 h2' hkeep]
      cases hf : findSat raw.obs.data (xf5raw_sat env raw.buff i) n with
      | none =>
        have hnum : xf5raw_number raw (xf5raw_sat env raw.buff i) n = n := by
          simp [xf5raw_number, hf]
        rw [hnum]
        have hu : ∀ x, x < n → Function.update raw.obs.data n
            (xf5raw_d0 env raw (xf5raw_sat env raw.buff i) n) x = raw.obs.data x :=
          fun x hx => Function.update_noteq (by omega) _ _
        refine ⟨j, hj, ?_, ?_, ?_, ?_, ?_, ?_⟩
        · simp only [hu j hj, hs]
        · intro x hx
          simp only [hu x (by omega)]
          exact hfirst x hx
        all_goals simp only [hu j hj, hc, hl, hp, hd]
      | some j' =>
        have hnum : xf5raw_number raw (xf5raw_sat env raw.buff i) n = j' := by
          simp [xf5raw_number, hf]
        have hd0 : xf5raw_d0 env raw (xf5raw_sat env raw.buff i) n = raw.obs.data j' := by
          simp [xf5raw_d0, hf, hnum]
        rw [hnum, hd0, Function.update_eq_self]
        exact ⟨j, hj, hs, hfirst, hc, hl, hp, hd⟩
    · have happ : xf5raw_applied env i n raw := ⟨h1, h2', hkeep⟩
      rw [xf5raw_record_apply env time toff dTowFrac i n raw happ]
      obtain ⟨f1, _, _, _, _⟩ := xf5raw_d1_fields env time toff dTowFrac i n raw
      have hn' : n ≤ (if (findSat raw.obs.data (xf5raw_sat env raw.buff i) n).isSome = true
          then n else n + 1) := by
        split_ifs <;> omega
      by_cases hsat : xf5raw_sat env raw.buff i = s
      · have hk : k ≠ xf5raw_slot raw.buff i := by
          rcases hharm happ with h | h
          · exact absurd hsat h
          · exact fun e => h e.symm
        have hf : findSat raw.obs.data (xf5raw_sat env raw.buff i) n = some j := by
          rw [hsat]; exact findSat_first _ _ _ _ hj hs hfirst
        have hnum : xf5raw_number raw (xf5raw_sat env raw.buff i) n = j := by
          simp [xf5raw_number, hf]
        have hd0 : xf5raw_d0 env raw (xf5raw_sat env raw.buff i) n = raw.obs.data j := by
          simp [xf5raw_d0, hf, hnum]
        obtain ⟨o1, o2, o3, o4⟩ := xf5raw_d1_other env time toff dTowFrac i n raw k hk
        rw [hd0] at o1 o2 o3 o4
        rw [hnum]
        refine ⟨j, lt_of_lt_of_le hj hn', ?_, ?_, ?_, ?_, ?_, ?_⟩
        · simp only [Function.update_same, f1, hsat]
        · intro x hx
          simp only []
          rw [Function.update_noteq (by omega)]
          exact hfirst x hx
        all_goals simp only [Function.update_same, o1, o2, o3, o4, hc, hl, hp, hd]
      · have hne : xf5raw_number raw (xf5raw_sat env raw.buff i) n ≠ j := by
          intro e
          cases hf : findSat raw.obs.data (xf5raw_sat env raw.buff i) n with
          | none =>
            simp [xf5raw_number, hf] at e
            omega
          | some j' =>
            simp [xf5raw_number, hf] at e
            subst e
            exact hsat ((findSat_some _ _ _ _ hf).2.1.symm.trans hs)
        refine ⟨j, lt_of_lt_of_le hj hn', ?_, ?_, ?_, ?_, ?_, ?_⟩
        · simp only []
          rw [Function.update_noteq (Ne.symm hne)]
          exact hs
        · intro x hx
          simp only []
          by_cases hx' : x = xf5raw_number raw (xf5raw_sat env raw.buff i) n
          · rw [hx', Function.update_same, f1]
            exact hsat
          · rw [Function.update_noteq hx']
            exact hfirst x hx
        all_goals
          simp only []
          rw [Function.update_noteq (Ne.symm hne)]
          assumption
theorem xf5raw_record_count (env : Env) (time : GTime) (toff dTowFrac : Dbl) (i n : Nat)
    (raw : Raw) : (xf5raw_record env time toff dTowFrac i n raw).1 ≤ n + 1 := by
  unfold xf5raw_record
  simp only []
  split_ifs <;> simp

theorem xf5raw_loop_count (env : Env) (time : GTime) (toff dTowFrac : Dbl) (is : List Nat) :
    ∀ (n : Nat) (raw : Raw),
      (xf5raw_loop env time toff dTowFrac is n raw).1 ≤ n + is.length := by
  induction is with
  | nil => intro n raw; simp [xf5raw_loop]
  | cons i rest ih =>
    intro n raw
    unfold xf5raw_loop
    split_ifs
    · have h1 := ih (xf5raw_record env time toff dTowFrac i n raw).1
        (xf5raw_record env time toff dTowFrac i n raw).2
      have h2 := xf5raw_record_count env time toff dTowFrac i n raw
      simp only [List.length_cons]
      omega
    · simp

theorem xf5raw_loop_append (env : Env) (time : GTime) (toff dTowFrac : Dbl) (l1 l2 : List Nat) :
    ∀ (n : Nat) (raw : Raw),
      xf5raw_loop env time toff dTowFrac (l1 ++ l2) n raw =
        xf5raw_loop env time toff dTowFrac l2 (xf5raw_loop env time toff dTowFrac l1 n raw).1
          (xf5raw_loop env time toff dTowFrac l1 n raw).2 := by
  induction l1 with
  | nil => intro n raw; rfl
  | cons i rest ih =>
    intro n raw
    rw [List.cons_append]
    by_cases h : n < env.MAXOBS
    · simp only [xf5raw_loop, if_pos h]
      exact ih _ _
    · simp only [xf5raw_loop, if_neg h]
      cases l2 with
      | nil => rfl
      | cons j l2 => simp only [xf5raw_loop, if_neg h]

/-- The record loop keeps a held slot when every record it visits is harmless to
it: a record of the same satellite and slot that passes the range check
occurs only with a civil code while the slot holds a precise one. -/
theorem xf5raw_loop_preserve (env : Env) (time : GTime) (toff dTowFrac : Dbl) (b : Nat → Nat)
    (s k c : Nat) (l p : Dbl) (d : Flt) (is : List Nat) :
    ∀ (n : Nat) (raw : Raw), raw.buff = b →
      (∀ i ∈ is, xf5raw_sat env b i = s → xf5raw_slot b i = k → xf5raw_range env b i = false →
        (xf5raw_label env b i = env.CODE_L1C ∨ xf5raw_label env b i = env.CODE_L2C) ∧
          (c = env.CODE_L1P ∨ c = env.CODE_L2P)) →
      slotHolds raw.obs.data n s k c l p d →
      slotHolds (xf5raw_loop env time toff dTowFrac is n raw).2.obs.data
        (xf5raw_loop env time toff dTowFrac is n raw).1 s k c l p d := by
  induction is with
  | nil => intro n raw _ _ hQ; exact hQ
  | cons i rest ih =>
    intro n raw hb hall hQ
    unfold xf5raw_loop
    split_ifs
    · apply ih
      · rw [(xf5raw_record_frame env time toff dTowFrac i n raw).2.2.2.1, hb]
      · intro i' hi'
        exact hall i' (List.mem_cons_of_mem _ hi')
      · apply xf5raw_record_preserve env time toff dTowFrac i n raw s k c l p d hQ
        intro happ
        by_contra hcon
        rw [not_or, not_not, not_not] at hcon
        obtain ⟨hs, hk⟩ := hcon
        obtain ⟨_, a2, a3⟩ := happ
        apply a3
        subst hb
        obtain ⟨j, hj, hsj, hfirst, hcj, _⟩ := hQ
        have hf : findSat raw.obs.data (xf5raw_sat env raw.buff i) n = some j := by
          rw [hs]; exact findSat_first _ _ _ _ hj hsj hfirst
        have hd0 : xf5raw_d0 env raw (xf5raw_sat env raw.buff i) n = raw.obs.data j := by
          simp [xf5raw_d0, xf5raw_number, hf]
        refine ⟨(hall i (List.mem_cons_self _ _) hs hk a2).1, ?_⟩
        rw [hd0, hk, hcj]
        exact (hall i (List.mem_cons_self _ _) hs hk a2).2
    · exact hQ

theorem range_split (n a : Nat) (h : a < n) :
    ∃ l2 : List Nat, List.range n = List.range a ++ a :: l2 ∧ ∀ i ∈ l2, a < i ∧ i < n := by
  induction n with
  | zero => omega
  | succ n ih =>
    by_cases ha : a = n
    · subst ha
      exact ⟨[], by simp [List.range_succ], by simp⟩
    · obtain ⟨l2, h1, h2⟩ := ih (by omega)
      refine ⟨l2 ++ [n], by rw [List.range_succ, h1]; simp, ?_⟩
      intro i hi
      rcases List.mem_append.mp hi with hi | hi
      · have := h2 i hi; omega
      · simp at hi; omega
/-- The loop collects at most one observation a record, so a record whose index
is below MAXOBS is always reached. -/
theorem xf5raw_collected_le (env : Env) (raw : Raw) (a : Nat) :
    xf5raw_collected env raw a ≤ a := by
  have h : xf5raw_collected env raw a ≤ 0 + (List.range a).length :=
    xf5raw_loop_count env (xf5raw_time env raw) (xf5raw_toff env raw)
      (xf5raw_dTowFrac env raw) (List.range a) 0 { raw with obs := { raw.obs with n := 0 } }
  simpa using h
/-- C7 (amended): precise code wins over civil code.  Let decode_xf5raw accept a
frame in which records `a` and `b` are the only records of their satellite and
frequency slot that pass the satellite and range checks, `a` with a precise
code (L1P or L2P) and `b` with a civil code (L1C or L2C), in either order, and
let the record loop come to the precise record `a`: the records before it have
left the observation count below MAXOBS (the count goes up by one for each new
satellite, so the index of the record does not matter).  Then the satellite has
an observation in the decoded set, and its slot holds the precise code and the
phase, pseudorange and Doppler of record `a`.  The code constants of rtklib.h
are assumed to keep precise and civil codes apart. -/
theorem decode_xf5raw_precise_wins (env : Env) (raw : Raw) (a b : Nat)
    (hcodes : env.CODE_L1P ≠ env.CODE_L1C ∧ env.CODE_L1P ≠ env.CODE_L2C ∧
      env.CODE_L2P ≠ env.CODE_L1C ∧ env.CODE_L2P ≠ env.CODE_L2C)
    (hacc : (decode_xf5raw env raw).1 = 1)
    (ha : (a : Int) < Int.tdiv (raw.len - 31) 30) (_hb : (b : Int) < Int.tdiv (raw.len - 31) 30)
    (hreach : xf5raw_collected env raw a < env.MAXOBS)
    (hsa : xf5raw_sat env raw.buff a ≠ 0) (hra : xf5raw_range env raw.buff a = false)
    (_hsb : xf5raw_sat env raw.buff b = xf5raw_sat env raw.buff a)
    (_hrb : xf5raw_range env raw.buff b = false)
    (_hkb : xf5raw_slot raw.buff b = xf5raw_slot raw.buff a)
    (hpa : xf5raw_label env raw.buff a = env.CODE_L1P ∨ xf5raw_label env raw.buff a = env.CODE_L2P)
    (hcb : xf5raw_label env raw.buff b = env.CODE_L1C ∨ xf5raw_label env raw.buff b = env.CODE_L2C)
    (honly : ∀ i : Nat, (i : Int) < Int.tdiv (raw.len - 31) 30 →
      xf5raw_sat env raw.buff i = xf5raw_sat env raw.buff a →
      xf5raw_slot raw.buff i = xf5raw_slot raw.buff a →
      xf5raw_range env raw.buff i = false → i = a ∨ i = b) :
    slotHolds (decode_xf5raw env raw).2.obs.data (decode_xf5raw env raw).2.obs.n
      (xf5raw_sat env raw.buff a) (xf5raw_slot raw.buff a) (xf5raw_label env raw.buff a)
      (xf5raw_Lval env raw.buff (xf5raw_toff env raw) a)
      (xf5raw_Pval env raw.buff (xf5raw_toff env raw) (xf5raw_dTowFrac env raw) a)
      (xf5raw_Dval env raw.buff a) := by
  rw [decode_xf5raw_accept env raw hacc]
  simp only []
  have han : a < (Int.tdiv (raw.len - 31) 30).toNat := by omega
  obtain ⟨l2, hsplit, hl2⟩ := range_split _ a han
  rw [hsplit, xf5raw_loop_append]
  -- the state when the loop reaches record `a`
  generalize hst : xf5raw_loop env (xf5raw_time env raw) (xf5raw_toff env raw)
    (xf5raw_dTowFrac env raw) (List.range a) 0
    { raw with obs := { raw.obs with n := 0 } } = st
  have hbuf : st.2.buff = raw.buff := by
    rw [← hst]
    exact (xf5raw_loop_frame env _ _ _ _ _ _).2.2.2.1
  have hcnt : st.1 < env.MAXOBS := by
    rw [← hst]
    exact hreach
  have hnotciv : ¬ (xf5raw_label env raw.buff a = env.CODE_L1C ∨
      xf5raw_label env raw.buff a = env.CODE_L2C) := by
    obtain ⟨c1, c2, c3, c4⟩ := hcodes
    rcases hpa with h | h <;> rw [h] <;> simp [c1, c2, c3, c4]
  have happ : xf5raw_applied env a st.1 st.2 := by
    refine ⟨by rw [hbuf]; exact hsa, by rw [hbuf]; exact hra, ?_⟩
    rw [hbuf]
    exact fun hk => hnotciv hk.1
  have hest := xf5raw_record_establish env (xf5raw_time env raw) (xf5raw_toff env raw)
    (xf5raw_dTowFrac env raw) a st.1 st.2 happ
  rw [hbuf] at hest
  unfold xf5raw_loop
  rw [if_pos hcnt]
  apply xf5raw_loop_preserve env _ _ _ raw.buff _ _ _ _ _ _ l2 _ _ _ _ hest
  · rw [(xf5raw_record_frame env _ _ _ _ _ _).2.2.2.1, hbuf]
  · intro i hi hs hk hr
    have hlt := hl2 i hi
    rcases honly i (by omega) hs hk hr with h | h
    · omega
    · rw [h]; exact ⟨hcb, hpa⟩
/-- Witness of C7 at the sample environment: in `frameCP` the civil record comes
first and the precise record second, in `framePC` the other way round; both
decode to the precise code in slot 0 of satellite 33 (GLONASS PRN 1).  In the
repeating frame the civil and the precise record are records 64 and 65, beyond
MAXOBS = 64 in index, after 64 records of one other satellite: the loop has
collected two observations when it comes to record 65, and the precise code
wins there too. -/
theorem decode_xf5raw_precise_wins_witness :
    slotHolds (decode_xf5raw Sample.env Sample.rawCP).2.obs.data
        (decode_xf5raw Sample.env Sample.rawCP).2.obs.n
        (xf5raw_sat Sample.env Sample.rawCP.buff 1) (xf5raw_slot Sample.rawCP.buff 1)
        (xf5raw_label Sample.env Sample.rawCP.buff 1)
        (xf5raw_Lval Sample.env Sample.rawCP.buff (xf5raw_toff Sample.env Sample.rawCP) 1)
        (xf5raw_Pval Sample.env Sample.rawCP.buff (xf5raw_toff Sample.env Sample.rawCP)
          (xf5raw_dTowFrac Sample.env Sample.rawCP) 1)
        (xf5raw_Dval Sample.env Sample.rawCP.buff 1) ∧
      slotHolds (decode_xf5raw Sample.env Sample.rawPC).2.obs.data
        (decode_xf5raw Sample.env Sample.rawPC).2.obs.n
        (xf5raw_sat Sample.env Sample.rawPC.buff 0) (xf5raw_slot Sample.rawPC.buff 0)
        (xf5raw_label Sample.env Sample.rawPC.buff 0)
        (xf5raw_Lval Sample.env Sample.rawPC.buff (xf5raw_toff Sample.env Sample.rawPC) 0)
        (xf5raw_Pval Sample.env Sample.rawPC.buff (xf5raw_toff Sample.env Sample.rawPC)
          (xf5raw_dTowFrac Sample.env Sample.rawPC) 0)
        (xf5raw_Dval Sample.env Sample.rawPC.buff 0) ∧
      slotHolds (decode_xf5raw Sample.env Sample.rawRepeat).2.obs.data
        (decode_xf5raw Sample.env Sample.rawRepeat).2.obs.n
        (xf5raw_sat Sample.env Sample.rawRepeat.buff 65) (xf5raw_slot Sample.rawRepeat.buff 65)
        (xf5raw_label Sample.env Sample.rawRepeat.buff 65)
        (xf5raw_Lval Sample.env Sample.rawRepeat.buff (xf5raw_toff Sample.env Sample.rawRepeat) 65)
        (xf5raw_Pval Sample.env Sample.rawRepeat.buff (xf5raw_toff Sample.env Sample.rawRepeat)
          (xf5raw_dTowFrac Sample.env Sample.rawRepeat) 65)
        (xf5raw_Dval Sample.env Sample.rawRepeat.buff 65) ∧
      (xf5raw_sat Sample.env Sample.rawCP.buff 1 = 33 ∧ xf5raw_slot Sample.rawCP.buff 1 = 0 ∧
        xf5raw_label Sample.env Sample.rawCP.buff 1 = Sample.env.CODE_L1P ∧
        xf5raw_label Sample.env Sample.rawCP.buff 0 = Sample.env.CODE_L1C) ∧
      (xf5raw_sat Sample.env Sample.rawRepeat.buff 65 = 33 ∧
        xf5raw_slot Sample.rawRepeat.buff 65 = 0 ∧
        xf5raw_label Sample.env Sample.rawRepeat.buff 65 = Sample.env.CODE_L1P ∧
        xf5raw_label Sample.env Sample.rawRepeat.buff 64 = Sample.env.CODE_L1C ∧
        xf5raw_collected Sample.env Sample.rawRepeat 65 = 2 ∧ Sample.env.MAXOBS = 64) :=
  ⟨decode_xf5raw_precise_wins Sample.env Sample.rawCP 1 0 (by decide) (by decide!) (by decide!)
      (by decide!) (by decide!) (by decide!) (by decide!) (by decide!) (by decide!) (by decide!)
      (by decide!) (by decide!)
      (fun i hi _ _ _ => by
        have h2 : Int.tdiv (Sample.rawCP.len - 31) 30 = 2 := by decide!
        rw [h2] at hi
        omega),
   decode_xf5raw_precise_wins Sample.env Sample.rawPC 0 1 (by decide) (by decide!) (by decide!)
      (by decide!) (by decide!) (by decide!) (by decide!) (by decide!) (by decide!) (by decide!)
      (by decide!) (by decide!)
      (fun i hi _ _ _ => by
        have h2 : Int.tdiv (Sample.rawPC.len - 31) 30 = 2 := by decide!
        rw [h2] at hi
        omega),
   decode_xf5raw_precise_wins Sample.env Sample.rawRepeat 65 64 (by decide) (by decide!)
      (by decide!) (by decide!) (by decide!) (by decide!) (by decide!) (by decide!) (by decide!)
      (by decide!) (by decide!) (by decide!)
      (fun i hi h3 h4 h5 => by
        have h2 : Int.tdiv (Sample.rawRepeat.len - 31) 30 = 66 := by decide!
        rw [h2] at hi
        have hall : ∀ j, j < 66 →
            xf5raw_sat Sample.env Sample.rawRepeat.buff j =
              xf5raw_sat Sample.env Sample.rawRepeat.buff 65 →
            xf5raw_slot Sample.rawRepeat.buff j = xf5raw_slot Sample.rawRepeat.buff 65 →
            xf5raw_range Sample.env Sample.rawRepeat.buff j = false → j = 65 ∨ j = 64 := by
          decide!
        exact hall i (by omega) h3 h4 h5),
   by decide!, by decide!⟩

/-- In the full frame the 64 records before record 64 each bring a new satellite:
the observation set is full when the loop comes to record 64. -/
theorem collected_rawFull : xf5raw_collected Sample.env Sample.rawFull 64 = 64 := by decide!

/-- C7 as stated fails on the code.  In the full frame records 0 and 64 are the
only records of satellite 33 (GLONASS PRN 1) in slot 0 that pass the satellite
and range checks, record 0 with the civil code L1C and record 64 with the
precise code L1P, and the frame is accepted.  The 64 records before record 64
fill the observation set (64 observations collected, MAXOBS = 64), so the loop
ends before the precise record: the satellite's slot keeps the civil code. -/
theorem decode_xf5raw_precise_lost :
    (decode_xf5raw Sample.env Sample.rawFull).1 = 1 ∧
    ((64 : Int) < Int.tdiv (Sample.rawFull.len - 31) 30 ∧
      (0 : Int) < Int.tdiv (Sample.rawFull.len - 31) 30) ∧
    (xf5raw_sat Sample.env Sample.rawFull.buff 64 = 33 ∧
      xf5raw_sat Sample.env Sample.rawFull.buff 0 = 33) ∧
    (xf5raw_range Sample.env Sample.rawFull.buff 64 = false ∧
      xf5raw_range Sample.env Sample.rawFull.buff 0 = false) ∧
    (xf5raw_slot Sample.rawFull.buff 64 = 0 ∧ xf5raw_slot Sample.rawFull.buff 0 = 0) ∧
    (xf5raw_label Sample.env Sample.rawFull.buff 64 = Sample.env.CODE_L1P ∧
      xf5raw_label Sample.env Sample.rawFull.buff 0 = Sample.env.CODE_L1C) ∧
    (∀ i, i < 65 → xf5raw_sat Sample.env Sample.rawFull.buff i = 33 →
      xf5raw_slot Sample.rawFull.buff i = 0 →
      xf5raw_range Sample.env Sample.rawFull.buff i = false → i = 0 ∨ i = 64) ∧
    (xf5raw_collected Sample.env Sample.rawFull 64 = 64 ∧ Sample.env.MAXOBS = 64) ∧
    (decode_xf5raw Sample.env Sample.rawFull).2.obs.n = 64 ∧
    ((decode_xf5raw Sample.env Sample.rawFull).2.obs.data 0).sat = 33 ∧
    ((decode_xf5raw Sample.env Sample.rawFull).2.obs.data 0).code 0 = Sample.env.CODE_L1C ∧
    ¬ slotHolds (decode_xf5raw Sample.env Sample.rawFull).2.obs.data
        (decode_xf5raw Sample.env Sample.rawFull).2.obs.n 33 0 Sample.env.CODE_L1P
        (xf5raw_Lval Sample.env Sample.rawFull.buff (xf5raw_toff Sample.env Sample.rawFull) 64)
        (xf5raw_Pval Sample.env Sample.rawFull.buff (xf5raw_toff Sample.env Sample.rawFull)
          (xf5raw_dTowFrac Sample.env Sample.rawFull) 64)
        (xf5raw_Dval Sample.env Sample.rawFull.buff 64) := by
  have hsat : ((decode_xf5raw Sample.env Sample.rawFull).2.obs.data 0).sat = 33 := by decide!
  have hcode : ((decode_xf5raw Sample.env Sample.rawFull).2.obs.data 0).code 0 =
      Sample.env.CODE_L1C := by decide!
  refine ⟨by decide!, by decide!, by decide!, by decide!, by decide!, by decide!, by decide!,
    ⟨collected_rawFull, by decide⟩, by decide!, hsat, hcode, ?_⟩
  rintro ⟨j, _, _, hfirst, hc, _⟩
  have hj : j = 0 := by
    by_contra hne
    exact hfirst 0 (Nat.pos_of_ne_zero hne) hsat
  subst hj
  rw [hcode] at hc
  exact absurd hc (by decide)

/-! ## Theorems: GPS ephemeris gating -/

theorem gpsephem_congr (env : Env) (a b : Raw) (h : sameFrame a b) :
    gpsephem_week env a = gpsephem_week env b ∧
      gpsephem_fields env a = gpsephem_fields env b := by
  obtain ⟨_, _, _, hb, _⟩ := h
  simp only [gpsephem_week, gpsephem_fields, hb, and_self]

/-- C9: GPS ephemeris gating.  decode_gpsephem stores the decoded ephemeris in
`nav.eph[sat-1]`, sets `ephsat` and returns 2 exactly when the week field (as an
unsigned 16-bit number) is below 4096, the receiver epoch is known and either
the option string contains -EPHALL or the decoded issue of data differs from
the stored one; otherwise the state is unchanged and the result is -1 for the
week error and 0 else.  Without -EPHALL, the same frame decoded again after a
successful decode returns 0 and leaves the state, with the stored ephemeris,
unchanged. -/
theorem decode_gpsephem_gating (env : Env) (sat : Int) (raw : Raw) :
    ((gpsephem_week env raw < 4096 ∧ raw.time.time ≠ 0 ∧
        (optEPHALL raw.opt = true ∨
          (gpsephem_fields env raw).iode ≠ (raw.nav.eph (sat - 1)).iode)) →
      decode_gpsephem env sat raw =
        (2, { raw with
              nav := { raw.nav with eph := Function.update raw.nav.eph (sat - 1)
                                      (gpsephem_eph env sat raw) }
              ephsat := sat })) ∧
    (¬ (gpsephem_week env raw < 4096 ∧ raw.time.time ≠ 0 ∧
        (optEPHALL raw.opt = true ∨
          (gpsephem_fields env raw).iode ≠ (raw.nav.eph (sat - 1)).iode)) →
      (decode_gpsephem env sat raw).2 = raw ∧
      (decode_gpsephem env sat raw).1 = (if gpsephem_week env raw ≥ 4096 then -1 else 0)) ∧
    ((decode_gpsephem env sat raw).1 = 2 ↔
      (gpsephem_week env raw < 4096 ∧ raw.time.time ≠ 0 ∧
        (optEPHALL raw.opt = true ∨
          (gpsephem_fields env raw).iode ≠ (raw.nav.eph (sat - 1)).iode))) ∧
    (optEPHALL raw.opt = false → (decode_gpsephem env sat raw).1 = 2 →
      decode_gpsephem env sat (decode_gpsephem env sat raw).2 =
        (0, (decode_gpsephem env sat raw).2)) := by
  have hpos : (gpsephem_week env raw < 4096 ∧ raw.time.time ≠ 0 ∧
        (optEPHALL raw.opt = true ∨
          (gpsephem_fields env raw).iode ≠ (raw.nav.eph (sat - 1)).iode)) →
      decode_gpsephem env sat raw =
        (2, { raw with
              nav := { raw.nav with eph := Function.update raw.nav.eph (sat - 1)
                                      (gpsephem_eph env sat raw) }
              ephsat := sat }) := by
    rintro ⟨h1, h2, h3⟩
    have h1' : ¬ (gpsephem_week env raw ≥ 4096) := by omega
    have h3' : ¬ (¬ optEPHALL raw.opt = true ∧
        (gpsephem_fields env raw).iode = (raw.nav.eph (sat - 1)).iode) := by
      rintro ⟨g1, g2⟩
      rcases h3 with h | h
      · exact g1 h
      · exact h g2
    unfold decode_gpsephem
    rw [if_neg h1', if_neg h2, if_neg h3']
  have hneg : ¬ (gpsephem_week env raw < 4096 ∧ raw.time.time ≠ 0 ∧
        (optEPHALL raw.opt = true ∨
          (gpsephem_fields env raw).iode ≠ (raw.nav.eph (sat - 1)).iode)) →
      (decode_gpsephem env sat raw).2 = raw ∧
      (decode_gpsephem env sat raw).1 = (if gpsephem_week env raw ≥ 4096 then -1 else 0) := by
    intro h
    unfold decode_gpsephem
    by_cases h1 : gpsephem_week env raw ≥ 4096
    · simp only [if_pos h1, and_self]
    · by_cases h2 : raw.time.time = 0
      · simp only [if_neg h1, if_pos h2, and_self]
      · have h3 : ¬ optEPHALL raw.opt = true ∧
            (gpsephem_fields env raw).iode = (raw.nav.eph (sat - 1)).iode := by
          constructor
          · intro g
            exact h ⟨by omega, h2, Or.inl g⟩
          · by_contra g
            exact h ⟨by omega, h2, Or.inr g⟩
        simp only [if_neg h1, if_neg h2, if_pos h3, and_self]
  refine ⟨hpos, hneg, ?_, ?_⟩
  · constructor
    · intro h
      by_contra hc
      have := (hneg hc).2
      rw [h] at this
      by_cases hw : gpsephem_week env raw ≥ 4096 <;> simp [hw] at this
    · intro h
      rw [hpos h]
  · intro hopt h2
    by_cases hc : (gpsephem_week env raw < 4096 ∧ raw.time.time ≠ 0 ∧
        (optEPHALL raw.opt = true ∨
          (gpsephem_fields env raw).iode ≠ (raw.nav.eph (sat - 1)).iode))
    · obtain ⟨c1, c2, _⟩ := hc
      have hf := decode_gpsephem_frame env sat raw
      obtain ⟨e1, e2⟩ := gpsephem_congr env _ raw hf
      have hcopy := hpos ⟨c1, c2, ‹_›⟩
      have h1' : ¬ (gpsephem_week env (decode_gpsephem env sat raw).2 ≥ 4096) := by
        rw [e1]; omega
      have htime : (decode_gpsephem env sat raw).2.time = raw.time := by rw [hcopy]
      have hoptE : (decode_gpsephem env sat raw).2.opt = raw.opt := hf.2.2.2.2
      have hiode : (gpsephem_fields env (decode_gpsephem env sat raw).2).iode =
          ((decode_gpsephem env sat raw).2.nav.eph (sat - 1)).iode := by
        rw [e2, hcopy]
        simp only [Function.update_same, gpsephem_eph]
      have h2' : ¬ ((decode_gpsephem env sat raw).2.time.time = 0) := by rw [htime]; exact c2
      have h3' : ¬ optEPHALL (decode_gpsephem env sat raw).2.opt = true ∧
          (gpsephem_fields env (decode_gpsephem env sat raw).2).iode =
            ((decode_gpsephem env sat raw).2.nav.eph (sat - 1)).iode := by
        refine ⟨?_, hiode⟩
        rw [hoptE, hopt]
        simp
      generalize decode_gpsephem env sat raw = r at *
      unfold decode_gpsephem
      rw [if_neg h1', if_neg h2', if_pos h3']
    · have := (hneg hc).2
      rw [h2] at this
      by_cases hw : gpsephem_week env raw ≥ 4096 <;> simp [hw] at this

/-- Witness of C9 at the sample environment: the ephemeris frame of `rawEph`
(issue of data 77, stored issue of data 0, epoch known, no -EPHALL) is decoded
through decode_xf7eph with result 2 and stored for satellite 5; decoded again
it gives 0 and the state stays as it is. -/
theorem decode_gpsephem_gating_witness :
    (decode_xf7eph Sample.env Sample.rawEph).1 = 2 ∧
    (decode_gpsephem Sample.env 5 Sample.rawEph).1 = 2 ∧
    ((decode_gpsephem Sample.env 5 Sample.rawEph).2.nav.eph 4).iode = 77 ∧
    (Sample.rawEph.nav.eph 4).iode = 0 ∧
    decode_gpsephem Sample.env 5 (decode_gpsephem Sample.env 5 Sample.rawEph).2 =
      (0, (decode_gpsephem Sample.env 5 Sample.rawEph).2) :=
  ⟨by decide!, by decide!, by decide!, by decide!,
   (decode_gpsephem_gating Sample.env 5 Sample.rawEph).2.2.2 (by decide!) (by decide!)⟩
/-! ## Theorems: PVT status bits -/

/-- What the code does with the status byte: as C parses `status&(1<<k)!=0`, each
of the five flags is bit 0 of the status byte, whatever `k`. -/
theorem decode_x88pvt_flags (env : Env) (raw : Raw) (hw : I2 env raw.buff (2 + 38) < 4096) :
    (decode_x88pvt env raw).1 = 4 ∧
    (decode_x88pvt env raw).2.pvt.prev = U1 raw.buff (2 + 68) % 2 ∧
    (decode_x88pvt env raw).2.pvt.sol2d = U1 raw.buff (2 + 68) % 2 ∧
    (decode_x88pvt env raw).2.pvt.diff_used = U1 raw.buff (2 + 68) % 2 ∧
    (decode_x88pvt env raw).2.pvt.raim = U1 raw.buff (2 + 68) % 2 ∧
    (decode_x88pvt env raw).2.pvt.diff_flag = U1 raw.buff (2 + 68) % 2 := by
  have hw' : ¬ (I2 env raw.buff (2 + 38) ≥ 4096) := by omega
  have h1 : ∀ k : Nat, k < 8 → ((if (1 <<< k) ≠ 0 then 1 else 0) : Nat) = 1 := by decide
  unfold decode_x88pvt
  rw [if_neg hw']
  refine ⟨rfl, ?_, ?_, ?_, ?_, ?_⟩
  · exact (congrArg _ (h1 7 (by decide))).trans (Nat.and_one_is_mod _)
  · exact (congrArg _ (h1 6 (by decide))).trans (Nat.and_one_is_mod _)
  · exact (congrArg _ (h1 4 (by decide))).trans (Nat.and_one_is_mod _)
  · exact (congrArg _ (h1 3 (by decide))).trans (Nat.and_one_is_mod _)
  · exact (congrArg _ (h1 2 (by decide))).trans (Nat.and_one_is_mod _)

/-- C10, the code at the failing inputs: with status byte 0x80 (bit 7 set, every
other bit clear) a PVT frame with a valid week is decoded with `pvt.prev` 0; with
status byte 0x01 (bits 7, 6, 4, 3 and 2 clear) all five flags are 1. -/
theorem decode_x88pvt_status_bits_wrong :
    ((decode_x88pvt Sample.env (Sample.rawPvt 0x80)).1 = 4 ∧
      (decode_x88pvt Sample.env (Sample.rawPvt 0x80)).2.pvt.prev = 0 ∧
      Nat.testBit 0x80 7 = true) ∧
    ((decode_x88pvt Sample.env (Sample.rawPvt 0x01)).1 = 4 ∧
      (decode_x88pvt Sample.env (Sample.rawPvt 0x01)).2.pvt.prev = 1 ∧
      (decode_x88pvt Sample.env (Sample.rawPvt 0x01)).2.pvt.sol2d = 1 ∧
      (decode_x88pvt Sample.env (Sample.rawPvt 0x01)).2.pvt.diff_used = 1 ∧
      (decode_x88pvt Sample.env (Sample.rawPvt 0x01)).2.pvt.raim = 1 ∧
      (decode_x88pvt Sample.env (Sample.rawPvt 0x01)).2.pvt.diff_flag = 1 ∧
      Nat.testBit 0x01 7 = false ∧ Nat.testBit 0x01 6 = false ∧ Nat.testBit 0x01 4 = false ∧
      Nat.testBit 0x01 3 = false ∧ Nat.testBit 0x01 2 = false) := by
  decide!

/-! ## Theorems: extended-float converter -/

theorem shl_and_ne_zero_iff (w j : Nat) : (1 <<< j) &&& w ≠ 0 ↔ w / 2 ^ j % 2 = 1 := by
  rw [Nat.one_shiftLeft, Nat.and_comm, Nat.and_two_pow, Nat.testBit_to_div_mod]
  by_cases h : w / 2 ^ j % 2 = 1
  · simp [h]
  · simp [h]

theorem or_two_pow_of_low (q lo k : Nat) (hlo : lo < 2 ^ k) :
    (2 ^ (k + 1) * q + lo) ||| 2 ^ k = 2 ^ (k + 1) * q + lo + 2 ^ k := by
  have h1 : 2 ^ (k + 1) * q + lo = 2 ^ (k + 1) * q ||| lo :=
    Nat.mul_add_lt_is_or (lt_trans hlo (Nat.pow_lt_pow_right (by decide) (Nat.lt_succ_self k))) q
  have h2 : 2 ^ (k + 1) * q + 2 ^ k = 2 ^ (k + 1) * q ||| 2 ^ k :=
    Nat.mul_add_lt_is_or (Nat.pow_lt_pow_right (by decide) (Nat.lt_succ_self k)) q
  have h3 : 2 ^ (k + 1) * q + 2 ^ k = 2 ^ k * (2 * q + 1) := by ring
  have h4 : 2 ^ k * (2 * q + 1) + lo = 2 ^ k * (2 * q + 1) ||| lo :=
    Nat.mul_add_lt_is_or hlo _
  calc (2 ^ (k + 1) * q + lo) ||| 2 ^ k
      = (2 ^ (k + 1) * q ||| lo) ||| 2 ^ k := by rw [h1]
    _ = (2 ^ (k + 1) * q ||| 2 ^ k) ||| lo := by
        rw [Nat.or_assoc, Nat.or_comm lo, ← Nat.or_assoc]
    _ = 2 ^ k * (2 * q + 1) ||| lo := by rw [← h2, h3]
    _ = 2 ^ k * (2 * q + 1) + lo := h4.symm
    _ = 2 ^ (k + 1) * q + lo + 2 ^ k := by ring

/-- A bit-copy loop of convert_R10 adds the copied field, shifted to its
destination, when the accumulator has no bit at or below the field's top. -/
theorem copyBits_eq (w src dst : Nat) (n : Nat) :
    ∀ acc : Nat, 2 ^ (dst + n) ∣ acc →
      copyBits w n src dst acc = acc + (w / 2 ^ src % 2 ^ n) * 2 ^ dst := by
  induction n with
  | zero => intro acc _; simp [copyBits, Nat.mod_one]
  | succ n ih =>
    intro acc hdvd
    have hdvd' : 2 ^ (dst + n) ∣ acc :=
      Dvd.dvd.trans (pow_dvd_pow 2 (by omega)) hdvd
    have hstep : copyBits w (n + 1) src dst acc =
        if (1 <<< (src + n)) &&& w ≠ 0 then copyBits w n src dst acc ||| (1 <<< (dst + n))
        else copyBits w n src dst acc := by
      simp only [copyBits, List.range_succ, List.foldl_append, List.foldl_cons, List.foldl_nil]
    rw [hstep, ih acc hdvd', Nat.mod_pow_succ, Nat.div_div_eq_div_mul, ← pow_add]
    obtain ⟨q, hq⟩ := hdvd
    have hlo : (w / 2 ^ src % 2 ^ n) * 2 ^ dst < 2 ^ (dst + n) := by
      rw [pow_add, Nat.mul_comm]
      exact Nat.mul_lt_mul_of_pos_left (Nat.mod_lt _ (by positivity)) (by positivity)
    by_cases hb : w / 2 ^ (src + n) % 2 = 1
    · rw [if_pos ((shl_and_ne_zero_iff w (src + n)).mpr hb), Nat.one_shiftLeft, hq, hb]
      rw [show dst + (n + 1) = dst + n + 1 from rfl, or_two_pow_of_low q _ (dst + n) hlo]
      rw [pow_add 2 dst n]
      ring
    · rw [if_neg (fun h => hb ((shl_and_ne_zero_iff w (src + n)).mp h))]
      have hb0 : w / 2 ^ (src + n) % 2 = 0 := by omega
      rw [hb0]
      simp
/-- C11: extended-float reconstruction on the little-endian path.  With sign
`S` = bit 31 of `part3`, biased exponent `E` = bits 16..30 of `part3` and
64-bit mantissa `M = part1 + part2*2^16 + (part3 mod 2^16)*2^48`, whenever
`15361 <= E <= 17406` the pattern convert_R10 returns is
`S*2^63 + (E-15360)*2^52 + floor((M mod 2^63) / 2^11)`. -/
theorem convert_R10_little_endian (env : Env) (part1 part2 part3 : Nat)
    (hle : env.bigEndian = false)
    (h1 : part1 < 2 ^ 16) (h2 : part2 < 2 ^ 32) (h3 : part3 < 2 ^ 32)
    (hE1 : 15361 ≤ part3 / 2 ^ 16 % 2 ^ 15) (hE2 : part3 / 2 ^ 16 % 2 ^ 15 ≤ 17406) :
    convert_R10 env part1 part2 part3 =
      (part3 / 2 ^ 31) * 2 ^ 63 + (part3 / 2 ^ 16 % 2 ^ 15 - 15360) * 2 ^ 52 +
        (part1 + part2 * 2 ^ 16 + (part3 % 2 ^ 16) * 2 ^ 48) % 2 ^ 63 / 2 ^ 11 := by
  have hsign : (if (1 <<< 31) &&& part3 ≠ 0 then 0 ||| (1 <<< 31) else 0) =
      (part3 / 2 ^ 31) * 2 ^ 31 := by
    by_cases hb : part3 / 2 ^ 31 % 2 = 1
    · rw [if_pos ((shl_and_ne_zero_iff part3 31).mpr hb)]
      have : part3 / 2 ^ 31 = 1 := by omega
      rw [this]; decide
    · rw [if_neg (fun h => hb ((shl_and_ne_zero_iff part3 31).mp h))]
      have : part3 / 2 ^ 31 = 0 := by omega
      rw [this, Nat.zero_mul]
  have d1 : ∀ (a b k : Nat), k ≤ b → 2 ^ k ∣ a * 2 ^ b :=
    fun a b k h => Dvd.dvd.mul_left (pow_dvd_pow 2 h) a
  unfold convert_R10 is_big_endian
  simp only [hle, Bool.false_eq_true, if_false]
  rw [hsign]
  rw [copyBits_eq _ 0 20 11 _ (d1 _ _ _ (by norm_num))]
  rw [copyBits_eq _ 0 5 15 _ (Nat.dvd_add (d1 _ _ _ (by norm_num)) (d1 _ _ _ (by norm_num)))]
  rw [copyBits_eq _ 27 0 5 _ (Nat.dvd_add (Nat.dvd_add (d1 _ _ _ (by norm_num))
    (d1 _ _ _ (by norm_num))) (d1 _ _ _ (by norm_num)))]
  rw [copyBits_eq _ 0 5 27 0 (Nat.dvd_zero _)]
  rw [copyBits_eq _ 11 0 5 _ (by simp only [Nat.zero_add]; exact d1 _ _ _ (le_refl _))]
  simp only [Nat.pow_zero, Nat.div_one, Nat.mul_one, Nat.zero_add]
  have p5 : (2 : Nat) ^ 5 = 32 := rfl
  have p11 : (2 : Nat) ^ 11 = 2048 := rfl
  have p15 : (2 : Nat) ^ 15 = 32768 := rfl
  have p16 : (2 : Nat) ^ 16 = 65536 := rfl
  have p20 : (2 : Nat) ^ 20 = 1048576 := rfl
  have p27 : (2 : Nat) ^ 27 = 134217728 := rfl
  have p31 : (2 : Nat) ^ 31 = 2147483648 := rfl
  have p32 : (2 : Nat) ^ 32 = 4294967296 := rfl
  have p48 : (2 : Nat) ^ 48 = 281474976710656 := by norm_num
  have p52 : (2 : Nat) ^ 52 = 4503599627370496 := by norm_num
  have p63 : (2 : Nat) ^ 63 = 9223372036854775808 := by norm_num
  simp only [p5, p11, p15, p16, p20, p27, p31, p32, p48, p52, p63] at h1 h2 h3 hE1 hE2 ⊢
  have f1 : (part3 / 65536 % 65536 + (65536 - 15360)) % 65536 % 2048 =
      part3 / 65536 % 32768 - 15360 := by omega
  have f2 : (part1 + part2 * 65536 + part3 % 65536 * 281474976710656) % 9223372036854775808 / 2048 =
      part3 % 32768 * 137438953472 + part2 * 32 + part1 / 2048 := by omega
  rw [f1, f2]
  clear f1 f2 hE1 hE2 hsign h3
  generalize part3 / 2147483648 = S
  generalize part3 / 65536 % 32768 - 15360 = X
  generalize part3 % 32768 = m
  have g1 : part2 / 134217728 % 32 = part2 / 134217728 := by omega
  have g2 : part1 / 2048 % 32 = part1 / 2048 := by omega
  have g3 : part2 = 134217728 * (part2 / 134217728) + part2 % 134217728 :=
    (Nat.div_add_mod part2 134217728).symm
  rw [g1, g2]
  generalize part2 / 134217728 = hi at g3 ⊢
  generalize part2 % 134217728 = lo at g3 ⊢
  subst g3
  ring

/-- Witness of C11 at the sample environment (a little-endian host): the encoding
of a negative number with exponent field 0x3FFF and fraction bits in all three
words. -/
theorem convert_R10_little_endian_witness :
    convert_R10 Sample.env 39612 305419896 3221209088 =
      (3221209088 / 2 ^ 31) * 2 ^ 63 + (3221209088 / 2 ^ 16 % 2 ^ 15 - 15360) * 2 ^ 52 +
        (39612 + 305419896 * 2 ^ 16 + (3221209088 % 2 ^ 16) * 2 ^ 48) % 2 ^ 63 / 2 ^ 11 :=
  convert_R10_little_endian Sample.env 39612 305419896 3221209088 rfl
    (by decide) (by decide) (by decide) (by decide) (by decide)

/-- C12: the three-word encoding of zero (all bits clear) is not converted to the
double zero.  On either byte order the exponent field 0 is re-biased to
`0 + (65536 - 15360)`, whose low eleven bits are 1024, so the result is the
pattern `0x4000000000000000`, the double 2.0. -/
theorem convert_R10_zero (env : Env) :
    convert_R10 env 0 0 0 = 0x4000000000000000 ∧ convert_R10 env 0 0 0 ≠ 0 := by
  have h : convert_R10 env 0 0 0 = 0x4000000000000000 := by
    unfold convert_R10 is_big_endian
    cases env.bigEndian
    · decide
    · decide
  rw [h]
  exact ⟨rfl, by decide⟩

/-! ## Theorems: command encoder -/

/-- C13: the `CFG-PVTRATE` branch of gen_nvs writes the rate byte as it is, without
the sync-byte doubling the `CFG-BINR` branch applies.  For the message
"CFG-PVTRATE 16" the payload is `[0xD7, 0x02, 0x10]`; gen_nvs writes the six
bytes `10 D7 02 10 10 03` and returns 6, where the stuffed frame has seven
bytes; fed to input_nvs from the idle state those six bytes complete no frame
(every status is 0 and five bytes stay pending).  The same byte given through
`CFG-BINR` is doubled. -/
theorem gen_nvs_pvtrate_not_stuffed :
    gen_nvs Sample.env "CFG-PVTRATE 16".toList =
      some (6, [0x10, 0xD7, 0x02, 0x10, 0x10, 0x03]) ∧
    [0x10] ++ stuff [0xD7, 0x02, 0x10] ++ [0x10, 0x03] =
      [0x10, 0xD7, 0x02, 0x10, 0x10, 0x10, 0x03] ∧
    (input_nvs_list Sample.env Sample.raw0 [0x10, 0xD7, 0x02, 0x10, 0x10, 0x03]).map
        (fun r => (r.1, r.2.nbyte)) = some ([0, 0, 0, 0, 0, 0], 5) ∧
    gen_nvs Sample.env "CFG-BINR d7 02 10".toList =
      some (7, [0x10, 0xD7, 0x02, 0x10, 0x10, 0x10, 0x03]) ∧
    (input_nvs_list Sample.env Sample.raw0 [0x10, 0xD7, 0x02, 0x10, 0x10, 0x10, 0x03]).map
        (fun r => (r.1.take 6, r.2.nbyte, r.2.len)) = some ([0, 0, 0, 0, 0, 0], 0, 6) := by
  refine ⟨by decide!, by decide!, by decide!, by decide!, by decide!⟩

theorem strtok_sp_token (tok : List Char) (hns : ∀ c ∈ tok, c ≠ ' ') :
    ∀ (rest cur : List Char), strtok_sp (tok ++ rest) cur = strtok_sp rest (tok.reverse ++ cur) := by
  induction tok with
  | nil => intro rest cur; rfl
  | cons c cs ih =>
    intro rest cur
    have hc : c ≠ ' ' := hns c (List.mem_cons_self _ _)
    rw [List.cons_append, strtok_sp, if_neg hc,
      ih (fun d hd => hns d (List.mem_cons_of_mem _ hd)) rest (c :: cur)]
    simp

theorem strtok_sp_rawrate (tok : List Char) (hne : tok ≠ []) (hns : ∀ c ∈ tok, c ≠ ' ') :
    strtok_sp ("CFG-RAWRATE ".toList ++ tok) [] = ["CFG-RAWRATE".toList, tok] := by
  have e : "CFG-RAWRATE ".toList = "CFG-RAWRATE".toList ++ [' '] := by decide
  have hA : ∀ c ∈ "CFG-RAWRATE".toList, c ≠ ' ' := by decide
  rw [e, List.append_assoc, strtok_sp_token _ hA, List.singleton_append, strtok_sp]
  have h1 : ("CFG-RAWRATE".toList.reverse ++ ([] : List Char)) ≠ [] := by decide
  rw [if_pos rfl, if_neg h1, List.append_nil, List.reverse_reverse]
  have h2 := strtok_sp_token tok hns [] []
  rw [List.append_nil, List.append_nil] at h2
  rw [h2, strtok_sp, if_neg (by simpa using hne), List.reverse_reverse]

/-- What gen_nvs writes for `CFG-RAWRATE` followed by one argument token that
atoi reads as `r`. -/
theorem gen_nvs_token_rawrate (env : Env) (tok : List Char) (r : Int) (hne : tok ≠ [])
    (hns : ∀ c ∈ tok, c ≠ ' ') (hlen : tok.length < 1000) (hr : atoi tok = some r) :
    gen_nvs env ("CFG-RAWRATE ".toList ++ tok) =
      some (5, [0x10, 0xF4, gen_nvs_ui100Ms r, 0x10, 0x03]) := by
  have hl : ¬ ("CFG-RAWRATE ".toList ++ tok).length ≥ 1024 := by
    have : "CFG-RAWRATE ".toList.length = 12 := by decide
    rw [List.length_append, this]; omega
  have hp : ¬ "CFG-RAWRATE".toList = "CFG-PVTRATE".toList := by decide
  unfold gen_nvs
  rw [if_neg hl, strtok_sp_rawrate tok hne hns]
  simp only [List.take, List.length_cons, List.length_nil, hp, if_false, if_true,
    List.getD_cons_succ, List.getD_cons_zero, hr, Option.map_some']
  simp [gen_nvs_finish, NVSSYNC, ID_XF4RATERAW]
theorem digitChar_facts (d : Nat) (h : d < 10) :
    (Nat.digitChar d).isDigit = true ∧ (Nat.digitChar d).toNat - 48 = d ∧
    isspace (Nat.digitChar d) = false ∧ Nat.digitChar d ≠ '-' ∧ Nat.digitChar d ≠ '+' ∧
    Nat.digitChar d ≠ ' ' := by
  interval_cases d <;> decide

theorem atoi_digits_map (L : List Nat) (hL : ∀ d ∈ L, d < 10) :
    ∀ acc : Nat, atoi_digits (L.map Nat.digitChar) acc = L.foldl (fun a d => a * 10 + d) acc := by
  induction L with
  | nil => intro acc; rfl
  | cons d ds ih =>
    intro acc
    obtain ⟨h1, h2, -⟩ := digitChar_facts d (hL d (List.mem_cons_self _ _))
    rw [List.map_cons, atoi_digits, if_pos h1, h2,
      ih (fun x hx => hL x (List.mem_cons_of_mem _ hx)), List.foldl_cons]

theorem decimalNat_mem (n : Nat) (c : Char) (hc : c ∈ decimalNat n) :
    ∃ d, d < 10 ∧ c = Nat.digitChar d := by
  unfold decimalNat at hc
  by_cases h0 : n = 0
  · rw [if_pos h0] at hc
    exact ⟨0, by decide, by simpa using hc⟩
  · rw [if_neg h0] at hc
    simp only [List.mem_reverse, List.mem_map] at hc
    obtain ⟨d, hd, rfl⟩ := hc
    exact ⟨d, Nat.digits_lt_base (by decide) hd, rfl⟩

theorem decimalNat_ne_nil (n : Nat) : decimalNat n ≠ [] := by
  unfold decimalNat
  by_cases h0 : n = 0
  · rw [if_pos h0]; simp
  · rw [if_neg h0]
    simpa using Nat.digits_ne_nil_iff_ne_zero.mpr h0

theorem atoi_digits_decimalNat (n : Nat) : atoi_digits (decimalNat n) 0 = n := by
  unfold decimalNat
  by_cases h0 : n = 0
  · rw [if_pos h0, h0]; decide
  · rw [if_neg h0, ← List.map_reverse,
      atoi_digits_map _ (fun d hd => Nat.digits_lt_base (by decide) (List.mem_reverse.mp hd)),
      List.foldl_reverse]
    have e := Nat.ofDigits_eq_foldr (10 : Nat) (Nat.digits 10 n)
    rw [Nat.ofDigits_digits] at e
    have f : (fun (x y : Nat) => y * 10 + x) = (fun (x y : Nat) => ((x : Nat) : Nat) + 10 * y) := by
      funext x y; show y * 10 + x = x + 10 * y; omega
    rw [f]
    exact e.symm

theorem decimalNat_length (n : Nat) (h : n ≤ 2147483648) : (decimalNat n).length ≤ 10 := by
  unfold decimalNat
  by_cases h0 : n = 0
  · rw [if_pos h0]; decide
  · rw [if_neg h0, List.length_reverse, List.length_map]
    have h1 := Nat.base_pow_length_digits_le 10 n (by decide) h0
    by_contra hc
    have h2 : 10 ^ 11 ≤ 10 ^ (Nat.digits 10 n).length :=
      Nat.pow_le_pow_right (by decide) (by omega)
    have h3 : (10 : Nat) ^ 11 = 100000000000 := by norm_num
    omega

theorem atoi_value_decimalNat (n : Nat) : atoi_value (decimalNat n) = (n : Int) := by
  have hv := atoi_digits_decimalNat n
  obtain ⟨c, cs, hs⟩ := List.exists_cons_of_ne_nil (decimalNat_ne_nil n)
  obtain ⟨d, hd, hcd⟩ := decimalNat_mem n c (by rw [hs]; exact List.mem_cons_self _ _)
  obtain ⟨-, -, f3, f4, f5, -⟩ := digitChar_facts d hd
  rw [hs] at hv ⊢
  subst hcd
  unfold atoi_value
  rw [List.dropWhile_cons_of_neg (by simp [f3])]
  split
  · rename_i heq; exact absurd (List.cons.inj heq).1 f4
  · rename_i heq; exact absurd (List.cons.inj heq).1 f5
  · rw [hv]

theorem atoi_decimal (r : Int) (h1 : -2147483648 ≤ r) (h2 : r ≤ 2147483647) :
    atoi (decimal r) = some r := by
  have hv : atoi_value (decimal r) = r := by
    unfold decimal
    by_cases hneg : r < 0
    · rw [if_pos hneg]
      have e : atoi_value ('-' :: decimalNat r.natAbs) = -(atoi_digits (decimalNat r.natAbs) 0 : Int) := by
        unfold atoi_value
        rw [List.dropWhile_cons_of_neg (by decide)]
        rfl
      rw [e, atoi_digits_decimalNat]
      omega
    · rw [if_neg hneg, atoi_value_decimalNat]
      omega
  unfold atoi
  rw [hv, if_pos ⟨h1, h2⟩]

theorem decimal_token (r : Int) (h1 : -2147483648 ≤ r) (h2 : r ≤ 2147483647) :
    decimal r ≠ [] ∧ (∀ c ∈ decimal r, c ≠ ' ') ∧ (decimal r).length < 1000 := by
  have hn : ∀ c ∈ decimalNat r.natAbs, c ≠ ' ' := by
    intro c hc
    obtain ⟨d, hd, rfl⟩ := decimalNat_mem _ c hc
    exact (digitChar_facts d hd).2.2.2.2.2
  have hl := decimalNat_length r.natAbs (by omega)
  unfold decimal
  by_cases hneg : r < 0
  · rw [if_pos hneg]
    refine ⟨by simp, ?_, by simp only [List.length_cons]; omega⟩
    intro c hc
    rcases List.mem_cons.mp hc with rfl | hc
    · decide
    · exact hn c hc
  · rw [if_neg hneg]
    exact ⟨decimalNat_ne_nil _, hn, by omega⟩

/-- C14, amended: for every integer `r` of the range of `int`, from -2147483648
to 2147483647, gen_nvs on the message "CFG-RAWRATE r", with `r` written as a
decimal numeral, writes exactly the five bytes `0x10, 0xF4, c, 0x10, 0x03` and
returns 5, where `c` is 5 for `r = 2`, 2 for `r = 5`, 1 for `r = 10` and 10 for
every other `r` of that range.  Outside the range atoi has no defined value. -/
theorem gen_nvs_rawrate (env : Env) (r : Int) (h1 : -2147483648 ≤ r) (h2 : r ≤ 2147483647) :
    gen_nvs env ("CFG-RAWRATE ".toList ++ decimal r) =
      some (5, [0x10, 0xF4,
        if r = 2 then 5 else if r = 5 then 2 else if r = 10 then 1 else 10, 0x10, 0x03]) := by
  obtain ⟨hne, hns, hlen⟩ := decimal_token r h1 h2
  exact gen_nvs_token_rawrate env (decimal r) r hne hns hlen (atoi_decimal r h1 h2)

/-- Witness of C14 at the sample environment and the rate 5. -/
theorem gen_nvs_rawrate_witness :
    gen_nvs Sample.env ("CFG-RAWRATE ".toList ++ decimal 5) =
      some (5, [0x10, 0xF4,
        if (5 : Int) = 2 then 5 else if (5 : Int) = 5 then 2 else if (5 : Int) = 10 then 1 else 10,
        0x10, 0x03]) :=
  gen_nvs_rawrate Sample.env 5 (by decide) (by decide)

/-- What gen_nvs does for `CFG-RAWRATE` followed by one argument token whose
value does not fit `int`: the behaviour is undefined. -/
theorem gen_nvs_token_undefined (env : Env) (tok : List Char) (hne : tok ≠ [])
    (hns : ∀ c ∈ tok, c ≠ ' ') (hr : atoi tok = none) :
    gen_nvs env ("CFG-RAWRATE ".toList ++ tok) = none := by
  have hp : ¬ "CFG-RAWRATE".toList = "CFG-PVTRATE".toList := by decide
  unfold gen_nvs
  by_cases hl : ("CFG-RAWRATE ".toList ++ tok).length ≥ 1024
  · rw [if_pos hl]
  · rw [if_neg hl, strtok_sp_rawrate tok hne hns]
    simp only [List.take, List.length_cons, List.length_nil, hp, if_false, if_true,
      List.getD_cons_succ, List.getD_cons_zero, hr, Option.map_none']
    simp

theorem atoi_value_decimal (r : Int) : atoi_value (decimal r) = r := by
  unfold decimal
  by_cases hneg : r < 0
  · rw [if_pos hneg]
    have e : atoi_value ('-' :: decimalNat r.natAbs) = -(atoi_digits (decimalNat r.natAbs) 0 : Int) := by
      unfold atoi_value
      rw [List.dropWhile_cons_of_neg (by decide)]
      rfl
    rw [e, atoi_digits_decimalNat]
    omega
  · rw [if_neg hneg, atoi_value_decimalNat]
    omega

/-- Outside the range of `int` the message "CFG-RAWRATE r" has no defined
result, so the range of `int` is where gen_nvs encodes the rate. -/
theorem rawrate_outside_int (env : Env) (r : Int) (h : r < -2147483648 ∨ 2147483647 < r) :
    gen_nvs env ("CFG-RAWRATE ".toList ++ decimal r) = none := by
  have hn : ∀ c ∈ decimalNat r.natAbs, c ≠ ' ' := by
    intro c hc
    obtain ⟨d, hd, rfl⟩ := decimalNat_mem _ c hc
    exact (digitChar_facts d hd).2.2.2.2.2
  have hne : decimal r ≠ [] := by
    unfold decimal
    by_cases hneg : r < 0
    · rw [if_pos hneg]; simp
    · rw [if_neg hneg]; exact decimalNat_ne_nil _
  have hns : ∀ c ∈ decimal r, c ≠ ' ' := by
    unfold decimal
    by_cases hneg : r < 0
    · rw [if_pos hneg]
      intro c hc
      rcases List.mem_cons.mp hc with rfl | hc
      · decide
      · exact hn c hc
    · rw [if_neg hneg]; exact hn
  apply gen_nvs_token_undefined env (decimal r) hne hns
  unfold atoi
  rw [atoi_value_decimal, if_neg (by omega)]

/-- Counterexample to C14 as stated: 4294967298 is an integer other than 2, 5
and 10, and on "CFG-RAWRATE 4294967298" gen_nvs has no defined result, because
the argument of atoi does not fit `int`; it does not write the five bytes with
the code 10. -/
theorem gen_nvs_beyond_int :
    decimal 4294967298 = "4294967298".toList ∧
    atoi "4294967298".toList = none ∧
    gen_nvs Sample.env ("CFG-RAWRATE ".toList ++ decimal 4294967298) = none ∧
    gen_nvs Sample.env ("CFG-RAWRATE ".toList ++ decimal 4294967298) ≠
      some (5, [0x10, 0xF4,
        if (4294967298 : Int) = 2 then 5 else if (4294967298 : Int) = 5 then 2
          else if (4294967298 : Int) = 10 then 1 else 10, 0x10, 0x03]) := by
  have e : decimal 4294967298 = "4294967298".toList := by
    unfold decimal decimalNat
    norm_num
    decide
  have g : gen_nvs Sample.env ("CFG-RAWRATE ".toList ++ decimal 4294967298) = none :=
    rawrate_outside_int Sample.env 4294967298 (by omega)
  refine ⟨e, by decide!, g, ?_⟩
  rw [g]
  exact fun h => Option.noConfusion h

/-! ## Theorems: time-tag adjustment option -/

theorem strstr_prefix (needle : List Char) :
    ∀ (hay q : List Char), strstr hay needle = some q → needle.isPrefixOf q = true := by
  intro hay
  induction hay with
  | nil =>
    intro q h
    unfold strstr at h
    by_cases he : needle.isEmpty = true
    · rw [if_pos he] at h
      cases h
      cases needle with
      | nil => rfl
      | cons a as => simp at he
    · rw [if_neg he] at h; cases h
  | cons c cs ih =>
    intro q h
    unfold strstr at h
    by_cases hp : needle.isPrefixOf (c :: cs) = true
    · rw [if_pos hp] at h
      cases h
      exact hp
    · rw [if_neg hp] at h
      exact ih q h

/-- C15: the option scan of decode_xf5raw looks for the lower-case text "-tadj"
and then matches the upper-case format "-TADJ=%lf" at that place; the two never
agree, so `tadj` keeps its initial value 0 for every option string, and no
documented token `-TADJ=tint` has any effect.  At the sample environment the
format alone does convert "-TADJ=1" to the double 1.0. -/
theorem xf5raw_tadj_ignored :
    (∀ (env : Env) (opt : List Char), xf5raw_tadj env opt = 0) ∧
    sscanf_TADJ Sample.env "-TADJ=1".toList 0 = 0x3FF0000000000000 ∧
    xf5raw_tadj Sample.env "-TADJ=1".toList = 0 := by
  have key : ∀ (env : Env) (opt : List Char), xf5raw_tadj env opt = 0 := by
    intro env opt
    unfold xf5raw_tadj
    cases h : strstr opt "-tadj".toList with
    | none => rfl
    | some q =>
      have hp := strstr_prefix _ opt q h
      have e1 : "-tadj".toList = ['-', 't', 'a', 'd', 'j'] := by decide
      have e2 : "-TADJ=".toList = ['-', 'T', 'A', 'D', 'J', '='] := by decide
      have hq : "-TADJ=".toList.isPrefixOf q = false := by
        rw [e1] at hp
        rw [e2]
        match q, hp with
        | [], hp => exact absurd hp (by decide)
        | [_], hp => simp [List.isPrefixOf] at hp
        | a :: b :: t, hp =>
          simp only [List.isPrefixOf, Bool.and_eq_true, beq_iff_eq] at hp
          obtain ⟨rfl, rfl, -⟩ := hp
          rfl
      show sscanf_TADJ env q 0 = 0
      unfold sscanf_TADJ
      rw [hq]
      rfl
  exact ⟨key, by decide!, key _ _⟩

/-! ## Theorems: accuracy index -/

theorem uraindex_loop_spec (env : Env) (v : Dbl) :
    ∀ (k i : Nat), i ≤ 15 → 15 ≤ i + k →
      i ≤ uraindex_loop env v k i ∧ uraindex_loop env v k i ≤ 15 ∧
      (uraindex_loop env v k i < 15 →
        env.fle v ((ura_eph env).getD (uraindex_loop env v k i) 0) = true) ∧
      (∀ j, i ≤ j → j < uraindex_loop env v k i →
        env.fle v ((ura_eph env).getD j 0) = false) := by
  intro k
  induction k with
  | zero =>
    intro i h1 h2
    have hi : i = 15 := by omega
    subst hi
    have e : uraindex_loop env v 0 15 = 15 := rfl
    rw [e]
    exact ⟨le_refl _, le_refl _, fun h => absurd h (by decide), fun j h3 h4 => absurd h4 (by omega)⟩
  | succ k ih =>
    intro i h1 h2
    unfold uraindex_loop
    by_cases hi : i < 15
    · rw [if_pos hi]
      by_cases hf : env.fle v ((ura_eph env).getD i 0) = true
      · rw [if_pos hf]
        exact ⟨le_refl _, h1, fun _ => hf, fun j h3 h4 => absurd h4 (by omega)⟩
      · rw [if_neg hf]
        obtain ⟨a, b, c, d⟩ := ih (i + 1) (by omega) (by omega)
        refine ⟨by omega, b, c, fun j h3 h4 => ?_⟩
        by_cases hj : j = i
        · subst hj; simpa using hf
        · exact d j (by omega) h4
    · rw [if_neg hi]
      exact ⟨le_refl _, h1, fun h => absurd h hi, fun j h3 h4 => absurd h4 (by omega)⟩

/-- C16: uraindex returns the least index `i` in 0..14 whose threshold
`ura_eph[i]` is at least the value (in the order of the doubles), and 15 when
there is none; so the result is in 0..15, and it is monotonically
non-decreasing in the value as the order of the doubles is transitive. -/
theorem uraindex_least (env : Env)
    (htrans : ∀ a b c : Dbl, env.fle a b = true → env.fle b c = true → env.fle a c = true)
    (v : Dbl) :
    uraindex env v ≤ 15 ∧
    (uraindex env v < 15 → env.fle v ((ura_eph env).getD (uraindex env v) 0) = true) ∧
    (∀ j, j < uraindex env v → env.fle v ((ura_eph env).getD j 0) = false) ∧
    (uraindex env v = 15 ↔ ∀ j, j < 15 → env.fle v ((ura_eph env).getD j 0) = false) ∧
    (∀ w : Dbl, env.fle v w = true → uraindex env v ≤ uraindex env w) := by
  have spec : ∀ x : Dbl, uraindex env x ≤ 15 ∧
      (uraindex env x < 15 → env.fle x ((ura_eph env).getD (uraindex env x) 0) = true) ∧
      (∀ j, j < uraindex env x → env.fle x ((ura_eph env).getD j 0) = false) := by
    intro x
    obtain ⟨-, b, c, d⟩ := uraindex_loop_spec env x 15 0 (by decide) (by decide)
    exact ⟨b, c, fun j hj => d j (Nat.zero_le _) hj⟩
  obtain ⟨a, b, c⟩ := spec v
  refine ⟨a, b, c, ⟨fun h j hj => c j (by omega), fun h => ?_⟩, fun w hw => ?_⟩
  · by_contra hne
    have hlt : uraindex env v < 15 := by omega
    have := h _ hlt
    rw [b hlt] at this
    cases this
  · obtain ⟨a2, b2, -⟩ := spec w
    by_contra hgt
    have hlt : uraindex env w < uraindex env v := by omega
    have h1 := htrans _ _ _ hw (b2 (by omega))
    rw [c _ hlt] at h1
    cases h1

theorem sample_fle_trans (a b c : Nat) (h1 : Sample.fle a b = true) (h2 : Sample.fle b c = true) :
    Sample.fle a c = true := by
  unfold Sample.fle at h1 h2 ⊢
  simp only [Bool.and_eq_true, Bool.not_eq_true', decide_eq_true_eq] at h1 h2 ⊢
  exact ⟨⟨h1.1.1, h2.1.2⟩, le_trans h1.2 h2.2⟩

/-- Witness of C16 at the sample environment and the value 5.0, whose index is 3
(threshold 6.85). -/
theorem uraindex_least_witness :
    uraindex Sample.env 0x4014000000000000 = 3 ∧
    uraindex Sample.env 0x4014000000000000 ≤ 15 ∧
    (uraindex Sample.env 0x4014000000000000 < 15 →
      Sample.env.fle 0x4014000000000000
        ((ura_eph Sample.env).getD (uraindex Sample.env 0x4014000000000000) 0) = true) ∧
    (∀ j, j < uraindex Sample.env 0x4014000000000000 →
      Sample.env.fle 0x4014000000000000 ((ura_eph Sample.env).getD j 0) = false) ∧
    (uraindex Sample.env 0x4014000000000000 = 15 ↔
      ∀ j, j < 15 → Sample.env.fle 0x4014000000000000 ((ura_eph Sample.env).getD j 0) = false) ∧
    (∀ w : Dbl, Sample.env.fle 0x4014000000000000 w = true →
      uraindex Sample.env 0x4014000000000000 ≤ uraindex Sample.env w) :=
  ⟨by decide!, uraindex_least Sample.env sample_fle_trans 0x4014000000000000⟩

/-! ## Theorems: week checks -/

theorem U2_lt (env : Env) (buff : Nat → Nat) (p : Nat) : U2 env buff p < 65536 := by
  have h0 : U1 buff (p + 0) < 256 := Nat.mod_lt _ (by decide)
  have h1 : U1 buff (p + 1) < 256 := Nat.mod_lt _ (by decide)
  unfold U2
  simp only [memcpyU]
  cases env.bigEndian
  · simp only [Bool.false_eq_true, if_false]; omega
  · simp only [if_true]; omega

/-- The week check of decode_x88pvt compares a `short`: it rejects exactly the
field values 4096..32767. -/
theorem decode_x88pvt_week_check (env : Env) (raw : Raw) :
    ((decode_x88pvt env raw).1 = -1 ↔
      4096 ≤ U2 env raw.buff (2 + 38) ∧ U2 env raw.buff (2 + 38) < 32768) ∧
    ((decode_x88pvt env raw).1 ≠ -1 → (decode_x88pvt env raw).1 = 4) := by
  have hb := U2_lt env raw.buff (2 + 38)
  by_cases hw : I2 env raw.buff (2 + 38) ≥ 4096
  · have e : (decode_x88pvt env raw).1 = -1 := by
      simp only [decode_x88pvt, if_pos hw]
    rw [e]
    refine ⟨⟨fun _ => ?_, fun _ => rfl⟩, fun h => absurd rfl h⟩
    unfold I2 at hw
    by_cases hs : 32768 ≤ U2 env raw.buff (2 + 38)
    · rw [if_pos hs] at hw; omega
    · rw [if_neg hs] at hw; omega
  · have e : (decode_x88pvt env raw).1 = 4 := by
      simp only [decode_x88pvt, if_neg hw]
    rw [e]
    refine ⟨⟨fun h => absurd h (by decide), fun h => ?_⟩, fun _ => rfl⟩
    exfalso
    apply hw
    unfold I2
    rw [if_neg (by omega)]
    omega

/-- The week check of decode_xf5raw compares the unsigned field. -/
theorem decode_xf5raw_week_error (env : Env) (raw : Raw) (h : 4096 ≤ U2 env raw.buff (2 + 8)) :
    decode_xf5raw env raw = (-1, raw) := by
  have hw : xf5raw_week env raw ≥ 4096 := by
    unfold xf5raw_week
    exact_mod_cast h
  simp only [decode_xf5raw, if_pos hw]

/-- The week check of decode_gpsephem compares an `unsigned short`. -/
theorem decode_gpsephem_week_error (env : Env) (sat : Int) (raw : Raw)
    (h : 4096 ≤ U2 env raw.buff (2 + 136)) : decode_gpsephem env sat raw = (-1, raw) := by
  have hb := U2_lt env raw.buff (2 + 136)
  have hw : gpsephem_week env raw ≥ 4096 := by
    unfold gpsephem_week I2
    rw [show ∀ x : Int, Int.emod x 65536 = x % 65536 from fun _ => rfl]
    by_cases hs : 32768 ≤ U2 env raw.buff (2 + 136)
    · rw [if_pos hs]; omega
    · rw [if_neg hs]; omega
  simp only [decode_gpsephem, if_pos hw]

/-- C17: the week check of decode_x88pvt is not the one of the other decoders.
decode_x88pvt holds the field in a `short`, so a field value `w >= 32768` is
negative there and passes `week>=4096` (status 4), while decode_xf5raw and
decode_gpsephem, which hold it unsigned, reject the same value with -1. -/
theorem week_check_pvt_differs (env : Env) (rawP rawX rawE : Raw) (sat : Int) (w : Nat)
    (hw : 32768 ≤ w) (hP : U2 env rawP.buff (2 + 38) = w) (hX : U2 env rawX.buff (2 + 8) = w)
    (hE : U2 env rawE.buff (2 + 136) = w) :
    (decode_x88pvt env rawP).1 = 4 ∧ (decode_xf5raw env rawX).1 = -1 ∧
    (decode_gpsephem env sat rawE).1 = -1 := by
  obtain ⟨h1, h2⟩ := decode_x88pvt_week_check env rawP
  refine ⟨h2 (fun h => ?_), ?_, ?_⟩
  · have := (h1.mp h).2
    omega
  · rw [decode_xf5raw_week_error env rawX (by omega)]
  · rw [decode_gpsephem_week_error env sat rawE (by omega)]

/-- Witness of C17 at the sample environment: the week field 0xFFFF in a PVT
frame, a raw-measurement frame and a GPS ephemeris frame. -/
theorem week_check_pvt_differs_witness :
    (decode_x88pvt Sample.env (Sample.rawField 0x88 73 40 0xFF 0xFF)).1 = 4 ∧
    (decode_xf5raw Sample.env (Sample.rawField 0xF5 31 10 0xFF 0xFF)).1 = -1 ∧
    (decode_gpsephem Sample.env 5 (Sample.rawField 0xF7 142 138 0xFF 0xFF)).1 = -1 :=
  week_check_pvt_differs Sample.env (Sample.rawField 0x88 73 40 0xFF 0xFF)
    (Sample.rawField 0xF5 31 10 0xFF 0xFF) (Sample.rawField 0xF7 142 138 0xFF 0xFF) 5 65535
    (by decide) (by decide!) (by decide!) (by decide!)

/-- C18 (as the code has it): a raw-measurement frame whose week field is 4096 or
more is rejected with the error status -1, and the receiver state is left as it
was. -/
theorem decode_xf5raw_week_rejected (env : Env) (raw : Raw) (h : xf5raw_week env raw ≥ 4096) :
    decode_xf5raw env raw = (-1, raw) := by
  simp only [decode_xf5raw, if_pos h]

/-- Witness of C18 at the sample environment: week field 5000. -/
theorem decode_xf5raw_week_rejected_witness :
    decode_xf5raw Sample.env (Sample.rawField 0xF5 31 10 0x88 0x13) =
      (-1, Sample.rawField 0xF5 31 10 0x88 0x13) :=
  decode_xf5raw_week_rejected Sample.env (Sample.rawField 0xF5 31 10 0x88 0x13) (by decide!)

/-- Counterexample to C18 as stated: with the week field 4096 in an otherwise
well-formed frame the status is -1, not the "no data" status 0. -/
theorem decode_xf5raw_week_not_silent :
    xf5raw_week Sample.env (Sample.rawField 0xF5 31 10 0x00 0x10) = 4096 ∧
    (decode_xf5raw Sample.env (Sample.rawField 0xF5 31 10 0x00 0x10)).1 = -1 ∧
    (decode_xf5raw Sample.env (Sample.rawField 0xF5 31 10 0x00 0x10)).1 ≠ 0 := by
  refine ⟨by decide!, by decide!, by decide!⟩

/-! ## Theorems: subframe bundles -/

/-- The ten words decode_xe5bit hands to the SBAS message decoder for a block
that starts at block offset 1: they are read at the buffer indices 10..49. -/
theorem decode_xe5bit_sbas_first (env : Env) (raw : Raw) (hb : U1 raw.buff 2 = 1)
    (ht : U1 raw.buff 4 = 4) (hl : 11 ≤ raw.len) :
    decode_xe5bit env raw =
      (if (env.sbsdecodemsg raw.time ((U1 raw.buff 5 : Int) + 120)
            (fun i => if i = 7 then U4 env raw.buff (10 + 4 * i) >>> 6
                      else if i < 10 then U4 env raw.buff (10 + 4 * i) else 0)
            raw.sbsmsg).1 ≠ 0 then 3 else 0,
       { raw with
         sbsmsg := (env.sbsdecodemsg raw.time ((U1 raw.buff 5 : Int) + 120)
            (fun i => if i = 7 then U4 env raw.buff (10 + 4 * i) >>> 6
                      else if i < 10 then U4 env raw.buff (10 + 4 * i) else 0)
            raw.sbsmsg).2 }) := by
  have h16 : ¬ U1 raw.buff 2 ≥ 16 := by omega
  have hlen : ¬ raw.len < (((1 : Nat) + 10 : Nat) : Int) := by
    have : (((1 : Nat) + 10 : Nat) : Int) = 11 := by norm_num
    omega
  have ht2 : U1 raw.buff (2 + 1 + 1) = 4 := ht
  unfold decode_xe5bit
  simp only [h16, if_false, hb]
  unfold xe5bit_loop
  simp only [hlen, if_false, ht2]
  have a1 : (4 : Nat) ≠ 1 := by decide
  have a2 : (4 : Nat) ≠ 2 := by decide
  simp only [a1, a2, if_false, if_true]
  have hp : 2 + (1 + 2) = 5 := rfl
  have hq : ∀ i : Nat, 2 + (1 + 7 + 4 * i) = 10 + 4 * i := fun i => by omega
  simp only [hp, hq]
  rw [if_neg (by decide)]

/-- C19: a truncated SBAS block is not an error for decode_xe5bit.  The only
length test is `len < s + 10`; for a frame with one block tagged SBAS at block
offset 1 and any length from 11 on, so also a length below 50, the ten words
are read at the buffer indices 10..49 and handed to the SBAS message decoder,
and the status is 3 or 0, never -1. -/
theorem decode_xe5bit_truncated_sbas (env : Env) (raw : Raw) (hb : U1 raw.buff 2 = 1)
    (ht : U1 raw.buff 4 = 4) (hl : 11 ≤ raw.len) :
    (decode_xe5bit env raw).1 ≠ -1 ∧
    (decode_xe5bit env raw).2.sbsmsg =
      (env.sbsdecodemsg raw.time ((U1 raw.buff 5 : Int) + 120)
        (fun i => if i = 7 then U4 env raw.buff (10 + 4 * i) >>> 6
                  else if i < 10 then U4 env raw.buff (10 + 4 * i) else 0)
        raw.sbsmsg).2 := by
  rw [decode_xe5bit_sbas_first env raw hb ht hl]
  refine ⟨?_, rfl⟩
  show (if _ then (3 : Int) else 0) ≠ -1
  split <;> decide

/-- Witness of C19 at the sample environment: a frame of length 11 is accepted
with status 3, and the message passed on holds bytes read beyond the frame. -/
theorem decode_xe5bit_truncated_sbas_witness :
    (decode_xe5bit Sample.env Sample.rawSbsShort).1 = 3 ∧
    (decode_xe5bit Sample.env Sample.rawSbsShort).2.sbsmsg.msg 4 = 0xAA ∧
    (decode_xe5bit Sample.env Sample.rawSbsShort).1 ≠ -1 ∧
    (decode_xe5bit Sample.env Sample.rawSbsShort).2.sbsmsg =
      (Sample.env.sbsdecodemsg Sample.rawSbsShort.time
        ((U1 Sample.rawSbsShort.buff 5 : Int) + 120)
        (fun i => if i = 7 then U4 Sample.env Sample.rawSbsShort.buff (10 + 4 * i) >>> 6
                  else if i < 10 then U4 Sample.env Sample.rawSbsShort.buff (10 + 4 * i) else 0)
        Sample.rawSbsShort.sbsmsg).2 :=
  ⟨by decide!, by decide!,
   decode_xe5bit_truncated_sbas Sample.env Sample.rawSbsShort (by decide!) (by decide!)
     (by decide!)⟩

/-! ## Theorems: the decoders do not look at the byte counter and the toggle -/

theorem ite_reframe (n f : Int) (c : Prop) [Decidable c] (x y x' y' : Int × Raw)
    (hx : x' = (x.1, reframe x.2 n f)) (hy : y' = (y.1, reframe y.2 n f)) :
    (if c then x' else y') = ((if c then x else y).1, reframe (if c then x else y).2 n f) := by
  subst hx hy
  split_ifs <;> rfl

theorem xf5raw_record_reframe (env : Env) (time : GTime) (toff dTowFrac : Dbl) (i k : Nat)
    (r : Raw) (n f : Int) :
    xf5raw_record env time toff dTowFrac i k (reframe r n f) =
      ((xf5raw_record env time toff dTowFrac i k r).1,
       reframe (xf5raw_record env time toff dTowFrac i k r).2 n f) := by
  have e1 : (reframe r n f).buff = r.buff := rfl
  have e2 : (reframe r n f).obs = r.obs := rfl
  have e3 : ∀ s m, xf5raw_d0 env (reframe r n f) s m = xf5raw_d0 env r s m := fun _ _ => rfl
  unfold xf5raw_record
  simp only [e1, e2, e3]
  split_ifs <;> rfl

theorem xf5raw_loop_reframe (env : Env) (time : GTime) (toff dTowFrac : Dbl) (is : List Nat)
    (n f : Int) :
    ∀ (k : Nat) (r : Raw),
      xf5raw_loop env time toff dTowFrac is k (reframe r n f) =
        ((xf5raw_loop env time toff dTowFrac is k r).1,
         reframe (xf5raw_loop env time toff dTowFrac is k r).2 n f) := by
  induction is with
  | nil => intro k r; rfl
  | cons i rest ih =>
    intro k r
    unfold xf5raw_loop
    rw [xf5raw_record_reframe]
    split_ifs
    · exact ih _ _
    · rfl

theorem decode_xf5raw_reframe (env : Env) (r : Raw) (n f : Int) :
    decode_xf5raw env (reframe r n f) =
      ((decode_xf5raw env r).1, reframe (decode_xf5raw env r).2 n f) := by
  have e1 : xf5raw_week env (reframe r n f) = xf5raw_week env r := rfl
  have e2 : (reframe r n f).len = r.len := rfl
  have e3 : xf5raw_time env (reframe r n f) = xf5raw_time env r := rfl
  have e4 : (reframe r n f).time = r.time := rfl
  have key := xf5raw_loop_reframe env (xf5raw_time env r) (xf5raw_toff env r)
    (xf5raw_dTowFrac env r) (List.range (Int.tdiv (r.len - 31) 30).toNat) n f 0
    { r with obs := { r.obs with n := 0 } }
  have body : ∀ (c1 c2 c3 c4 : Prop) [Decidable c1] [Decidable c2] [Decidable c3] [Decidable c4]
      (x : Nat × Raw) (y : Nat × Raw) (t : GTime), x = (y.1, reframe y.2 n f) →
      (if c1 then ((-1 : Int), reframe r n f) else if c2 then (-1, reframe r n f)
        else if c3 then (0, reframe r n f) else if c4 then (0, reframe r n f)
        else (1, { x.2 with time := t, obs := { x.2.obs with n := x.1 } })) =
      ((if c1 then ((-1 : Int), r) else if c2 then (-1, r) else if c3 then (0, r)
        else if c4 then (0, r)
        else (1, { y.2 with time := t, obs := { y.2.obs with n := y.1 } })).1,
       reframe (if c1 then ((-1 : Int), r) else if c2 then (-1, r) else if c3 then (0, r)
        else if c4 then (0, r)
        else (1, { y.2 with time := t, obs := { y.2.obs with n := y.1 } })).2 n f) := by
    intro c1 c2 c3 c4 _ _ _ _ x y t hxy
    subst hxy
    split_ifs <;> rfl
  exact body _ _ _ _ _ _ _ key

theorem decode_gpsephem_reframe (env : Env) (sat : Int) (r : Raw) (n f : Int) :
    decode_gpsephem env sat (reframe r n f) =
      ((decode_gpsephem env sat r).1, reframe (decode_gpsephem env sat r).2 n f) := by
  unfold decode_gpsephem
  exact ite_reframe n f _ _ _ _ _ rfl (ite_reframe n f _ _ _ _ _ rfl
    (ite_reframe n f _ _ _ _ _ rfl rfl))

theorem decode_gloephem_reframe (env : Env) (sat : Int) (r : Raw) (n f : Int) :
    decode_gloephem env sat (reframe r n f) =
      ((decode_gloephem env sat r).1, reframe (decode_gloephem env sat r).2 n f) := by
  unfold decode_gloephem
  exact ite_reframe n f _ _ _ _ _
    (ite_reframe n f _ _ _ _ _ rfl (ite_reframe n f _ _ _ _ _ rfl rfl)) rfl

theorem decode_xf7eph_reframe (env : Env) (r : Raw) (n f : Int) :
    decode_xf7eph env (reframe r n f) =
      ((decode_xf7eph env r).1, reframe (decode_xf7eph env r).2 n f) := by
  unfold decode_xf7eph
  exact ite_reframe n f _ _ _ _ _ rfl (ite_reframe n f _ _ _ _ _ rfl
    (ite_reframe n f _ _ _ _ _ (decode_gpsephem_reframe env _ r n f)
      (ite_reframe n f _ _ _ _ _ (decode_gloephem_reframe env _ r n f) rfl)))

theorem xe5bit_loop_reframe (env : Env) (r : Raw) (n f : Int) (k : Nat) :
    ∀ s : Nat, xe5bit_loop env (reframe r n f) k s =
      ((xe5bit_loop env r k s).1, reframe (xe5bit_loop env r k s).2 n f) := by
  induction k with
  | zero => intro s; rfl
  | succ k ih =>
    intro s
    unfold xe5bit_loop
    exact ite_reframe n f _ _ _ _ _ rfl (ite_reframe n f _ _ _ _ _ (ih _)
      (ite_reframe n f _ _ _ _ _ (ih _) (ite_reframe n f _ _ _ _ _ rfl rfl)))

theorem decode_xe5bit_reframe (env : Env) (r : Raw) (n f : Int) :
    decode_xe5bit env (reframe r n f) =
      ((decode_xe5bit env r).1, reframe (decode_xe5bit env r).2 n f) := by
  unfold decode_xe5bit
  exact ite_reframe n f _ _ _ _ _ rfl (xe5bit_loop_reframe env r n f _ _)

theorem decode_x88pvt_reframe (env : Env) (r : Raw) (n f : Int) :
    decode_x88pvt env (reframe r n f) =
      ((decode_x88pvt env r).1, reframe (decode_x88pvt env r).2 n f) := by
  unfold decode_x88pvt
  exact ite_reframe n f _ _ _ _ _ rfl rfl

theorem decode_x40alm_reframe (env : Env) (r : Raw) (n f : Int) :
    decode_x40alm env (reframe r n f) =
      ((decode_x40alm env r).1, reframe (decode_x40alm env r).2 n f) := by
  unfold decode_x40alm
  exact ite_reframe n f _ _ _ _ _ rfl (ite_reframe n f _ _ _ _ _ rfl
    (ite_reframe n f _ _ _ _ _ (ite_reframe n f _ _ _ _ _ rfl rfl) rfl))

theorem decode_nvs_reframe (env : Env) (r : Raw) (n f : Int) :
    decode_nvs env (reframe r n f) =
      ((decode_nvs env r).1, reframe (decode_nvs env r).2 n f) := by
  have body : ∀ (c1 c2 c3 c4 c5 c6 c7 : Prop) [Decidable c1] [Decidable c2] [Decidable c3]
      [Decidable c4] [Decidable c5] [Decidable c6] [Decidable c7] (a : Raw),
      (if c1 then decode_xf5raw env (reframe a n f)
        else if c2 then decode_xf7eph env (reframe a n f)
        else if c3 then decode_xe5bit env (reframe a n f)
        else if c4 then decode_x4aiono env (reframe a n f)
        else if c5 then decode_x4btime env (reframe a n f)
        else if c6 then decode_x88pvt env (reframe a n f)
        else if c7 then decode_x40alm env (reframe a n f)
        else (0, reframe a n f)) =
      ((if c1 then decode_xf5raw env a else if c2 then decode_xf7eph env a
        else if c3 then decode_xe5bit env a else if c4 then decode_x4aiono env a
        else if c5 then decode_x4btime env a else if c6 then decode_x88pvt env a
        else if c7 then decode_x40alm env a else (0, a)).1,
       reframe (if c1 then decode_xf5raw env a else if c2 then decode_xf7eph env a
        else if c3 then decode_xe5bit env a else if c4 then decode_x4aiono env a
        else if c5 then decode_x4btime env a else if c6 then decode_x88pvt env a
        else if c7 then decode_x40alm env a else (0, a)).2 n f) := by
    intro c1 c2 c3 c4 c5 c6 c7 _ _ _ _ _ _ _ a
    split_ifs
    · exact decode_xf5raw_reframe env a n f
    · exact decode_xf7eph_reframe env a n f
    · exact decode_xe5bit_reframe env a n f
    · rfl
    · rfl
    · exact decode_x88pvt_reframe env a n f
    · exact decode_x40alm_reframe env a n f
    · rfl
  exact body (U1 r.buff 1 = ID_XF5RAW) (U1 r.buff 1 = ID_XF7EPH) (U1 r.buff 1 = ID_XE5BIT)
    (U1 r.buff 1 = ID_X4AIONO) (U1 r.buff 1 = ID_X4BTIME) (U1 r.buff 1 = ID_X88PVT)
    (U1 r.buff 1 = ID_X40ALM)
    { r with msgtype := "NVS: type=" ++ fmt_d 2 (U1 r.buff 1) ++ " len=" ++ fmt_d 3 r.len }
/-! ## Theorems: file reader -/

theorem input_nvsf_body_plain (env : Env) (raw : Raw) (b m i : Nat) (fp : List Nat)
    (hn : raw.nbyte = (m : Int)) (hb : b ≠ NVSSYNC) (hM : m < env.MAXRAWLEN) (hi : i < 4096) :
    input_nvsf_body env raw 0 i (b :: fp) =
      input_nvsf_body env { raw with buff := Function.update raw.buff m b, nbyte := (m : Int) + 1 }
        0 (i + 1) fp := by
  have h2 : ((m : Int) < (env.MAXRAWLEN : Int)) := by omega
  have h3 : ¬ (i ≥ 4096) := by omega
  rw [input_nvsf_body]
  simp [storeByte, hn, hb, h2, h3]

theorem input_nvsf_body_sync1 (env : Env) (raw : Raw) (m i : Nat) (fp : List Nat)
    (hn : raw.nbyte = (m : Int)) (hM : m < env.MAXRAWLEN) (hi : i < 4096) :
    input_nvsf_body env raw 0 i (NVSSYNC :: fp) =
      input_nvsf_body env
        { raw with buff := Function.update raw.buff m NVSSYNC, nbyte := (m : Int) + 1 }
        1 (i + 1) fp := by
  have h2 : ((m : Int) < (env.MAXRAWLEN : Int)) := by omega
  have h3 : ¬ (i ≥ 4096) := by omega
  have h4 : Int.tmod 1 2 = 1 := by decide
  have h5 : NVSSYNC ≠ NVSENDMSG := by decide
  rw [input_nvsf_body]
  simp [storeByte, hn, h2, h3, h4, h5]

theorem input_nvsf_body_sync2 (env : Env) (raw : Raw) (i : Nat) (fp : List Nat)
    (hi : i < 4096) :
    input_nvsf_body env raw 1 i (NVSSYNC :: fp) = input_nvsf_body env raw 0 (i + 1) fp := by
  have h3 : ¬ (i ≥ 4096) := by omega
  have h4 : Int.tmod 2 2 = 0 := by decide
  have h5 : NVSSYNC ≠ NVSENDMSG := by decide
  rw [input_nvsf_body]
  simp [h3, h4, h5]

theorem input_nvsf_body_end (env : Env) (raw : Raw) (m i : Nat) (fp : List Nat)
    (hn : raw.nbyte = (m : Int)) (hM : m < env.MAXRAWLEN) :
    input_nvsf_body env raw 1 i (NVSENDMSG :: fp) =
      some ((decode_nvs env { raw with buff := Function.update raw.buff m NVSENDMSG,
                                       nbyte := (m : Int) + 1, len := (m : Int) + 1 }).1,
            (decode_nvs env { raw with buff := Function.update raw.buff m NVSENDMSG,
                                       nbyte := (m : Int) + 1, len := (m : Int) + 1 }).2, fp) := by
  have h2 : ((m : Int) < (env.MAXRAWLEN : Int)) := by omega
  have h3 : ¬ ((m : Int) + 1 > (env.MAXRAWLEN : Int)) := by omega
  have h5 : NVSENDMSG ≠ NVSSYNC := by decide
  rw [input_nvsf_body]
  simp [storeByte, hn, h2, h3, h5]
theorem input_nvsf_body_stuff (env : Env) (p : List Nat) :
    ∀ (raw : Raw) (m i : Nat) (rest : List Nat), raw.nbyte = (m : Int) →
      m + p.length ≤ env.MAXRAWLEN → i + (stuff p).length ≤ 4096 →
      input_nvsf_body env raw 0 i (stuff p ++ rest) =
        input_nvsf_body env
          { raw with buff := storeList raw.buff m p, nbyte := ((m + p.length : Nat) : Int) }
          0 (i + (stuff p).length) rest := by
  induction p with
  | nil =>
    intro raw m i rest hn _ _
    have e : ({ raw with buff := storeList raw.buff m [],
                         nbyte := ((m + ([] : List Nat).length : Nat) : Int) } : Raw) = raw := by
      cases raw
      simp only [storeList, List.length_nil, Nat.add_zero] at hn ⊢
      rw [← hn]
    rw [e]
    rfl
  | cons b bs ih =>
    intro raw m i rest hn hM hi
    simp only [List.length_cons] at hM
    have hc : ((m + 1 + bs.length : Nat) : Int) = ((m + (bs.length + 1) : Nat) : Int) := by
      congr 1; omega
    by_cases hbs : b = NVSSYNC
    · subst hbs
      have hs : stuff (NVSSYNC :: bs) = NVSSYNC :: NVSSYNC :: stuff bs := by
        simp only [stuff, if_true]
      rw [hs] at hi ⊢
      simp only [List.length_cons] at hi
      rw [List.cons_append, List.cons_append,
        input_nvsf_body_sync1 env raw m i _ hn (by omega) (by omega),
        input_nvsf_body_sync2 env _ (i + 1) _ (by omega),
        ih _ (m + 1) (i + 1 + 1) rest (by simp) (by omega) (by omega)]
      simp only [storeList, List.length_cons, hc]
      congr 1
      omega
    · have hs : stuff (b :: bs) = b :: stuff bs := by
        simp only [stuff, if_neg hbs]
      rw [hs] at hi ⊢
      simp only [List.length_cons] at hi
      rw [List.cons_append, input_nvsf_body_plain env raw b m i _ hn hbs (by omega) (by omega),
        ih _ (m + 1) (i + 1) rest (by simp) (by omega) (by omega)]
      simp only [storeList, List.length_cons, hc]
      congr 1
      omega

theorem input_nvs_list_stuff_state (env : Env) (p : List Nat) :
    ∀ (raw : Raw) (m : Nat), raw.nbyte = (m : Int) → 2 ≤ m → raw.flag = 0 →
      m + p.length < env.MAXRAWLEN →
      input_nvs_list env raw (stuff p) =
        some (List.replicate (stuff p).length 0,
          { raw with buff := storeList raw.buff m p, nbyte := ((m + p.length : Nat) : Int),
                     flag := 0 }) := by
  induction p with
  | nil =>
    intro raw m hn _ hf _
    have e : ({ raw with buff := storeList raw.buff m [],
                         nbyte := ((m + ([] : List Nat).length : Nat) : Int), flag := 0 } : Raw) =
        raw := by
      cases raw
      simp only [storeList, List.length_nil, Nat.add_zero] at hn hf ⊢
      rw [← hn, ← hf]
    rw [e]
    rfl
  | cons b bs ih =>
    intro raw m hn hm hf hM
    simp only [List.length_cons] at hM
    have hc : ((m + 1 + bs.length : Nat) : Int) = ((m + (bs.length + 1) : Nat) : Int) := by
      congr 1; omega
    by_cases hbs : b = NVSSYNC
    · subst hbs
      have e1 := input_nvs_acc_sync1 env raw m hn hm hf (by omega)
      have e2 := input_nvs_acc_sync2 env
        { raw with buff := Function.update raw.buff m NVSSYNC,
                   nbyte := (m : Int) + 1, flag := 1 } (m + 1)
        (by simp) (by omega) rfl (by omega)
      have e3 := ih
        { raw with buff := Function.update raw.buff m NVSSYNC,
                   nbyte := (m : Int) + 1, flag := 0 } (m + 1)
        (by simp) (by omega) rfl (by omega)
      simp only [stuff, if_true, input_nvs_list, e1, e2]
      rw [e3]
      simp only [storeList, List.length_cons, hc, List.replicate_succ]
    · have e1 := input_nvs_acc_plain env raw b m hn hm hf hbs (by omega)
      have e3 := ih
        { raw with buff := Function.update raw.buff m b, nbyte := (m : Int) + 1 } (m + 1)
        (by simp) (by omega) hf (by omega)
      simp only [stuff, if_neg hbs, input_nvs_list, e1]
      rw [e3]
      simp only [storeList, List.length_cons, hc, List.replicate_succ]
theorem bufPrefix_storeList (bs : List Nat) :
    ∀ (buff : Nat → Nat) (m : Nat),
      bufPrefix (storeList buff m bs) (m + bs.length) = bufPrefix buff m ++ bs := by
  induction bs with
  | nil => intro buff m; simp [storeList]
  | cons b bs ih =>
    intro buff m
    have e : m + (b :: bs).length = m + 1 + bs.length := by
      simp only [List.length_cons]; omega
    rw [e, storeList, ih, bufPrefix_store, List.append_assoc, List.singleton_append]

/-- Stream mode on a well-formed frame: the status of the last byte and the
final state are those of decode_nvs on the framed state, with the byte counter
reset and the toggle set. -/
theorem input_nvs_frame_state (env : Env) (raw : Raw) (t : Nat) (p : List Nat)
    (h0 : raw.nbyte = 0) (ht1 : t ≠ 0x10) (ht2 : t ≠ 0x03)
    (hlen : p.length + 4 < env.MAXRAWLEN) :
    input_nvs_list env raw ([0x10, t] ++ stuff p ++ [0x10, 0x03]) =
      some (List.replicate ((stuff p).length + 3) 0 ++ [(decode_nvs env (framed raw t p)).1],
        reframe (decode_nvs env (framed raw t p)).2 0 1) := by
  have e1 := input_nvs_idle_sync env raw h0 (by omega)
  have e2 := input_nvs_header env
    { raw with buff := Function.update raw.buff 0 NVSSYNC, nbyte := 1 } t rfl ht1 ht2 (by omega)
  have h1 := input_nvs_list_stuff_state env p
    { raw with buff := Function.update (Function.update raw.buff 0 NVSSYNC) 1 t,
               nbyte := 2, flag := 0 } 2 rfl (le_refl 2) rfl (by omega)
  have hcast : ((2 + p.length : Nat) : Int) = ((p.length + 2 : Nat) : Int) := by
    congr 1; omega
  have e3 := input_nvs_acc_sync1 env
    { raw with buff := storeList (Function.update (Function.update raw.buff 0 NVSSYNC) 1 t) 2 p,
               nbyte := ((2 + p.length : Nat) : Int), flag := 0 } (p.length + 2)
    hcast (by omega) rfl (by omega)
  have e4 := input_nvs_acc_end env
    { raw with
      buff := Function.update
        (storeList (Function.update (Function.update raw.buff 0 NVSSYNC) 1 t) 2 p)
        (p.length + 2) NVSSYNC
      nbyte := ((p.length + 2 : Nat) : Int) + 1, flag := 1 } (p.length + 3)
    (by show ((p.length + 2 : Nat) : Int) + 1 = ((p.length + 3 : Nat) : Int); push_cast; ring)
    (by omega) rfl (by omega)
  have hpre : input_nvs_list env raw ([0x10, t] ++ stuff p) =
      some (0 :: 0 :: List.replicate (stuff p).length 0, _) :=
    input_nvs_list_cons env raw 0x10 _ _ _ e1 (input_nvs_list_cons env _ t _ _ _ e2 h1)
  have hnil : ∀ r : Raw, input_nvs_list env r [] = some ([], r) := fun _ => rfl
  have hd := decode_nvs_reframe env (framed raw t p) 0 1
  rw [input_nvs_list_append env ([0x10, t] ++ stuff p) [0x10, 0x03] raw _ _ hpre,
    input_nvs_list_cons env _ 0x10 [0x03] _ _ e3
      (input_nvs_list_cons env _ 0x03 [] _ _ e4 (hnil _)),
    Option.map_some', replicate_zero_snoc]
  show some (List.replicate ((stuff p).length + 3) 0 ++
      [(decode_nvs env (reframe (framed raw t p) 0 1)).1],
      (decode_nvs env (reframe (framed raw t p) 0 1)).2) = _
  rw [hd]

theorem input_nvsf_start (env : Env) (raw : Raw) (t : Nat) (q : List Nat)
    (ht1 : t ≠ 0x10) (ht2 : t ≠ 0x03) (hM : 1 < env.MAXRAWLEN) :
    input_nvsf env raw (0x10 :: t :: q) =
      input_nvsf_body env
        { raw with buff := Function.update (Function.update raw.buff 0 NVSSYNC) 1 t, nbyte := 2 }
        0 0 q := by
  have hM0 : (0 : Int) < (env.MAXRAWLEN : Int) := by omega
  have hM1 : (1 : Int) < (env.MAXRAWLEN : Int) := by omega
  have hs : NVSSYNC = 0x10 := rfl
  have he : NVSENDMSG = 0x03 := rfl
  unfold input_nvsf
  rw [input_nvsf_sync]
  simp [storeByte, hs, he, ht1, ht2, hM0, hM1]

/-- File mode on a well-formed frame: status and state are those of decode_nvs
on the framed state, with the byte counter at the frame length and the toggle
of the state untouched. -/
theorem input_nvsf_frame_state (env : Env) (raw : Raw) (t : Nat) (p rest : List Nat)
    (ht1 : t ≠ 0x10) (ht2 : t ≠ 0x03) (hlen : p.length + 4 < env.MAXRAWLEN)
    (hwire : (stuff p).length + 4 ≤ 4096) :
    input_nvsf env raw ([0x10, t] ++ stuff p ++ [0x10, 0x03] ++ rest) =
      some ((decode_nvs env (framed raw t p)).1,
        reframe (decode_nvs env (framed raw t p)).2 (((p.length + 3 : Nat) : Int) + 1) raw.flag,
        rest) := by
  have f1 := input_nvsf_body_stuff env p
    { raw with buff := Function.update (Function.update raw.buff 0 NVSSYNC) 1 t, nbyte := 2 }
    2 0 ([0x10, 0x03] ++ rest) rfl (by omega) (by omega)
  have hcast : ((2 + p.length : Nat) : Int) = ((p.length + 2 : Nat) : Int) := by
    congr 1; omega
  have f2 := input_nvsf_body_sync1 env
    { raw with buff := storeList (Function.update (Function.update raw.buff 0 NVSSYNC) 1 t) 2 p,
               nbyte := ((2 + p.length : Nat) : Int) } (p.length + 2) (0 + (stuff p).length)
    (NVSENDMSG :: rest) hcast (by omega) (by omega)
  have f3 := input_nvsf_body_end env
    { raw with
      buff := Function.update
        (storeList (Function.update (Function.update raw.buff 0 NVSSYNC) 1 t) 2 p)
        (p.length + 2) NVSSYNC
      nbyte := ((p.length + 2 : Nat) : Int) + 1 } (p.length + 3) (0 + (stuff p).length + 1) rest
    (by show ((p.length + 2 : Nat) : Int) + 1 = ((p.length + 3 : Nat) : Int); push_cast; ring)
    (by omega)
  have hd := decode_nvs_reframe env (framed raw t p) (((p.length + 3 : Nat) : Int) + 1) raw.flag
  have start : input_nvsf env raw ([0x10, t] ++ stuff p ++ [0x10, 0x03] ++ rest) =
      input_nvsf_body env
        { raw with buff := Function.update (Function.update raw.buff 0 NVSSYNC) 1 t, nbyte := 2 }
        0 0 (stuff p ++ ([0x10, 0x03] ++ rest)) := by
    have hw : [0x10, t] ++ stuff p ++ [0x10, 0x03] ++ rest =
        0x10 :: t :: (stuff p ++ ([0x10, 0x03] ++ rest)) := by simp
    rw [hw]
    exact input_nvsf_start env raw t _ ht1 ht2 (by omega)
  rw [start, f1]
  have hw2 : ([0x10, 0x03] ++ rest : List Nat) = NVSSYNC :: NVSENDMSG :: rest := rfl
  rw [hw2, f2, f3]
  show some ((decode_nvs env (reframe (framed raw t p) (((p.length + 3 : Nat) : Int) + 1)
      raw.flag)).1,
    (decode_nvs env (reframe (framed raw t p) (((p.length + 3 : Nat) : Int) + 1) raw.flag)).2,
    rest) = _
  rw [hd]
theorem stuff_take (p : List Nat) :
    ∀ k, k ≤ (stuff p).length →
      ∃ p' : List Nat, p'.length ≤ p.length ∧ (stuff p').length ≤ k ∧
        ((stuff p).take k = stuff p' ∨ (stuff p).take k = stuff p' ++ [NVSSYNC]) := by
  induction p with
  | nil =>
    intro k _
    exact ⟨[], le_refl _, Nat.zero_le _, Or.inl (by simp [stuff])⟩
  | cons b bs ih =>
    intro k hk
    cases k with
    | zero => exact ⟨[], Nat.zero_le _, Nat.zero_le _, Or.inl (by simp [stuff])⟩
    | succ k =>
      by_cases hbs : b = NVSSYNC
      · subst hbs
        have hs : stuff (NVSSYNC :: bs) = NVSSYNC :: NVSSYNC :: stuff bs := by
          simp only [stuff, if_true]
        rw [hs] at hk ⊢
        simp only [List.length_cons] at hk
        cases k with
        | zero => exact ⟨[], Nat.zero_le _, Nat.zero_le _, Or.inr (by simp [stuff])⟩
        | succ k =>
          obtain ⟨p', h1, h2, h3⟩ := ih k (by omega)
          refine ⟨NVSSYNC :: p', by simp only [List.length_cons]; omega, ?_, ?_⟩
          · simp only [stuff, if_true, List.length_cons]; omega
          · simp only [List.take_succ_cons, stuff, if_true, List.cons_append]
            rcases h3 with h3 | h3
            · exact Or.inl (by rw [h3])
            · exact Or.inr (by rw [h3])
      · have hs : stuff (b :: bs) = b :: stuff bs := by
          simp only [stuff, if_neg hbs]
        rw [hs] at hk ⊢
        simp only [List.length_cons] at hk
        obtain ⟨p', h1, h2, h3⟩ := ih k (by omega)
        refine ⟨b :: p', by simp only [List.length_cons]; omega, ?_, ?_⟩
        · simp only [stuff, if_neg hbs, List.length_cons]; omega
        · simp only [List.take_succ_cons, stuff, if_neg hbs, List.cons_append]
          rcases h3 with h3 | h3
          · exact Or.inl (by rw [h3])
          · exact Or.inr (by rw [h3])

theorem input_nvsf_body_eof (env : Env) (raw : Raw) (m : Nat) (p : List Nat)
    (hn : raw.nbyte = (m : Int)) (hM : m + p.length < env.MAXRAWLEN)
    (hi : (stuff p).length < 4096) :
    (input_nvsf_body env raw 0 0 (stuff p)).map (fun r => r.1) = some (-2) ∧
    (input_nvsf_body env raw 0 0 (stuff p ++ [NVSSYNC])).map (fun r => r.1) = some (-2) := by
  have f0 := input_nvsf_body_stuff env p raw m 0 [] hn (by omega) (by omega)
  have f1 := input_nvsf_body_stuff env p raw m 0 [NVSSYNC] hn (by omega) (by omega)
  have f2 := input_nvsf_body_sync1 env
    { raw with buff := storeList raw.buff m p, nbyte := ((m + p.length : Nat) : Int) }
    (m + p.length) (0 + (stuff p).length) [] rfl (by omega) (by omega)
  rw [List.append_nil] at f0
  rw [f0, f1, f2]
  exact ⟨rfl, rfl⟩

/-- File mode on a file that ends inside a well-formed frame: end of file. -/
theorem input_nvsf_truncated (env : Env) (raw : Raw) (t : Nat) (p : List Nat)
    (ht1 : t ≠ 0x10) (ht2 : t ≠ 0x03) (hlen : p.length + 4 < env.MAXRAWLEN)
    (hwire : (stuff p).length + 4 ≤ 4096) (k : Nat)
    (hk : k < ([0x10, t] ++ stuff p ++ [0x10, 0x03]).length) :
    (input_nvsf env raw (([0x10, t] ++ stuff p ++ [0x10, 0x03]).take k)).map (fun r => r.1) =
      some (-2) := by
  have hw : [0x10, t] ++ stuff p ++ [0x10, 0x03] = 0x10 :: t :: (stuff p ++ [0x10, 0x03]) := by
    simp
  rw [hw] at hk ⊢
  simp only [List.length_cons, List.length_append, List.length_nil] at hk
  have hM0 : (0 : Int) < (env.MAXRAWLEN : Int) := by omega
  match k, hk with
  | 0, _ => rfl
  | 1, _ =>
    have e : List.take 1 (0x10 :: t :: (stuff p ++ [0x10, 0x03])) = [NVSSYNC] := rfl
    rw [e]
    unfold input_nvsf
    rw [input_nvsf_sync]
    simp [storeByte, hM0]
  | j + 2, hk =>
    rw [List.take_succ_cons, List.take_succ_cons,
      input_nvsf_start env raw t _ ht1 ht2 (by omega)]
    by_cases hj : j ≤ (stuff p).length
    · rw [List.take_append_of_le_length hj]
      obtain ⟨p', h1, h2, h3⟩ := stuff_take p j hj
      have h := input_nvsf_body_eof env
        { raw with buff := Function.update (Function.update raw.buff 0 NVSSYNC) 1 t, nbyte := 2 }
        2 p' rfl (by omega) (by omega)
      rcases h3 with h3 | h3
      · rw [h3]; exact h.1
      · rw [h3]; exact h.2
    · have hj2 : j = (stuff p).length + 1 := by omega
      have e : List.take j (stuff p ++ [0x10, 0x03]) = stuff p ++ [NVSSYNC] := by
        rw [hj2, List.take_append_eq_append_take]
        simp [NVSSYNC]
      rw [e]
      exact (input_nvsf_body_eof env
        { raw with buff := Function.update (Function.update raw.buff 0 NVSSYNC) 1 t, nbyte := 2 }
        2 p rfl (by omega) (by omega)).2
/-- C20: file mode frames like stream mode.  For a byte sequence that is one
well-formed stuffed frame (0x10, a type byte other than 0x10 and 0x03, the
payload with every 0x10 doubled, 0x10, 0x03) whose de-stuffed length is below
MAXRAWLEN and whose stuffed length is at most 4096, input_nvsf reading it and
input_nvs fed with it byte by byte, from the same state with no byte pending,
give the same status `st` (input_nvs on the last byte, 0 before), the same
buffer and the same length, the de-stuffed frame is what the buffer holds up
to `len`, and the decoded data agree; and on a file that ends before the
terminator (any proper prefix of the sequence) input_nvsf returns -2. -/
theorem input_nvsf_same_framing (env : Env) (raw : Raw) (t : Nat) (p : List Nat)
    (h0 : raw.nbyte = 0) (ht1 : t ≠ 0x10) (ht2 : t ≠ 0x03)
    (hlen : ([0x10, t] ++ p ++ [0x10, 0x03]).length < env.MAXRAWLEN)
    (hwire : ([0x10, t] ++ stuff p ++ [0x10, 0x03]).length ≤ 4096) :
    (∃ (st : Int) (a b : Raw),
      input_nvs_list env raw ([0x10, t] ++ stuff p ++ [0x10, 0x03]) =
        some (List.replicate ((stuff p).length + 3) 0 ++ [st], a) ∧
      input_nvsf env raw ([0x10, t] ++ stuff p ++ [0x10, 0x03]) = some (st, b, []) ∧
      b.len = a.len ∧ a.len = ((p.length + 4 : Nat) : Int) ∧ b.buff = a.buff ∧
      bufPrefix a.buff (p.length + 4) = [0x10, t] ++ p ++ [0x10, 0x03] ∧ sameData b a) ∧
    (∀ k, k < ([0x10, t] ++ stuff p ++ [0x10, 0x03]).length →
      (input_nvsf env raw (([0x10, t] ++ stuff p ++ [0x10, 0x03]).take k)).map
        (fun r => r.1) = some (-2)) := by
  simp only [List.length_append, List.length_cons, List.length_nil] at hlen hwire
  have hl : p.length + 4 < env.MAXRAWLEN := by omega
  have hw : (stuff p).length + 4 ≤ 4096 := by omega
  have hfr := decode_nvs_frame env (framed raw t p)
  refine ⟨⟨(decode_nvs env (framed raw t p)).1, reframe (decode_nvs env (framed raw t p)).2 0 1,
    reframe (decode_nvs env (framed raw t p)).2 (((p.length + 3 : Nat) : Int) + 1) raw.flag,
    input_nvs_frame_state env raw t p h0 ht1 ht2 hl, ?_, rfl, ?_, rfl, ?_,
    ⟨rfl, rfl, rfl, rfl, rfl, rfl, rfl, rfl, rfl⟩⟩,
    fun k hk => input_nvsf_truncated env raw t p ht1 ht2 hl hw k hk⟩
  · have h := input_nvsf_frame_state env raw t p [] ht1 ht2 hl hw
    rw [List.append_nil] at h
    exact h
  · show (decode_nvs env (framed raw t p)).2.len = _
    rw [hfr.2.1]
    show ((p.length + 3 : Nat) : Int) + 1 = ((p.length + 4 : Nat) : Int)
    push_cast; ring
  · show bufPrefix (decode_nvs env (framed raw t p)).2.buff (p.length + 4) = _
    rw [hfr.2.2.2.1]
    show bufPrefix (Function.update (Function.update
      (storeList (Function.update (Function.update raw.buff 0 NVSSYNC) 1 t) 2 p)
      (p.length + 2) NVSSYNC) (p.length + 3) NVSENDMSG) (p.length + 3 + 1) = _
    rw [bufPrefix_store]
    show bufPrefix (Function.update
      (storeList (Function.update (Function.update raw.buff 0 NVSSYNC) 1 t) 2 p)
      (p.length + 2) NVSSYNC) (p.length + 2 + 1) ++ [NVSENDMSG] = _
    rw [bufPrefix_store, Nat.add_comm p.length 2, bufPrefix_storeList]
    simp [bufPrefix, List.range_succ, NVSSYNC, NVSENDMSG, Function.update]

/-- Witness of C20 at the sample environment: a PVT-typed frame whose payload
holds a sync byte, an end byte and a pair of sync bytes. -/
theorem input_nvsf_same_framing_witness :
    (∃ (st : Int) (a b : Raw),
      input_nvs_list Sample.env Sample.raw0
          ([0x10, 0x88] ++ stuff [0x10, 0x03, 0x10, 0x10, 7] ++ [0x10, 0x03]) =
        some (List.replicate ((stuff [0x10, 0x03, 0x10, 0x10, 7]).length + 3) 0 ++ [st], a) ∧
      input_nvsf Sample.env Sample.raw0
          ([0x10, 0x88] ++ stuff [0x10, 0x03, 0x10, 0x10, 7] ++ [0x10, 0x03]) =
        some (st, b, []) ∧
      b.len = a.len ∧
      a.len = ((([0x10, 0x03, 0x10, 0x10, 7] : List Nat).length + 4 : Nat) : Int) ∧
      b.buff = a.buff ∧
      bufPrefix a.buff (([0x10, 0x03, 0x10, 0x10, 7] : List Nat).length + 4) =
        [0x10, 0x88] ++ [0x10, 0x03, 0x10, 0x10, 7] ++ [0x10, 0x03] ∧ sameData b a) ∧
    (∀ k, k < ([0x10, 0x88] ++ stuff [0x10, 0x03, 0x10, 0x10, 7] ++ [0x10, 0x03]).length →
      (input_nvsf Sample.env Sample.raw0
        (([0x10, 0x88] ++ stuff [0x10, 0x03, 0x10, 0x10, 7] ++ [0x10, 0x03]).take k)).map
        (fun r => r.1) = some (-2)) :=
  input_nvsf_same_framing Sample.env Sample.raw0 0x88 [0x10, 0x03, 0x10, 0x10, 7] rfl
    (by decide) (by decide) (by decide) (by decide)

/-! ## Theorems: length of the ephemeris frame -/

theorem ite_state_map {α : Type} (g : Raw → Raw) (c : Prop) [Decidable c]
    (x y x' y' : α × Raw)
    (hx : x' = (x.1, g x.2)) (hy : y' = (y.1, g y.2)) :
    (if c then x' else y') = ((if c then x else y).1, g (if c then x else y).2) := by
  subst hx hy
  split_ifs <;> rfl

/-- C21: an under-length GPS ephemeris frame is not rejected.  The only length
test of decode_xf7eph is `len < 93`; for a GPS frame of any length from 93 on,
so also below 140, whose satellite resolves, the result is that of
decode_gpsephem, which does not look at the length and reads its fields at the
buffer indices 4..139. -/
theorem decode_xf7eph_short_gps (env : Env) (raw : Raw) (hl : 93 ≤ raw.len)
    (hg : U1 raw.buff 2 = 1)
    (hs : env.satno (if env.SYS_GPS = 1 then env.SYS_GPS else env.SYS_GLO)
      (U1 raw.buff 3 : Int) ≠ 0) :
    decode_xf7eph env raw =
      decode_gpsephem env
        (env.satno (if env.SYS_GPS = 1 then env.SYS_GPS else env.SYS_GLO) (U1 raw.buff 3 : Int) :
          Nat) raw ∧
    ∀ len : Int, decode_gpsephem env
        (env.satno (if env.SYS_GPS = 1 then env.SYS_GPS else env.SYS_GLO) (U1 raw.buff 3 : Int) :
          Nat) { raw with len := len } =
      ((decode_gpsephem env
        (env.satno (if env.SYS_GPS = 1 then env.SYS_GPS else env.SYS_GLO) (U1 raw.buff 3 : Int) :
          Nat) raw).1,
       { (decode_gpsephem env
        (env.satno (if env.SYS_GPS = 1 then env.SYS_GPS else env.SYS_GLO) (U1 raw.buff 3 : Int) :
          Nat) raw).2 with len := len }) := by
  constructor
  · have h93 : ¬ raw.len < 93 := by omega
    unfold decode_xf7eph
    simp only [h93, if_false, hg, if_true, hs]
  · intro len
    unfold decode_gpsephem
    exact ite_state_map (fun r => { r with len := len }) _ _ _ _ _ rfl
      (ite_state_map (fun r => { r with len := len }) _ _ _ _ _ rfl
        (ite_state_map (fun r => { r with len := len }) _ _ _ _ _ rfl rfl))

/-- Witness of C21 at the sample environment: a GPS frame of length 93 is
decoded with status 2 and the ephemeris stored holds the issue of data read at
index 130 and the week read at the indices 138, 139. -/
theorem decode_xf7eph_short_gps_witness :
    (decode_xf7eph Sample.env Sample.rawEphShort).1 = 2 ∧
    ((decode_xf7eph Sample.env Sample.rawEphShort).2.nav.eph 4).iode = 77 ∧
    ((decode_xf7eph Sample.env Sample.rawEphShort).2.nav.eph 4).week = 1800 ∧
    decode_xf7eph Sample.env Sample.rawEphShort =
      decode_gpsephem Sample.env
        (Sample.env.satno
          (if Sample.env.SYS_GPS = 1 then Sample.env.SYS_GPS else Sample.env.SYS_GLO)
          (U1 Sample.rawEphShort.buff 3 : Int) : Nat) Sample.rawEphShort :=
  ⟨by decide!, by decide!, by decide!,
   (decode_xf7eph_short_gps Sample.env Sample.rawEphShort (by decide!) (by decide!)
     (by decide!)).1⟩

/-! ## Theorems: the two byte orders of the extended-float converter -/

/-- C24: the two paths of convert_R10 do not agree on the wire encoding.  For
the ten bytes of 1.0 the little-endian host reads the words 0, 0, 0x3FFF8000
and its path gives the double 1.0; the big-endian host reads 0, 0, 0x0080FF3F
and its path, which takes sign and exponent from the first word, gives the
pattern 0x400000000000101F. -/
theorem convert_R10_paths_disagree :
    (U2 Sample.env Sample.wireOne 0, U4 Sample.env Sample.wireOne 2,
      U4 Sample.env Sample.wireOne 6) = (0, 0, 0x3FFF8000) ∧
    convert_R10 Sample.env (U2 Sample.env Sample.wireOne 0) (U4 Sample.env Sample.wireOne 2)
      (U4 Sample.env Sample.wireOne 6) = 0x3FF0000000000000 ∧
    (U2 Sample.envBE Sample.wireOne 0, U4 Sample.envBE Sample.wireOne 2,
      U4 Sample.envBE Sample.wireOne 6) = (0, 0, 0x0080FF3F) ∧
    convert_R10 Sample.envBE (U2 Sample.envBE Sample.wireOne 0)
      (U4 Sample.envBE Sample.wireOne 2) (U4 Sample.envBE Sample.wireOne 6) =
        0x400000000000101F ∧
    convert_R10 Sample.envBE (U2 Sample.envBE Sample.wireOne 0)
      (U4 Sample.envBE Sample.wireOne 2) (U4 Sample.envBE Sample.wireOne 6) ≠
    convert_R10 Sample.env (U2 Sample.env Sample.wireOne 0) (U4 Sample.env Sample.wireOne 2)
      (U4 Sample.env Sample.wireOne 6) := by
  refine ⟨by decide!, by decide!, by decide!, by decide!, by decide!⟩

/-! ## Theorems: what the stream synchronizer hands to the dispatcher -/

/-- C25: input_nvs hands decode_nvs frames that are not well formed.  From a
state with no byte pending and the toggle clear, the bytes 0x41, 0x10, 0x03 end
in a call of decode_nvs on a buffer of length 3 whose first byte is 0x41 and
whose type byte is the sync byte 0x10: the byte 0x41 is stored in the idle
state, the sync byte that follows is taken as data and sets the toggle, and
the end byte closes the "frame". -/
theorem input_nvs_malformed_frame (env : Env) (raw : Raw) (h0 : raw.nbyte = 0)
    (hf : raw.flag = 0) (hM : 3 < env.MAXRAWLEN) :
    input_nvs_list env raw [0x41, 0x10, 0x03] =
      some ([0, 0,
        (decode_nvs env
          { raw with
            buff := Function.update (Function.update (Function.update raw.buff 0 0x41) 1 0x10)
              2 0x03
            len := 3, nbyte := 0, flag := 1 }).1],
        (decode_nvs env
          { raw with
            buff := Function.update (Function.update (Function.update raw.buff 0 0x41) 1 0x10)
              2 0x03
            len := 3, nbyte := 0, flag := 1 }).2) := by
  have hM0 : (0 : Int) < (env.MAXRAWLEN : Int) := by omega
  have hM1 : (1 : Int) < (env.MAXRAWLEN : Int) := by omega
  have hM2 : (2 : Int) < (env.MAXRAWLEN : Int) := by omega
  have hM3 : ¬ ((1 : Int) = (env.MAXRAWLEN : Int)) := by omega
  have hM4 : ¬ ((2 : Int) = (env.MAXRAWLEN : Int)) := by omega
  have t1 : Int.tmod 1 2 = 1 := by decide
  have e1 : input_nvs env raw 0x41 =
      some (0, { raw with buff := Function.update raw.buff 0 0x41, nbyte := 1 }) := by
    simp [input_nvs, storeByte, h0, hf, hM0, hM3, NVSSYNC, NVSENDMSG]
  have e2 : input_nvs env { raw with buff := Function.update raw.buff 0 0x41, nbyte := 1 } 0x10 =
      some (0, { raw with buff := Function.update (Function.update raw.buff 0 0x41) 1 0x10,
                          nbyte := 2, flag := 1 }) := by
    simp [input_nvs, storeByte, hf, hM1, hM4, t1, NVSSYNC, NVSENDMSG]
  have e3 := input_nvs_acc_end env
    { raw with buff := Function.update (Function.update raw.buff 0 0x41) 1 0x10,
               nbyte := 2, flag := 1 } 2 rfl (le_refl 2) rfl (by omega)
  have hnil : ∀ r : Raw, input_nvs_list env r [] = some ([], r) := fun _ => rfl
  exact input_nvs_list_cons env raw 0x41 _ _ _ e1
    (input_nvs_list_cons env _ 0x10 _ _ _ e2
      (input_nvs_list_cons env _ 0x03 [] _ _ e3 (hnil _)))

/-- Witness of C25 at the sample environment and the initial state: the frame
handed over has length 3, first byte 0x41 and type byte 0x10. -/
theorem input_nvs_malformed_frame_witness :
    (Sample.raw0.nbyte = 0 ∧ Sample.raw0.flag = 0) ∧
    input_nvs_list Sample.env Sample.raw0 [0x41, 0x10, 0x03] =
      some ([0, 0,
        (decode_nvs Sample.env
          { Sample.raw0 with
            buff := Function.update
              (Function.update (Function.update Sample.raw0.buff 0 0x41) 1 0x10) 2 0x03
            len := 3, nbyte := 0, flag := 1 }).1],
        (decode_nvs Sample.env
          { Sample.raw0 with
            buff := Function.update
              (Function.update (Function.update Sample.raw0.buff 0 0x41) 1 0x10) 2 0x03
            len := 3, nbyte := 0, flag := 1 }).2) :=
  ⟨⟨rfl, rfl⟩, input_nvs_malformed_frame Sample.env Sample.raw0 rfl rfl (by decide)⟩

/-! ## Theorems: almanac table index -/

/-- C26: the almanac table index is not always in range.  decode_x40alm takes the
PRN byte as it is; for a GPS almanac frame with PRN byte 0 it returns 6 and
writes the almanac entry at the index -1, and with ENAGLO defined it does
the same to the GLONASS table for a GLONASS frame. -/
theorem decode_x40alm_index_negative (env : Env) (raw : Raw) (hl : 42 ≤ raw.len)
    (hp : U1 raw.buff 3 = 0) :
    (U1 raw.buff 2 = 1 →
      (decode_x40alm env raw).1 = 6 ∧
      ∃ a : Alm, a.sat = 0 ∧ a.svh = (U1 raw.buff 4 : Int) ∧
        (decode_x40alm env raw).2.nav.alm = Function.update raw.nav.alm (-1) a) ∧
    (U1 raw.buff 2 = 2 → env.ENAGLO = true →
      (decode_x40alm env raw).1 = 6 ∧
      ∃ g : GAlm, g.sat = 0 ∧ g.svh = (U1 raw.buff 4 : Int) ∧
        (decode_x40alm env raw).2.nav.galm = Function.update raw.nav.galm (-1) g) := by
  have h42 : ¬ raw.len < 42 := by omega
  have hp1 : U1 raw.buff (2 + 1) = 0 := hp
  have hidx : ((0 : Nat) : Int) - 1 = -1 := by norm_num
  constructor
  · intro hs
    unfold decode_x40alm
    simp only [h42, if_false, hs, if_true, hp1, hidx]
    exact ⟨trivial, _, rfl, rfl, rfl⟩
  · intro hs hg
    have h21 : (2 : Nat) ≠ 1 := by decide
    unfold decode_x40alm
    simp only [h42, if_false, hs, h21, if_true, hg, hp1, hidx]
    exact ⟨trivial, _, rfl, rfl, rfl⟩

/-- Witness of C26 at the sample environment: GPS and GLONASS almanac frames
with PRN byte 0 and health byte 7. -/
theorem decode_x40alm_index_negative_witness :
    ((decode_x40alm Sample.env (Sample.rawAlm 1)).2.nav.alm (-1)).svh = 7 ∧
    ((decode_x40alm Sample.env (Sample.rawAlm 2)).2.nav.galm (-1)).svh = 7 ∧
    (U1 (Sample.rawAlm 1).buff 2 = 1 →
      (decode_x40alm Sample.env (Sample.rawAlm 1)).1 = 6 ∧
      ∃ a : Alm, a.sat = 0 ∧ a.svh = (U1 (Sample.rawAlm 1).buff 4 : Int) ∧
        (decode_x40alm Sample.env (Sample.rawAlm 1)).2.nav.alm =
          Function.update (Sample.rawAlm 1).nav.alm (-1) a) :=
  ⟨by decide!, by decide!,
   (decode_x40alm_index_negative Sample.env (Sample.rawAlm 1) (by decide!) (by decide!)).1⟩

/-! ## Theorems: one observation per satellite -/

theorem obsInv_mono (env : Env) (data : Nat → ObsD) (n : Nat) (w w2 : List (Nat × Nat))
    (h : obsInv env data n w) (hw : ∀ x ∈ w, x ∈ w2) : obsInv env data n w2 :=
  ⟨h.1, fun j k hj hk => (h.2 j k hj hk).imp (hw _) id⟩

theorem xf5raw_d1_rest (env : Env) (time : GTime) (toff dTowFrac : Dbl) (i n : Nat) (raw : Raw)
    (k : Nat) (hk : k ≠ xf5raw_slot raw.buff i)
    (h : slotClear env (xf5raw_d0 env raw (xf5raw_sat env raw.buff i) n) k) :
    slotClear env (xf5raw_d1 env time toff dTowFrac i n raw) k := by
  unfold slotClear at h ⊢
  unfold xf5raw_d1
  simp only [Function.update_noteq hk]
  exact h

theorem obsd_clear_slot (env : Env) (d : ObsD) (k : Nat) (hk : k < env.NFREQ + env.NEXOBS) :
    slotClear env (obsd_clear env d) k := by
  simp [slotClear, obsd_clear, hk]

theorem xf5raw_record_inv (env : Env) (time : GTime) (toff dTowFrac : Dbl) (i n : Nat)
    (raw : Raw) (w : List (Nat × Nat)) (h : obsInv env raw.obs.data n w) :
    obsInv env (xf5raw_record env time toff dTowFrac i n raw).2.obs.data
      (xf5raw_record env time toff dTowFrac i n raw).1
      (w ++ (if xf5raw_applied env i n raw then
          [(xf5raw_sat env raw.buff i, xf5raw_slot raw.buff i)] else [])) := by
  by_cases hskip : xf5raw_sat env raw.buff i = 0 ∨ xf5raw_range env raw.buff i = true
  · have hna : ¬ xf5raw_applied env i n raw := by
      intro ha
      rcases hskip with h0 | h1
      · exact ha.1 h0
      · rw [ha.2.1] at h1; cases h1
    rw [xf5raw_record_skip env time toff dTowFrac i n raw hskip, if_neg hna, List.append_nil]
    exact h
  · have hs : xf5raw_sat env raw.buff i ≠ 0 := fun h0 => hskip (Or.inl h0)
    have hr : xf5raw_range env raw.buff i = false := by
      cases hx : xf5raw_range env raw.buff i
      · rfl
      · exact absurd (Or.inr hx) hskip
    by_cases hkeep : xf5raw_keep env (xf5raw_label env raw.buff i)
        (xf5raw_d0 env raw (xf5raw_sat env raw.buff i) n) (xf5raw_slot raw.buff i)
    · have hna : ¬ xf5raw_applied env i n raw := fun ha => ha.2.2 hkeep
      rw [xf5raw_record_keep env time toff dTowFrac i n raw hs hr hkeep, if_neg hna,
        List.append_nil]
      dsimp only
      cases hf : findSat raw.obs.data (xf5raw_sat env raw.buff i) n with
      | some j0 =>
        have e1 : xf5raw_number raw (xf5raw_sat env raw.buff i) n = j0 := by
          simp only [xf5raw_number, hf, Option.getD_some]
        have e2 : xf5raw_d0 env raw (xf5raw_sat env raw.buff i) n = raw.obs.data j0 := by
          simp only [xf5raw_d0, hf, Option.isSome_some, if_true, e1]
        rw [e1, e2, Function.update_eq_self]
        exact h
      | none =>
        have e1 : xf5raw_number raw (xf5raw_sat env raw.buff i) n = n := by
          simp only [xf5raw_number, hf, Option.getD_none]
        rw [e1]
        refine ⟨fun j j2 hj hj2 => ?_, fun j k hj hk => ?_⟩
        · rw [Function.update_noteq (by omega), Function.update_noteq (by omega)]
          exact h.1 j j2 hj hj2
        · rw [Function.update_noteq (by omega)]
          exact h.2 j k hj hk
    · have ha : xf5raw_applied env i n raw := ⟨hs, hr, hkeep⟩
      rw [xf5raw_record_apply env time toff dTowFrac i n raw ha, if_pos ha]
      have hsat := (xf5raw_d1_fields env time toff dTowFrac i n raw).1
      cases hf : findSat raw.obs.data (xf5raw_sat env raw.buff i) n with
      | some j0 =>
        obtain ⟨hj0, hsj0, -⟩ := findSat_some _ _ _ _ hf
        have e1 : xf5raw_number raw (xf5raw_sat env raw.buff i) n = j0 := by
          simp only [xf5raw_number, hf, Option.getD_some]
        have e2 : xf5raw_d0 env raw (xf5raw_sat env raw.buff i) n = raw.obs.data j0 := by
          simp only [xf5raw_d0, hf, Option.isSome_some, if_true, e1]
        have hsame : ∀ j, (Function.update raw.obs.data j0
            (xf5raw_d1 env time toff dTowFrac i n raw) j).sat = (raw.obs.data j).sat := by
          intro j
          by_cases hj : j = j0
          · subst hj; rw [Function.update_same, hsat, hsj0]
          · rw [Function.update_noteq hj]
        dsimp only
        rw [e1]
        simp only [Option.isSome_some, if_true]
        refine ⟨fun j j2 hj hj2 => ?_, fun j k hj hk => ?_⟩
        · rw [hsame, hsame]
          exact h.1 j j2 hj hj2
        · rw [hsame]
          by_cases hjj : j = j0
          · subst hjj
            rw [Function.update_same]
            by_cases hk2 : k = xf5raw_slot raw.buff i
            · left
              rw [hk2, hsj0]
              exact List.mem_append_right _ (List.mem_singleton_self _)
            · rcases h.2 j k hj hk with hw | hc
              · exact Or.inl (List.mem_append_left _ hw)
              · right
                apply xf5raw_d1_rest env time toff dTowFrac i n raw k hk2
                rw [e2]
                exact hc
          · rw [Function.update_noteq hjj]
            exact (h.2 j k hj hk).imp (fun hw => List.mem_append_left _ hw) id
      | none =>
        have hnone := findSat_none _ _ _ hf
        have e1 : xf5raw_number raw (xf5raw_sat env raw.buff i) n = n := by
          simp only [xf5raw_number, hf, Option.getD_none]
        have e2 : xf5raw_d0 env raw (xf5raw_sat env raw.buff i) n =
            obsd_clear env (raw.obs.data n) := by
          simp only [xf5raw_d0, hf, Option.isSome_none, Bool.false_eq_true, if_false, e1]
        dsimp only
        rw [e1]
        simp only [Option.isSome_none, Bool.false_eq_true, if_false]
        have hval : ∀ j, j < n + 1 → (Function.update raw.obs.data n
            (xf5raw_d1 env time toff dTowFrac i n raw) j).sat = xf5raw_sat env raw.buff i →
            j = n := by
          intro j hj hs2
          by_contra hne
          rw [Function.update_noteq hne] at hs2
          exact hnone j (by omega) hs2
        refine ⟨fun j j2 hj hj2 heq => ?_, fun j k hj hk => ?_⟩
        · by_cases hjn : j = n
          · subst hjn
            rw [Function.update_same, hsat] at heq
            exact (hval j2 hj2 heq.symm).symm
          · by_cases hj2n : j2 = n
            · subst hj2n
              rw [Function.update_same (a := j2), hsat] at heq
              exact absurd (hval j hj heq) hjn
            · rw [Function.update_noteq hjn, Function.update_noteq hj2n] at heq
              exact h.1 j j2 (by omega) (by omega) heq
        · by_cases hjn : j = n
          · subst hjn
            rw [Function.update_same, hsat]
            by_cases hk2 : k = xf5raw_slot raw.buff i
            · left
              rw [hk2]
              exact List.mem_append_right _ (List.mem_singleton_self _)
            · right
              apply xf5raw_d1_rest env time toff dTowFrac i j raw k hk2
              rw [e2]
              exact obsd_clear_slot env _ k hk
          · rw [Function.update_noteq hjn]
            exact (h.2 j k (by omega) hk).imp (fun hw => List.mem_append_left _ hw) id
theorem xf5raw_loop_inv (env : Env) (time : GTime) (toff dTowFrac : Dbl) (is : List Nat) :
    ∀ (n : Nat) (raw : Raw) (w : List (Nat × Nat)), obsInv env raw.obs.data n w →
      obsInv env (xf5raw_loop env time toff dTowFrac is n raw).2.obs.data
        (xf5raw_loop env time toff dTowFrac is n raw).1
        (w ++ xf5raw_written env time toff dTowFrac is n raw) := by
  induction is with
  | nil =>
    intro n raw w h
    simp only [xf5raw_loop, xf5raw_written, List.append_nil]
    exact h
  | cons i rest ih =>
    intro n raw w h
    unfold xf5raw_loop xf5raw_written
    by_cases hn : n < env.MAXOBS
    · rw [if_pos hn, if_pos hn, ← List.append_assoc]
      exact ih _ _ _ (xf5raw_record_inv env time toff dTowFrac i n raw w h)
    · rw [if_neg hn, if_neg hn, List.append_nil]
      exact h

theorem xf5raw_loop_le_maxobs (env : Env) (time : GTime) (toff dTowFrac : Dbl) (is : List Nat) :
    ∀ (n : Nat) (raw : Raw), n ≤ env.MAXOBS →
      (xf5raw_loop env time toff dTowFrac is n raw).1 ≤ env.MAXOBS := by
  induction is with
  | nil => intro n raw h; exact h
  | cons i rest ih =>
    intro n raw h
    unfold xf5raw_loop
    by_cases hn : n < env.MAXOBS
    · rw [if_pos hn]
      have := xf5raw_record_count env time toff dTowFrac i n raw
      exact ih _ _ (by omega)
    · rw [if_neg hn]
      exact h

/-- C22: one observation per satellite per epoch.  For every raw-measurement
frame that decode_xf5raw accepts (status 1) the observation count is at most
the record count and at most MAXOBS, the first `n` observations are for
pairwise distinct satellites, and every slot (below NFREQ+NEXOBS) of each of
them that no applied record of the frame wrote is clear: phase, pseudorange,
Doppler, SNR and LLI zero, code CODE_NONE. -/
theorem decode_xf5raw_one_obs_per_sat (env : Env) (raw : Raw)
    (h : (decode_xf5raw env raw).1 = 1) :
    (decode_xf5raw env raw).2.obs.n ≤ min (Int.tdiv (raw.len - 31) 30).toNat env.MAXOBS ∧
    (∀ j j2, j < (decode_xf5raw env raw).2.obs.n → j2 < (decode_xf5raw env raw).2.obs.n →
      ((decode_xf5raw env raw).2.obs.data j).sat = ((decode_xf5raw env raw).2.obs.data j2).sat →
      j = j2) ∧
    (∀ j k, j < (decode_xf5raw env raw).2.obs.n → k < env.NFREQ + env.NEXOBS →
      (((decode_xf5raw env raw).2.obs.data j).sat, k) ∉ xf5raw_writes env raw →
      slotClear env ((decode_xf5raw env raw).2.obs.data j) k) := by
  have hacc := decode_xf5raw_accept env raw h
  have h0 : obsInv env ({ raw with obs := { raw.obs with n := 0 } } : Raw).obs.data 0 [] :=
    ⟨fun j j2 hj => absurd hj (Nat.not_lt_zero _), fun j k hj => absurd hj (Nat.not_lt_zero _)⟩
  have hinv := xf5raw_loop_inv env (xf5raw_time env raw) (xf5raw_toff env raw)
    (xf5raw_dTowFrac env raw) (List.range (Int.tdiv (raw.len - 31) 30).toNat) 0
    { raw with obs := { raw.obs with n := 0 } } [] h0
  have hc1 := xf5raw_loop_count env (xf5raw_time env raw) (xf5raw_toff env raw)
    (xf5raw_dTowFrac env raw) (List.range (Int.tdiv (raw.len - 31) 30).toNat) 0
    { raw with obs := { raw.obs with n := 0 } }
  have hc2 := xf5raw_loop_le_maxobs env (xf5raw_time env raw) (xf5raw_toff env raw)
    (xf5raw_dTowFrac env raw) (List.range (Int.tdiv (raw.len - 31) 30).toNat) 0
    { raw with obs := { raw.obs with n := 0 } } (Nat.zero_le _)
  rw [List.length_range, Nat.zero_add] at hc1
  rw [List.nil_append] at hinv
  rw [hacc]
  refine ⟨Nat.le_min.mpr ⟨hc1, hc2⟩, hinv.1, fun j k hj hk hw => ?_⟩
  rcases hinv.2 j k hj hk with hin | hcl
  · exact absurd hin hw
  · exact hcl

/-- Witness of C22 at the sample environment: a frame with a precise and a
civil record for one satellite (number 33) in slot 0.  One observation
results, the only pair written is (33, 0), and slot 1 is clear. -/
theorem decode_xf5raw_one_obs_per_sat_witness :
    xf5raw_writes Sample.env Sample.rawPC = [(33, 0)] ∧
    ((decode_xf5raw Sample.env Sample.rawPC).2.obs.data 0).sat = 33 ∧
    ((decode_xf5raw Sample.env Sample.rawPC).2.obs.data 0).L 1 = 0 ∧
    ((decode_xf5raw Sample.env Sample.rawPC).2.obs.data 0).code 1 = Sample.env.CODE_NONE ∧
    ((decode_xf5raw Sample.env Sample.rawPC).2.obs.n ≤
      min (Int.tdiv (Sample.rawPC.len - 31) 30).toNat Sample.env.MAXOBS ∧
    (∀ j j2, j < (decode_xf5raw Sample.env Sample.rawPC).2.obs.n →
      j2 < (decode_xf5raw Sample.env Sample.rawPC).2.obs.n →
      ((decode_xf5raw Sample.env Sample.rawPC).2.obs.data j).sat =
        ((decode_xf5raw Sample.env Sample.rawPC).2.obs.data j2).sat →
      j = j2) ∧
    (∀ j k, j < (decode_xf5raw Sample.env Sample.rawPC).2.obs.n →
      k < Sample.env.NFREQ + Sample.env.NEXOBS →
      (((decode_xf5raw Sample.env Sample.rawPC).2.obs.data j).sat, k) ∉
        xf5raw_writes Sample.env Sample.rawPC →
      slotClear Sample.env ((decode_xf5raw Sample.env Sample.rawPC).2.obs.data j) k)) :=
  ⟨by decide!, by decide!, by decide!, by decide!,
   decode_xf5raw_one_obs_per_sat Sample.env Sample.rawPC (by decide!)⟩

/-! ## Theorems: a record that fails the range check -/

theorem memcpyU_congr (env : Env) (b1 b2 : Nat → Nat) (p1 p2 : Nat) :
    ∀ n : Nat, (∀ k, k < n → b1 (p1 + k) = b2 (p2 + k)) →
      memcpyU env b1 p1 n = memcpyU env b2 p2 n := by
  intro n
  induction n with
  | zero => intro _; rfl
  | succ n ih =>
    intro h
    have e := ih (fun k hk => h k (by omega))
    have e2 : U1 b1 (p1 + n) = U1 b2 (p2 + n) := by
      unfold U1; rw [h n (by omega)]
    simp only [memcpyU, e, e2]

theorem record_U1 (b1 b2 : Nat → Nat) (i1 i2 : Nat) (h : sameRecord b1 i1 b2 i2) (off : Nat)
    (ho : off < 30) : U1 b2 (xf5raw_p i2 + off) = U1 b1 (xf5raw_p i1 + off) := by
  unfold U1; rw [h off ho]

theorem record_type (b1 b2 : Nat → Nat) (i1 i2 : Nat) (h : sameRecord b1 i1 b2 i2) :
    xf5raw_type b2 i2 = xf5raw_type b1 i1 := by
  have := record_U1 b1 b2 i1 i2 h 0 (by decide)
  simpa [xf5raw_type] using this

theorem record_I1 (env : Env) (b1 b2 : Nat → Nat) (i1 i2 : Nat) (h : sameRecord b1 i1 b2 i2)
    (off : Nat) (ho : off < 30) :
    I1 env b2 (xf5raw_p i2 + off) = I1 env b1 (xf5raw_p i1 + off) := by
  unfold I1; rw [record_U1 b1 b2 i1 i2 h off ho]

theorem record_R8 (env : Env) (b1 b2 : Nat → Nat) (i1 i2 : Nat) (h : sameRecord b1 i1 b2 i2)
    (off : Nat) (ho : off + 8 ≤ 30) :
    R8 env b2 (xf5raw_p i2 + off) = R8 env b1 (xf5raw_p i1 + off) := by
  unfold R8
  apply memcpyU_congr
  intro k hk
  rw [Nat.add_assoc, Nat.add_assoc]
  exact (h (off + k) (by omega)).symm

/-- Every value the record loop reads from a record depends on the 30 bytes of
the record only. -/
theorem record_readers (env : Env) (b1 b2 : Nat → Nat) (i1 i2 : Nat)
    (h : sameRecord b1 i1 b2 i2) :
    xf5raw_sat env b2 i2 = xf5raw_sat env b1 i1 ∧
    xf5raw_range env b2 i2 = xf5raw_range env b1 i1 ∧
    xf5raw_slot b2 i2 = xf5raw_slot b1 i1 ∧
    xf5raw_label env b2 i2 = xf5raw_label env b1 i1 ∧
    (∀ toff, xf5raw_Lval env b2 toff i2 = xf5raw_Lval env b1 toff i1) ∧
    (∀ toff dTowFrac, xf5raw_Pval env b2 toff dTowFrac i2 = xf5raw_Pval env b1 toff dTowFrac i1) ∧
    xf5raw_Dval env b2 i2 = xf5raw_Dval env b1 i1 ∧
    xf5raw_SNRval env b2 i2 = xf5raw_SNRval env b1 i1 ∧
    xf5raw_flag b2 i2 = xf5raw_flag b1 i1 := by
  have ht := record_type b1 b2 i1 i2 h
  have u1 := record_U1 b1 b2 i1 i2 h 1 (by decide)
  have u28 := record_U1 b1 b2 i1 i2 h 28 (by decide)
  have c2 := record_I1 env b1 b2 i1 i2 h 2 (by decide)
  have c3 := record_I1 env b1 b2 i1 i2 h 3 (by decide)
  have r4 := record_R8 env b1 b2 i1 i2 h 4 (by decide)
  have r12 := record_R8 env b1 b2 i1 i2 h 12 (by decide)
  have r20 := record_R8 env b1 b2 i1 i2 h 20 (by decide)
  refine ⟨?_, ?_, ?_, ?_, ?_, ?_, ?_, ?_, ?_⟩
  · simp only [xf5raw_sat, ht, u1]
  · simp only [xf5raw_range, r4, r12, r20]
  · simp only [xf5raw_slot, ht]
  · simp only [xf5raw_label, ht]
  · intro toff; simp only [xf5raw_Lval, ht, r4, c2]
  · intro toff dTowFrac; simp only [xf5raw_Pval, r12]
  · simp only [xf5raw_Dval, r20]
  · simp only [xf5raw_SNRval, c3]
  · simp only [xf5raw_flag, u28]
theorem xf5raw_record_moved (env : Env) (time : GTime) (toff dTowFrac : Dbl) (i1 i2 n : Nat)
    (a : Raw) (b2 : Nat → Nat) (l2 : Int) (h : sameRecord a.buff i1 b2 i2) :
    xf5raw_record env time toff dTowFrac i2 n { a with buff := b2, len := l2 } =
      ((xf5raw_record env time toff dTowFrac i1 n a).1,
       { (xf5raw_record env time toff dTowFrac i1 n a).2 with buff := b2, len := l2 }) := by
  obtain ⟨hsat, hrange, hslot, hlabel, hL, hP, hD, hSNR, hflag⟩ :=
    record_readers env a.buff b2 i1 i2 h
  have hd0 : ∀ s, xf5raw_d0 env { a with buff := b2, len := l2 } s n = xf5raw_d0 env a s n :=
    fun _ => rfl
  have hnum : ∀ s, xf5raw_number { a with buff := b2, len := l2 } s n = xf5raw_number a s n :=
    fun _ => rfl
  have hlli : xf5raw_LLIval env { a with buff := b2, len := l2 } i2 = xf5raw_LLIval env a i1 := by
    simp only [xf5raw_LLIval, hsat, hslot, hflag]
  have hd1 : xf5raw_d1 env time toff dTowFrac i2 n { a with buff := b2, len := l2 } =
      xf5raw_d1 env time toff dTowFrac i1 n a := by
    simp only [xf5raw_d1, hsat, hslot, hlabel, hL, hP, hD, hSNR, hlli, hd0]
  unfold xf5raw_record
  simp only [hsat, hrange, hslot, hlabel, hflag, hd1, hd0, hnum]
  exact ite_state_map (fun r => { r with buff := b2, len := l2 }) _ _ _ _ _ rfl
    (ite_state_map (fun r => { r with buff := b2, len := l2 }) _ _ _ _ _ rfl
      (ite_state_map (fun r => { r with buff := b2, len := l2 }) _ _ _ _ _ rfl rfl))
theorem xf5raw_loop_moved (env : Env) (time : GTime) (toff dTowFrac : Dbl) (b2 : Nat → Nat)
    (l2 : Int) (f : Nat → Nat) (is : List Nat) :
    ∀ (n : Nat) (a : Raw), (∀ j ∈ is, sameRecord a.buff j b2 (f j)) →
      xf5raw_loop env time toff dTowFrac (is.map f) n { a with buff := b2, len := l2 } =
        ((xf5raw_loop env time toff dTowFrac is n a).1,
         { (xf5raw_loop env time toff dTowFrac is n a).2 with buff := b2, len := l2 }) := by
  induction is with
  | nil => intro n a _; rfl
  | cons j rest ih =>
    intro n a h
    rw [List.map_cons]
    unfold xf5raw_loop
    by_cases hn : n < env.MAXOBS
    · rw [if_pos hn, if_pos hn,
        xf5raw_record_moved env time toff dTowFrac j (f j) n a b2 l2 (h j (List.mem_cons_self _ _))]
      apply ih
      intro j2 hj2
      rw [(xf5raw_record_frame env time toff dTowFrac j n a).2.2.2.1]
      exact h j2 (List.mem_cons_of_mem _ hj2)
    · rw [if_neg hn, if_neg hn]

theorem xf5raw_loop_stop (env : Env) (time : GTime) (toff dTowFrac : Dbl) (is : List Nat)
    (n : Nat) (raw : Raw) (hn : ¬ n < env.MAXOBS) :
    xf5raw_loop env time toff dTowFrac is n raw = (n, raw) := by
  cases is with
  | nil => rfl
  | cons i rest => unfold xf5raw_loop; rw [if_neg hn]

theorem xf5raw_loop_skip_head (env : Env) (time : GTime) (toff dTowFrac : Dbl) (i : Nat)
    (is : List Nat) (n : Nat) (raw : Raw) (hr : xf5raw_range env raw.buff i = true) :
    xf5raw_loop env time toff dTowFrac (i :: is) n raw =
      xf5raw_loop env time toff dTowFrac is n raw := by
  by_cases hn : n < env.MAXOBS
  · rw [xf5raw_loop, if_pos hn, xf5raw_record_skip env time toff dTowFrac i n raw (Or.inr hr)]
  · rw [xf5raw_loop_stop env time toff dTowFrac _ n raw hn,
      xf5raw_loop_stop env time toff dTowFrac _ n raw hn]

theorem dropRecord_before (buff : Nat → Nat) (i j : Nat) (h : j < i) :
    sameRecord buff j (dropRecord buff i) j := by
  intro k hk
  unfold dropRecord
  rw [if_pos (by unfold xf5raw_p; omega)]

theorem dropRecord_after (buff : Nat → Nat) (i j : Nat) (h : i ≤ j) :
    sameRecord buff (j + 1) (dropRecord buff i) j := by
  intro k hk
  unfold dropRecord
  rw [if_neg (by unfold xf5raw_p; omega)]
  congr 1
  unfold xf5raw_p
  omega

theorem dropRecord_header (env : Env) (buff : Nat → Nat) (i p w : Nat) (h : p + w ≤ 29) :
    memcpyU env (dropRecord buff i) p w = memcpyU env buff p w := by
  apply memcpyU_congr
  intro k hk
  unfold dropRecord
  rw [if_pos (by unfold xf5raw_p; omega)]

/-- The record loop of the frame without a record that fails the range check
gives the count and the state of the loop of the whole frame. -/
theorem xf5raw_loop_drop (env : Env) (time : GTime) (toff dTowFrac : Dbl) (raw : Raw)
    (i N : Nat) (hi : i < N) (hr : xf5raw_range env raw.buff i = true) (l2 : Int) :
    xf5raw_loop env time toff dTowFrac (List.range (N - 1)) 0
        { raw with buff := dropRecord raw.buff i, len := l2 } =
      ((xf5raw_loop env time toff dTowFrac (List.range N) 0 raw).1,
       { (xf5raw_loop env time toff dTowFrac (List.range N) 0 raw).2 with
         buff := dropRecord raw.buff i, len := l2 }) := by
  have hN : N = i + ((N - 1 - i) + 1) := by omega
  have hN1 : N - 1 = i + (N - 1 - i) := by omega
  have eO : List.range N = List.range i ++
      i :: (List.range (N - 1 - i)).map (fun j => i + (j + 1)) := by
    conv => lhs; rw [hN]
    rw [List.range_add, List.range_succ_eq_map, List.map_cons, List.map_map]
    rfl
  have eN : List.range (N - 1) = (List.range i).map id ++
      ((List.range (N - 1 - i)).map (fun j => i + (j + 1))).map Nat.pred := by
    conv => lhs; rw [hN1]
    rw [List.range_add, List.map_id, List.map_map]
    rfl
  have hb1 : (xf5raw_loop env time toff dTowFrac (List.range i) 0 raw).2.buff = raw.buff :=
    (xf5raw_loop_frame env time toff dTowFrac (List.range i) 0 raw).2.2.2.1
  rw [eO, eN, xf5raw_loop_append, xf5raw_loop_append,
    xf5raw_loop_moved env time toff dTowFrac (dropRecord raw.buff i) l2 id (List.range i) 0 raw
      (fun j hj => dropRecord_before raw.buff i j (List.mem_range.mp hj)),
    xf5raw_loop_skip_head env time toff dTowFrac i _ _ _ (by rw [hb1]; exact hr)]
  apply xf5raw_loop_moved
  intro j hj
  rw [hb1]
  obtain ⟨j0, -, rfl⟩ := List.mem_map.mp hj
  exact dropRecord_after raw.buff i (i + j0) (by omega)
theorem withoutRecord_header (env : Env) (raw : Raw) (i : Nat) :
    xf5raw_week env (withoutRecord raw i) = xf5raw_week env raw ∧
    xf5raw_time env (withoutRecord raw i) = xf5raw_time env raw ∧
    xf5raw_toff env (withoutRecord raw i) = xf5raw_toff env raw ∧
    xf5raw_dTowFrac env (withoutRecord raw i) = xf5raw_dTowFrac env raw := by
  have h2 : R8 env (dropRecord raw.buff i) 2 = R8 env raw.buff 2 :=
    dropRecord_header env raw.buff i 2 8 (by decide)
  have h12 : R8 env (dropRecord raw.buff i) (2 + 10) = R8 env raw.buff (2 + 10) :=
    dropRecord_header env raw.buff i (2 + 10) 8 (by decide)
  have h10 : U2 env (dropRecord raw.buff i) (2 + 8) = U2 env raw.buff (2 + 8) :=
    dropRecord_header env raw.buff i (2 + 8) 2 (by decide)
  have hw : xf5raw_week env (withoutRecord raw i) = xf5raw_week env raw := by
    simp only [xf5raw_week, withoutRecord, h10]
  have hg : xf5raw_dTowGPS env (withoutRecord raw i) = xf5raw_dTowGPS env raw := by
    simp only [xf5raw_dTowGPS, withoutRecord, h2, h12]
  have hI : xf5raw_dTowInt env (withoutRecord raw i) = xf5raw_dTowInt env raw := by
    simp only [xf5raw_dTowInt, hg]
  have ho : (withoutRecord raw i).opt = raw.opt := rfl
  refine ⟨hw, ?_, ?_, ?_⟩
  · simp only [xf5raw_time, hw, hI, ho]
  · simp only [xf5raw_toff, hw, hI, ho]
  · simp only [xf5raw_dTowFrac, hg, hI]

/-- C23: a record that fails the range check is skipped and nothing else.  For
every raw-measurement frame that decode_xf5raw accepts and every record `i`
of it whose phase, pseudorange or Doppler fails the range check, decoding the
frame with the 30 bytes of that record removed gives the same status, the same
observation set, the same epoch and the same half-cycle array; the two states
differ in the buffer and the frame length only. -/
theorem decode_xf5raw_drop_rejected (env : Env) (raw : Raw) (i : Nat)
    (hacc : (decode_xf5raw env raw).1 = 1)
    (hi : (i : Int) < Int.tdiv (raw.len - 31) 30)
    (hr : xf5raw_range env raw.buff i = true) :
    (decode_xf5raw env (withoutRecord raw i)).1 = (decode_xf5raw env raw).1 ∧
    (decode_xf5raw env (withoutRecord raw i)).2.obs = (decode_xf5raw env raw).2.obs ∧
    (decode_xf5raw env (withoutRecord raw i)).2.time = (decode_xf5raw env raw).2.time ∧
    (decode_xf5raw env (withoutRecord raw i)).2.halfc = (decode_xf5raw env raw).2.halfc ∧
    (decode_xf5raw env (withoutRecord raw i)).2 =
      { (decode_xf5raw env raw).2 with buff := dropRecord raw.buff i, len := raw.len - 30 } := by
  obtain ⟨hw, ht, hto, hfr⟩ := withoutRecord_header env raw i
  have c1 : ¬ xf5raw_week env raw ≥ 4096 := by
    intro c
    simp only [decode_xf5raw, if_pos c] at hacc
    exact absurd hacc (by decide)
  have c2 : ¬ Int.tmod (raw.len - 31) 30 ≠ 0 := by
    intro c
    simp only [decode_xf5raw, if_neg c1, if_pos c] at hacc
    exact absurd hacc (by decide)
  have c3 : ¬ (raw.time.time ≠ 0 ∧
      env.flt (env.lit 86400 0) (env.fabs (env.timediff (xf5raw_time env raw) raw.time)) = true) := by
    intro c
    simp only [decode_xf5raw, if_neg c1, if_neg c2, if_pos c] at hacc
    exact absurd hacc (by decide)
  have c4 : ¬ (env.fle (env.fabs (env.timediff (xf5raw_time env raw) raw.time)) (env.lit 1 (-3)) =
      true) := by
    intro c
    simp only [decode_xf5raw, if_neg c1, if_neg c2, if_neg c3, if_pos c] at hacc
    exact absurd hacc (by decide)
  have hq := Int.mul_tdiv_cancel_of_tmod_eq_zero (not_not.mp c2)
  have hpos : 0 ≤ raw.len - 30 - 31 := by omega
  have hN : (Int.tdiv (raw.len - 30 - 31) 30).toNat = (Int.tdiv (raw.len - 31) 30).toNat - 1 := by
    rw [Int.tdiv_eq_ediv hpos (by decide)]
    omega
  have hiN : i < (Int.tdiv (raw.len - 31) 30).toNat := by omega
  have c2n : ¬ Int.tmod ((withoutRecord raw i).len - 31) 30 ≠ 0 := by
    show ¬ Int.tmod (raw.len - 30 - 31) 30 ≠ 0
    rw [Int.tmod_eq_emod hpos (by decide)]
    omega
  have hloop := xf5raw_loop_drop env (xf5raw_time env raw) (xf5raw_toff env raw)
    (xf5raw_dTowFrac env raw) { raw with obs := { raw.obs with n := 0 } } i
    (Int.tdiv (raw.len - 31) 30).toNat hiN hr (raw.len - 30)
  have eO : decode_xf5raw env raw =
      (1, { (xf5raw_loop env (xf5raw_time env raw) (xf5raw_toff env raw)
              (xf5raw_dTowFrac env raw) (List.range (Int.tdiv (raw.len - 31) 30).toNat) 0
              { raw with obs := { raw.obs with n := 0 } }).2 with
            time := xf5raw_time env raw
            obs := { (xf5raw_loop env (xf5raw_time env raw) (xf5raw_toff env raw)
                (xf5raw_dTowFrac env raw) (List.range (Int.tdiv (raw.len - 31) 30).toNat) 0
                { raw with obs := { raw.obs with n := 0 } }).2.obs with
              n := (xf5raw_loop env (xf5raw_time env raw) (xf5raw_toff env raw)
                (xf5raw_dTowFrac env raw) (List.range (Int.tdiv (raw.len - 31) 30).toNat) 0
                { raw with obs := { raw.obs with n := 0 } }).1 } }) :=
    decode_xf5raw_accept env raw hacc
  have eN : decode_xf5raw env (withoutRecord raw i) =
      (1, { (xf5raw_loop env (xf5raw_time env raw) (xf5raw_toff env raw)
              (xf5raw_dTowFrac env raw) (List.range ((Int.tdiv (raw.len - 31) 30).toNat - 1)) 0
              { ({ raw with obs := { raw.obs with n := 0 } } : Raw) with
                buff := dropRecord raw.buff i, len := raw.len - 30 }).2 with
            time := xf5raw_time env raw
            obs := { (xf5raw_loop env (xf5raw_time env raw) (xf5raw_toff env raw)
                (xf5raw_dTowFrac env raw)
                (List.range ((Int.tdiv (raw.len - 31) 30).toNat - 1)) 0
                { ({ raw with obs := { raw.obs with n := 0 } } : Raw) with
                  buff := dropRecord raw.buff i, len := raw.len - 30 }).2.obs with
              n := (xf5raw_loop env (xf5raw_time env raw) (xf5raw_toff env raw)
                (xf5raw_dTowFrac env raw)
                (List.range ((Int.tdiv (raw.len - 31) 30).toNat - 1)) 0
                { ({ raw with obs := { raw.obs with n := 0 } } : Raw) with
                  buff := dropRecord raw.buff i, len := raw.len - 30 }).1 } }) := by
    have c1n : ¬ xf5raw_week env (withoutRecord raw i) ≥ 4096 := by rw [hw]; exact c1
    have htime : (withoutRecord raw i).time = raw.time := rfl
    have hlen : (withoutRecord raw i).len = raw.len - 30 := rfl
    unfold decode_xf5raw
    rw [if_neg c1n, if_neg c2n]
    simp only [ht, hto, hfr, htime, hlen, hN]
    rw [if_neg c3, if_neg c4]
    rfl
  rw [eN, eO, hloop]
  exact ⟨rfl, rfl, rfl, rfl, rfl⟩

/-- Witness of C23 at the sample environment: a frame of two records whose first
record has the phase 1e11.  One observation results, with or without that
record. -/
theorem decode_xf5raw_drop_rejected_witness :
    (decode_xf5raw Sample.env Sample.rawBad).2.obs.n = 1 ∧
    (decode_xf5raw Sample.env (withoutRecord Sample.rawBad 0)).2.obs.n = 1 ∧
    ((decode_xf5raw Sample.env (withoutRecord Sample.rawBad 0)).1 =
      (decode_xf5raw Sample.env Sample.rawBad).1 ∧
    (decode_xf5raw Sample.env (withoutRecord Sample.rawBad 0)).2.obs =
      (decode_xf5raw Sample.env Sample.rawBad).2.obs ∧
    (decode_xf5raw Sample.env (withoutRecord Sample.rawBad 0)).2.time =
      (decode_xf5raw Sample.env Sample.rawBad).2.time ∧
    (decode_xf5raw Sample.env (withoutRecord Sample.rawBad 0)).2.halfc =
      (decode_xf5raw Sample.env Sample.rawBad).2.halfc ∧
    (decode_xf5raw Sample.env (withoutRecord Sample.rawBad 0)).2 =
      { (decode_xf5raw Sample.env Sample.rawBad).2 with
        buff := dropRecord Sample.rawBad.buff 0, len := Sample.rawBad.len - 30 }) :=
  ⟨by decide!, by decide!,
   decode_xf5raw_drop_rejected Sample.env Sample.rawBad 0 (by decide!) (by decide!) (by decide!)⟩

end NVS
